import Mathlib

/-!
# BSD performance-sampling core of `os_perf_bsd.cpp`

A shallow embedding of the CPU performance collector of
`src/hotspot/os/bsd/os_perf_bsd.cpp`.

* `uint64_t` values are natural numbers; every `uint64_t` addition,
  multiplication and subtraction is reduced modulo `2^64` explicitly.
* Kernel queries (`sysctl`, `sysctlbyname`, `getrusage`, `host_statistics`)
  are inputs: a `Kernel` value holds what each query answers during one call.
* A `double` output is the exact rational value of the expression that the
  code assigns; a division whose divisor is zero is the fault `div_by_zero`.
* An array access outside the allocated `_cpus` array is the fault
  `out_of_bounds`.
-/

namespace OsPerfBsd

/-! ## Machine integers -/

/-- The modulus of `uint64_t` arithmetic, `2^64`. -/
def U64_MOD : Nat := 18446744073709551616

/-- The conversion `(uint64_t)x` of a signed integer. -/
def u64 (x : Int) : Nat := (x % (U64_MOD : Int)).toNat

/-- Addition of two `uint64_t` values. -/
def add64 (a b : Nat) : Nat := (a + b) % U64_MOD

/-- Subtraction of two `uint64_t` values. -/
def sub64 (a b : Nat) : Nat := (a + (U64_MOD - b % U64_MOD)) % U64_MOD

/-- Multiplication of two `uint64_t` values. -/
def mul64 (a b : Nat) : Nat := (a * b) % U64_MOD

/-! ## Status codes and faults -/

/-- The status codes of `os_perf.hpp` that the queries return. -/
inductive Status where
  | OS_OK
  | OS_ERR
  | FUNCTIONALITY_NOT_IMPLEMENTED
  deriving DecidableEq, Repr

/-- Behaviour that C leaves without a usable value. -/
inductive Fault where
  | div_by_zero
  | out_of_bounds
  deriving DecidableEq, Repr

/-- The quotient `(double)a/b` of two `uint64_t` values, exact; a zero divisor is a fault. -/
def ddiv (a b : Nat) : Except Fault ℚ :=
  if b = 0 then Except.error Fault.div_by_zero else Except.ok ((a : ℚ) / (b : ℚ))

/-! ## Data model (non-Apple) -/

/-- The `struct CPUTicks` of the collector. -/
structure CPUTicks where
  usedTicks : Nat
  totalTicks : Nat
  deriving DecidableEq, Repr

/-- The `struct JVMTicks` of the collector. -/
structure JVMTicks where
  userTicks : Nat
  systemTicks : Nat
  cpuTicks : CPUTicks
  deriving DecidableEq, Repr

/-- The fields of `CPUPerformance` (non-Apple). `_cpus = none` is the `NULL` pointer. -/
structure CPUPerformance where
  _num_procs : Int
  _stathz : Int
  _jvm_ticks : JVMTicks
  _cpus : Option (List CPUTicks)
  _total_csr_nanos : Int
  _jvm_context_switches : Int
  deriving DecidableEq, Repr

/-- The `struct timeval` of `getrusage`. -/
structure timeval where
  tv_sec : Int
  tv_usec : Int
  deriving DecidableEq, Repr

/-- The two fields of `struct rusage` that the collector reads. -/
structure rusage where
  ru_utime : timeval
  ru_stime : timeval
  deriving DecidableEq, Repr

/-- The BSD flavour the file is compiled for (the `#if defined(...)` branches). -/
inductive Platform where
  | FreeBSD
  | OpenBSD
  | NetBSD
  | OtherBSD
  deriving DecidableEq, Repr

/-- What the operating system answers during one call of the collector.
`none` is a failed query. `CPUSTATES` and `CP_IDLE` are the constants of the
system headers; a tick array is the content of `cpu_load_info` after the query. -/
structure Kernel where
  platform : Platform
  CPUSTATES : Nat
  CP_IDLE : Nat
  /-- The answer of `os::active_processor_count()`. -/
  active_processor_count : Int
  /-- The field `stathz` of `sysctl(CTL_KERN, KERN_CLOCKRATE)`. -/
  clockrate : Option Int
  /-- Whether `NEW_C_HEAP_ARRAY_RETURN_NULL` returns an array. -/
  alloc_ok : Bool
  /-- The answer of `kern.cp_time` (`KERN_CPTIME` on OpenBSD). -/
  cp_time : Option (List Int)
  /-- The answer of `KERN_CPTIME2` (OpenBSD) or `kern.cp_time.%d`, per selector. -/
  cp_time_cpu : Int → Option (List Int)
  /-- The answer of `kern.cp_times` (FreeBSD) when read for a selector. -/
  cp_times : Int → Option (List Int)
  /-- The answer of `getrusage(RUSAGE_SELF)`. -/
  getrusage : Option rusage

/-! ## Tick source -/

/-- The array `cpu_load_info` that `get_cpu_ticks` fills, or `none` when the query fails. -/
def read_cpu_load_info (k : Kernel) (_num_procs : Int) (which_logical_cpu : Int) :
    Option (List Int) :=
  if which_logical_cpu = -1 then
    match k.platform with
    | Platform.OpenBSD =>
      match k.cp_time with
      | none => none
      | some cpu_load_info => some (cpu_load_info.map (fun x => x * _num_procs))
    | _ => k.cp_time
  else
    match k.platform with
    | Platform.OpenBSD => k.cp_time_cpu which_logical_cpu
    | Platform.FreeBSD =>
      match k.cp_times which_logical_cpu with
      | none => none
      | some allcpus =>
        some ((allcpus.drop (which_logical_cpu.toNat * k.CPUSTATES)).take k.CPUSTATES)
    | _ => k.cp_time_cpu which_logical_cpu

/-- The function `get_cpu_ticks`: `none` is `OS_ERR`, `some ticks` is `OS_OK` with `*ticks`. -/
def get_cpu_ticks (k : Kernel) (_num_procs : Int) (which_logical_cpu : Int) :
    Option CPUTicks :=
  match read_cpu_load_info k _num_procs which_logical_cpu with
  | none => none
  | some cpu_load_info =>
    let totalTicks := (List.range k.CPUSTATES).foldl
      (fun acc i => add64 acc (u64 (cpu_load_info.getD i 0))) 0
    let usedTicks := sub64 totalTicks (u64 (cpu_load_info.getD k.CP_IDLE 0))
    some { usedTicks := usedTicks, totalTicks := totalTicks }

/-- The function `tvtoticks`. -/
def tvtoticks (_stathz : Int) (tv : timeval) : Nat :=
  let ticks := 0
  let ticks := add64 ticks (mul64 (u64 tv.tv_sec) (u64 _stathz))
  let ticks := add64 ticks (mul64 (u64 tv.tv_usec) (u64 _stathz) / (1000 * 1000))
  ticks

/-- The function `get_jvm_ticks`: `none` is `OS_ERR`, `some t` is `OS_OK` with `*jvm_ticks`. -/
def get_jvm_ticks (k : Kernel) (_stathz : Int) (_num_procs : Int) : Option JVMTicks :=
  match k.getrusage with
  | none => none
  | some usage =>
    match get_cpu_ticks k _num_procs (-1) with
    | none => none
    | some cpuTicks =>
      let userTicks := tvtoticks _stathz usage.ru_utime
      let systemTicks := tvtoticks _stathz usage.ru_stime
      let cpuTicks : CPUTicks :=
        if add64 userTicks systemTicks > cpuTicks.usedTicks then
          { cpuTicks with usedTicks := add64 userTicks systemTicks }
        else cpuTicks
      let cpuTicks : CPUTicks :=
        if cpuTicks.usedTicks > cpuTicks.totalTicks then
          { cpuTicks with totalTicks := cpuTicks.usedTicks }
        else cpuTicks
      some { userTicks := userTicks, systemTicks := systemTicks, cpuTicks := cpuTicks }

/-! ## The collector -/

/-- The result of `cpu_load`: status, `*cpu_load`, and the collector afterwards. -/
structure LoadResult where
  status : Status
  cpu_load : ℚ
  state : CPUPerformance

/-- The constructor `CPUPerformance()`. -/
def CPUPerformance.new : CPUPerformance :=
  { _num_procs := 0
    _stathz := 0
    _jvm_ticks := { userTicks := 0, systemTicks := 0, cpuTicks := { usedTicks := 0, totalTicks := 0 } }
    _cpus := none
    _total_csr_nanos := 0
    _jvm_context_switches := 0 }

/-- The function `cpu_load`. -/
def cpu_load (k : Kernel) (s : CPUPerformance) (which_logical_cpu : Int) :
    Except Fault LoadResult :=
  match s._cpus with
  | none => Except.ok { status := Status.OS_ERR, cpu_load := 0, state := s }
  | some cpus =>
    if which_logical_cpu < -1 ∨ which_logical_cpu ≥ s._num_procs then
      Except.ok { status := Status.OS_ERR, cpu_load := 0, state := s }
    else
      match get_cpu_ticks k s._num_procs which_logical_cpu with
      | none => Except.ok { status := Status.OS_ERR, cpu_load := 0, state := s }
      | some curCPUTicks =>
        let cpu_idx : Int := if which_logical_cpu = -1 then s._num_procs else which_logical_cpu
        match cpus[cpu_idx.toNat]? with
        | none => Except.error Fault.out_of_bounds
        | some prevCPUTicks =>
          let cpuUsedDelta :=
            if curCPUTicks.usedTicks > prevCPUTicks.usedTicks then
              curCPUTicks.usedTicks - prevCPUTicks.usedTicks else 0
          let cpuTotalDelta :=
            if curCPUTicks.totalTicks > prevCPUTicks.totalTicks then
              curCPUTicks.totalTicks - prevCPUTicks.totalTicks else 0
          let s1 : CPUPerformance :=
            { s with _cpus := some (cpus.set cpu_idx.toNat
                { usedTicks := curCPUTicks.usedTicks, totalTicks := curCPUTicks.totalTicks }) }
          if cpuTotalDelta = 0 then
            Except.ok { status := Status.OS_ERR, cpu_load := 0, state := s1 }
          else
            let cpuTotalDelta := if cpuUsedDelta > cpuTotalDelta then cpuUsedDelta else cpuTotalDelta
            match ddiv cpuUsedDelta cpuTotalDelta with
            | Except.error f => Except.error f
            | Except.ok q => Except.ok { status := Status.OS_OK, cpu_load := q, state := s1 }

/-- The result of `cpu_loads_process`: status, the three outputs, and the collector afterwards. -/
structure LoadsResult where
  status : Status
  jvmUserLoad : ℚ
  jvmKernelLoad : ℚ
  systemTotalLoad : ℚ
  state : CPUPerformance

/-- The function `cpu_loads_process` (non-Apple). -/
def cpu_loads_process (k : Kernel) (s : CPUPerformance) : Except Fault LoadsResult :=
  match s._cpus with
  | none =>
    Except.ok { status := Status.OS_ERR, jvmUserLoad := 0, jvmKernelLoad := 0,
                systemTotalLoad := 0, state := s }
  | some _ =>
    match get_jvm_ticks k s._stathz s._num_procs with
    | none =>
      Except.ok { status := Status.OS_ERR, jvmUserLoad := 0, jvmKernelLoad := 0,
                  systemTotalLoad := 0, state := s }
    | some curJVMTicks =>
      let curCPUTicks := curJVMTicks.cpuTicks
      let prevCPUTicks := s._jvm_ticks.cpuTicks
      let jvmUserDelta :=
        if curJVMTicks.userTicks > s._jvm_ticks.userTicks then
          curJVMTicks.userTicks - s._jvm_ticks.userTicks else 0
      let jvmSystemDelta :=
        if curJVMTicks.systemTicks > s._jvm_ticks.systemTicks then
          curJVMTicks.systemTicks - s._jvm_ticks.systemTicks else 0
      let cpuUsedDelta :=
        if curCPUTicks.usedTicks > prevCPUTicks.usedTicks then
          curCPUTicks.usedTicks - prevCPUTicks.usedTicks else 0
      let cpuTotalDelta :=
        if curCPUTicks.totalTicks > prevCPUTicks.totalTicks then
          curCPUTicks.totalTicks - prevCPUTicks.totalTicks else 0
      let s1 : CPUPerformance :=
        { s with _jvm_ticks :=
            { userTicks := curJVMTicks.userTicks
              systemTicks := curJVMTicks.systemTicks
              cpuTicks := { usedTicks := curCPUTicks.usedTicks
                            totalTicks := curCPUTicks.totalTicks } } }
      let cpuUsedDelta :=
        if add64 jvmUserDelta jvmSystemDelta > cpuUsedDelta then
          add64 jvmUserDelta jvmSystemDelta else cpuUsedDelta
      let cpuTotalDelta := if cpuUsedDelta > cpuTotalDelta then cpuUsedDelta else cpuTotalDelta
      if cpuTotalDelta = 0 then
        Except.ok { status := Status.OS_ERR, jvmUserLoad := 0, jvmKernelLoad := 0,
                    systemTotalLoad := 0, state := s1 }
      else
        match ddiv jvmUserDelta cpuTotalDelta, ddiv jvmSystemDelta cpuTotalDelta,
              ddiv cpuUsedDelta cpuTotalDelta with
        | Except.ok u, Except.ok kl, Except.ok t =>
          Except.ok { status := Status.OS_OK, jvmUserLoad := u, jvmKernelLoad := kl,
                      systemTotalLoad := t, state := s1 }
        | Except.error f, _, _ => Except.error f
        | _, Except.error f, _ => Except.error f
        | _, _, Except.error f => Except.error f

/-- The function `cpu_load_total_process` (non-Apple). -/
def cpu_load_total_process (k : Kernel) (s : CPUPerformance) : Except Fault LoadResult :=
  match cpu_loads_process k s with
  | Except.error f => Except.error f
  | Except.ok r =>
    if r.status ≠ Status.OS_OK then
      Except.ok { status := Status.OS_ERR, cpu_load := 0, state := r.state }
    else
      Except.ok { status := Status.OS_OK, cpu_load := r.jvmUserLoad + r.jvmKernelLoad,
                  state := r.state }

/-- The function `init_stathz`. -/
def init_stathz (k : Kernel) (s : CPUPerformance) : Status × CPUPerformance :=
  match k.clockrate with
  | none => (Status.OS_ERR, s)
  | some stathz => (Status.OS_OK, { s with _stathz := stathz })

/-- The loop of `initialize` over the logical CPUs, which ignores failed reads. -/
def initialize_each_cpu (k : Kernel) (_num_procs : Int) (cpus : List CPUTicks) : List CPUTicks :=
  (List.range _num_procs.toNat).foldl
    (fun (cpus : List CPUTicks) (i : Nat) =>
      match get_cpu_ticks k _num_procs (i : Int) with
      | none => cpus
      | some ticks => cpus.set i ticks)
    cpus

/-- The function `CPUPerformance::initialize()` (non-Apple). The kernel `k` answers the processor count,
the clock rate, the allocation and the per-selector tick reads; `kj` answers the later
`get_jvm_ticks` call. -/
def initialize_perf (k kj : Kernel) (s : CPUPerformance) : Bool × CPUPerformance :=
  let s : CPUPerformance := { s with _num_procs := k.active_processor_count }
  if s._num_procs < 1 then (false, s)
  else
    match init_stathz k s with
    | (Status.OS_OK, s) =>
      if k.alloc_ok = false then (false, { s with _cpus := none })
      else
        let cpus : List CPUTicks :=
          List.replicate (s._num_procs + 1).toNat { usedTicks := 0, totalTicks := 0 }
        match get_cpu_ticks k s._num_procs (-1) with
        | none => (false, { s with _cpus := none })
        | some ticks =>
          let cpus := cpus.set s._num_procs.toNat ticks
          let cpus := initialize_each_cpu k s._num_procs cpus
          match get_jvm_ticks kj s._stathz s._num_procs with
          | none => (false, { s with _cpus := none })
          | some jvm_ticks => (true, { s with _cpus := some cpus, _jvm_ticks := jvm_ticks })
    | (_, s) => (false, s)

/-- The consistency that `get_jvm_ticks` enforces, with the `uint64_t` sum the code compares:
`(userTicks + systemTicks) mod 2^64 ≤ usedTicks ≤ totalTicks`. -/
def JVMTicks.consistent (j : JVMTicks) : Prop :=
  add64 j.userTicks j.systemTicks ≤ j.cpuTicks.usedTicks ∧
    j.cpuTicks.usedTicks ≤ j.cpuTicks.totalTicks

/-- The `_cpus` array, when allocated, has `_num_procs + 1` slots. -/
def CPUPerformance.wf (s : CPUPerformance) : Prop :=
  match s._cpus with
  | none => True
  | some cpus => (cpus.length : Int) = s._num_procs + 1

instance (s : CPUPerformance) : Decidable s.wf := by
  unfold CPUPerformance.wf
  cases s._cpus <;> infer_instance

instance (j : JVMTicks) : Decidable j.consistent := by
  unfold JVMTicks.consistent
  infer_instance

/-- The slot of `_cpus` that `cpu_load` uses for a selector. -/
def cpu_idx (s : CPUPerformance) (which_logical_cpu : Int) : Nat :=
  (if which_logical_cpu = -1 then s._num_procs else which_logical_cpu).toNat

/-- The state `cpu_load` leaves after a successful read of `cur` for slot `i`. -/
def cpu_load_stored (s : CPUPerformance) (cpus : List CPUTicks) (i : Nat) (cur : CPUTicks) :
    CPUPerformance :=
  { s with _cpus := some (cpus.set i cur) }

/-- The states the collector reaches from construction by its own operations. -/
inductive Reachable : CPUPerformance → Prop where
  | construct : Reachable CPUPerformance.new
  | init (k kj : Kernel) (s : CPUPerformance) :
      Reachable s → Reachable (initialize_perf k kj s).2
  | cpu_load (k : Kernel) (s : CPUPerformance) (which_logical_cpu : Int) (r : LoadResult) :
      Reachable s → cpu_load k s which_logical_cpu = Except.ok r → Reachable r.state
  | cpu_loads_process (k : Kernel) (s : CPUPerformance) (r : LoadsResult) :
      Reachable s → cpu_loads_process k s = Except.ok r → Reachable r.state
  | cpu_load_total_process (k : Kernel) (s : CPUPerformance) (r : LoadResult) :
      Reachable s → cpu_load_total_process k s = Except.ok r → Reachable r.state

/-! ## The Apple variant -/

namespace Apple

/-- The fields of `CPUPerformance` under `__APPLE__`. -/
structure CPUPerformance where
  _total_cpu_nanos : Int
  _total_csr_nanos : Int
  _jvm_user_nanos : Int
  _jvm_system_nanos : Int
  _jvm_context_switches : Int
  _used_ticks : Int
  _total_ticks : Int
  _active_processor_count : Int
  deriving DecidableEq, Repr

/-- The array `cpu_ticks` of `host_cpu_load_info_data_t`, of 32-bit `natural_t` counters. -/
structure host_cpu_load_info where
  CPU_STATE_USER : Nat
  CPU_STATE_NICE : Nat
  CPU_STATE_SYSTEM : Nat
  CPU_STATE_IDLE : Nat
  deriving DecidableEq, Repr

/-- The modulus of `natural_t` (`unsigned int`) arithmetic. -/
def U32_MOD : Nat := 4294967296

/-- The quotient `(double)a / b` of two `long` values, exact; a zero divisor is a fault. -/
def ddiv (a b : Int) : Except Fault ℚ :=
  if b = 0 then Except.error Fault.div_by_zero else Except.ok ((a : ℚ) / (b : ℚ))

/-- The result of the Apple `cpu_load_total_process`; `cpu_load = none` leaves `*cpu_load`
as it was. -/
structure LoadResult where
  status : Status
  cpu_load : Option ℚ
  state : CPUPerformance

/-- The function `cpu_load_total_process` under `__APPLE__`; `host = none` is a failed
`host_statistics`. -/
def cpu_load_total_process (host : Option host_cpu_load_info) (s : CPUPerformance) :
    Except Fault LoadResult :=
  match host with
  | none => Except.ok { status := Status.OS_ERR, cpu_load := none, state := s }
  | some cpu_load_info =>
    let used_ticks : Int :=
      (((cpu_load_info.CPU_STATE_USER + cpu_load_info.CPU_STATE_NICE
          + cpu_load_info.CPU_STATE_SYSTEM) % U32_MOD : Nat) : Int)
    let total_ticks : Int := used_ticks + (cpu_load_info.CPU_STATE_IDLE : Int)
    if s._used_ticks = 0 ∨ s._total_ticks = 0 then
      Except.ok { status := Status.OS_ERR, cpu_load := none,
                  state := { s with _used_ticks := used_ticks, _total_ticks := total_ticks } }
    else
      let used_delta := used_ticks - s._used_ticks
      let total_delta := total_ticks - s._total_ticks
      let s1 : CPUPerformance := { s with _used_ticks := used_ticks, _total_ticks := total_ticks }
      if total_delta = 0 then
        Except.ok { status := Status.OS_ERR, cpu_load := none, state := s1 }
      else
        match ddiv used_delta total_delta with
        | Except.error f => Except.error f
        | Except.ok q => Except.ok { status := Status.OS_OK, cpu_load := some q, state := s1 }

end Apple

/-! ## Sample inputs -/

/-- A FreeBSD kernel, with two processors, whose aggregate and per-CPU tick queries answer
the array `cp`, and whose `getrusage` answers `ru`. -/
def sample_kernel (cp : List Int) (ru : rusage) : Kernel :=
  { platform := Platform.FreeBSD
    CPUSTATES := 5
    CP_IDLE := 4
    active_processor_count := 2
    clockrate := some 128
    alloc_ok := true
    cp_time := some cp
    cp_time_cpu := fun _ => some cp
    cp_times := fun _ => some (cp ++ cp)
    getrusage := some ru }

/-- A process that has used `u` user seconds and `sy` system seconds. -/
def sample_rusage (u sy : Int) : rusage :=
  { ru_utime := { tv_sec := u, tv_usec := 0 }, ru_stime := { tv_sec := sy, tv_usec := 0 } }

/-- An initialised collector with two processors whose three slots hold `prev`. -/
def sample_state (prev : CPUTicks) (jvm : JVMTicks) : CPUPerformance :=
  { _num_procs := 2
    _stathz := 128
    _jvm_ticks := jvm
    _cpus := some [prev, prev, prev]
    _total_csr_nanos := 0
    _jvm_context_switches := 0 }

/-! ## Reference definitions, in the words of the specification -/

/-- The specification's `max(0, cur - prev)`, as an exact number. -/
def saturating_delta (cur prev : Nat) : ℚ := max 0 ((cur : ℚ) - (prev : ℚ))

/-- The specification's corrected used delta `U = max(cu, ju + js)` for `cpu_loads_process`. -/
def spec_used_delta (prev cur : JVMTicks) : ℚ :=
  max (saturating_delta cur.cpuTicks.usedTicks prev.cpuTicks.usedTicks)
    (saturating_delta cur.userTicks prev.userTicks
      + saturating_delta cur.systemTicks prev.systemTicks)

/-- The specification's corrected total delta `T = max(ct, U)` for `cpu_loads_process`. -/
def spec_total_delta (prev cur : JVMTicks) : ℚ :=
  max (saturating_delta cur.cpuTicks.totalTicks prev.cpuTicks.totalTicks)
    (spec_used_delta prev cur)

/-- The specification's `cpuLoadsProcess` on a successful sample read `cur`: `OS_ERR` with
three zero outputs when `T = 0`, otherwise `OS_OK` with `ju/T`, `js/T`, `U/T`; the stored
JVM tick sample becomes `cur`. -/
def cpu_loads_process_spec (s : CPUPerformance) (cur : JVMTicks) : LoadsResult :=
  if spec_total_delta s._jvm_ticks cur = 0 then
    { status := Status.OS_ERR, jvmUserLoad := 0, jvmKernelLoad := 0, systemTotalLoad := 0,
      state := { s with _jvm_ticks := cur } }
  else
    { status := Status.OS_OK
      jvmUserLoad := saturating_delta cur.userTicks s._jvm_ticks.userTicks
        / spec_total_delta s._jvm_ticks cur
      jvmKernelLoad := saturating_delta cur.systemTicks s._jvm_ticks.systemTicks
        / spec_total_delta s._jvm_ticks cur
      systemTotalLoad := spec_used_delta s._jvm_ticks cur / spec_total_delta s._jvm_ticks cur
      state := { s with _jvm_ticks := cur } }

/-- The corrected used delta that the code of `cpu_loads_process` computes. -/
def code_used_delta (prev cur : JVMTicks) : Nat :=
  max (cur.cpuTicks.usedTicks - prev.cpuTicks.usedTicks)
    (add64 (cur.userTicks - prev.userTicks) (cur.systemTicks - prev.systemTicks))

/-- The corrected total delta that the code of `cpu_loads_process` computes. -/
def code_total_delta (prev cur : JVMTicks) : Nat :=
  max (cur.cpuTicks.totalTicks - prev.cpuTicks.totalTicks) (code_used_delta prev cur)

/-- The host-wide used ticks that the Apple `cpu_load_total_process` computes. -/
def Apple.host_used_ticks (cpu_load_info : Apple.host_cpu_load_info) : Int :=
  (((cpu_load_info.CPU_STATE_USER + cpu_load_info.CPU_STATE_NICE
      + cpu_load_info.CPU_STATE_SYSTEM) % Apple.U32_MOD : Nat) : Int)

/-- The host-wide total ticks that the Apple `cpu_load_total_process` computes. -/
def Apple.host_total_ticks (cpu_load_info : Apple.host_cpu_load_info) : Int :=
  Apple.host_used_ticks cpu_load_info + (cpu_load_info.CPU_STATE_IDLE : Int)

/-! ## Context-switch rate -/

/-- The conversion `(unsigned int)x`. -/
def u32 (x : Int) : Nat := (x % 4294967296).toNat

/-- The constant `NANOS_PER_SEC`. -/
def NANOS_PER_SEC : ℚ := 1000000000

/-- The quotient `a / b` of a `long` by a `double`, exact; a zero divisor is a fault. -/
def fdiv (a : Int) (b : ℚ) : Except Fault ℚ :=
  if b = 0 then Except.error Fault.div_by_zero else Except.ok ((a : ℚ) / b)

/-- What the kernel and the clock answer during one `context_switch_rate` call: `swtch` is
the counter that the context-switch query of the platform delivers (`none` when the query
fails), `now` is the value that `now_in_nanos` stores (`none` when `gettimeofday` fails). -/
structure SwitchClock where
  swtch : Option Int
  now : Option Int
  deriving DecidableEq, Repr

/-- The two fields `_total_csr_nanos` and `_jvm_context_switches`, which both variants of
the collector hold. -/
structure SwitchBaseline where
  _total_csr_nanos : Int
  _jvm_context_switches : Int
  deriving DecidableEq, Repr

/-- The result of the common part of `context_switch_rate`: status, `*rate` when it is
assigned, and the two stored fields afterwards. -/
structure RateTail where
  status : Status
  rate : Option ℚ
  baseline : SwitchBaseline

/-- The part of `context_switch_rate` that all platforms share (from `int result = OS_OK`
on), given the counter `jvm_context_switches` that the platform part has read. -/
def context_switch_rate_tail (jvm_context_switches : Int) (now : Option Int)
    (b : SwitchBaseline) : Except Fault RateTail :=
  let result : Status :=
    if b._total_csr_nanos = 0 ∨ b._jvm_context_switches = 0 then Status.OS_ERR
    else Status.OS_OK
  match now with
  | none => Except.ok { status := Status.OS_ERR, rate := none, baseline := b }
  | some total_csr_nanos =>
    let delta_in_sec : ℚ := ((total_csr_nanos - b._total_csr_nanos : Int) : ℚ) / NANOS_PER_SEC
    if delta_in_sec = 0 then
      Except.ok { status := Status.OS_ERR, rate := none, baseline := b }
    else
      match fdiv (jvm_context_switches - b._jvm_context_switches) delta_in_sec with
      | Except.error f => Except.error f
      | Except.ok q =>
        Except.ok { status := result, rate := some q
                    baseline := { _total_csr_nanos := total_csr_nanos
                                  _jvm_context_switches := jvm_context_switches } }

/-- The result of `context_switch_rate`: status, `*rate` when it is assigned, and the
collector afterwards. -/
structure RateResult where
  status : Status
  rate : Option ℚ
  state : CPUPerformance

/-- The function `context_switch_rate` on FreeBSD, OpenBSD and NetBSD, where the counter
is an `unsigned int`. -/
def context_switch_rate (k : SwitchClock) (s : CPUPerformance) : Except Fault RateResult :=
  match k.swtch with
  | none => Except.ok { status := Status.OS_ERR, rate := none, state := s }
  | some swtch =>
    let jvm_context_switches : Int := (u32 swtch : Int)
    match context_switch_rate_tail jvm_context_switches k.now
        { _total_csr_nanos := s._total_csr_nanos
          _jvm_context_switches := s._jvm_context_switches } with
    | Except.error f => Except.error f
    | Except.ok r =>
      Except.ok { status := r.status, rate := r.rate
                  state := { s with _total_csr_nanos := r.baseline._total_csr_nanos
                                    _jvm_context_switches := r.baseline._jvm_context_switches } }

/-- The result of the Apple `context_switch_rate`. -/
structure Apple.RateResult where
  status : Status
  rate : Option ℚ
  state : Apple.CPUPerformance

/-- The function `context_switch_rate` under `__APPLE__`, where the counter is the `csw`
field of `task_info(TASK_EVENTS_INFO)`, held in a `long`. -/
def Apple.context_switch_rate (k : SwitchClock) (s : Apple.CPUPerformance) :
    Except Fault Apple.RateResult :=
  match k.swtch with
  | none => Except.ok { status := Status.OS_ERR, rate := none, state := s }
  | some csw =>
    let jvm_context_switches : Int := csw
    match context_switch_rate_tail jvm_context_switches k.now
        { _total_csr_nanos := s._total_csr_nanos
          _jvm_context_switches := s._jvm_context_switches } with
    | Except.error f => Except.error f
    | Except.ok r =>
      Except.ok { status := r.status, rate := r.rate
                  state := { s with _total_csr_nanos := r.baseline._total_csr_nanos
                                    _jvm_context_switches := r.baseline._jvm_context_switches } }

/-- The Apple constructor `CPUPerformance()`. -/
def Apple.CPUPerformance.new : Apple.CPUPerformance :=
  { _total_cpu_nanos := 0
    _total_csr_nanos := 0
    _jvm_user_nanos := 0
    _jvm_system_nanos := 0
    _jvm_context_switches := 0
    _used_ticks := 0
    _total_ticks := 0
    _active_processor_count := 0 }

/-! ## System processes -/

/-- A `SystemProcess` record as the enumerators fill it: pid and path (the bytes of the
C string, without the final NUL); the command line stays unset. A `List SystemProcess`
is a chain of records, from its head along `next`. -/
structure SystemProcess where
  pid : Int
  path : List Nat
  deriving DecidableEq, Repr

/-- The C string found at `s`: the bytes before the first NUL. -/
def cstring (s : List Nat) : List Nat :=
  s.takeWhile (fun b => b ≠ 0)

/-- The function `strnlen` of C on the bytes found at `s`. -/
def strnlen (s : List Nat) (maxlen : Nat) : Nat :=
  (cstring (s.take maxlen)).length

/-- The function `strlen` of C on the bytes found at `s`. -/
def strlen (s : List Nat) : Nat :=
  (cstring s).length

/-- The outputs of `system_processes`: the status, and `*system_processes` and
`*no_of_sys_processes` when they are written. -/
structure ProcessListing where
  status : Status
  system_processes : Option (List SystemProcess)
  no_of_sys_processes : Option Int
  deriving DecidableEq, Repr

namespace FreeBSD

/-- An entry of the process table together with what `sysctl(KERN_PROC_PATHNAME)` answers
for it: `none` is the failed query, `some buffer` the content of `buffer` after it. -/
structure kinfo_proc where
  ki_pid : Int
  pathname : Option (List Nat)
  deriving DecidableEq, Repr

/-- What the kernel answers during one `system_processes` call on FreeBSD: whether the
size probe succeeds, whether `malloc` returns memory, and the table read (`none` when the
read fails). `PATH_MAX` is the constant of the system headers. -/
structure ProcTable where
  PATH_MAX : Nat
  size_probe_ok : Bool
  malloc_ok : Bool
  lproc : Option (List kinfo_proc)
  deriving DecidableEq, Repr

/-- The `for` loop of `system_processes` on FreeBSD, from entry `i` on, with the values of
`next` and `process_count` before the entry. -/
def system_processes_loop (PATH_MAX : Nat) :
    List kinfo_proc → List SystemProcess → Int → List SystemProcess × Int
  | [], next, process_count => (next, process_count)
  | p :: rest, next, process_count =>
    match p.pathname with
    | none => system_processes_loop PATH_MAX rest next process_count
    | some buffer =>
      let length := strnlen buffer PATH_MAX
      if length > 0 then
        let current : SystemProcess := { pid := p.ki_pid, path := buffer.take length }
        system_processes_loop PATH_MAX rest (current :: next) (process_count + 1)
      else
        system_processes_loop PATH_MAX rest next process_count

/-- The function `system_processes` under `__FreeBSD__`. -/
def system_processes (k : ProcTable) : ProcessListing :=
  if k.size_probe_ok = false then
    { status := Status.OS_ERR, system_processes := none, no_of_sys_processes := none }
  else if k.malloc_ok = false then
    { status := Status.OS_ERR, system_processes := none, no_of_sys_processes := none }
  else
    match k.lproc with
    | none => { status := Status.OS_ERR, system_processes := none, no_of_sys_processes := none }
    | some lproc =>
      let r := system_processes_loop k.PATH_MAX lproc [] 0
      { status := Status.OS_OK, system_processes := some r.1, no_of_sys_processes := some r.2 }

/-- The record that the claim expects for a table entry: one for an entry whose path query
succeeded with a non-empty path, none otherwise. -/
def resolved (PATH_MAX : Nat) (p : kinfo_proc) : Option SystemProcess :=
  match p.pathname with
  | none => none
  | some buffer =>
    if cstring (buffer.take PATH_MAX) = [] then none
    else some { pid := p.ki_pid, path := cstring (buffer.take PATH_MAX) }

end FreeBSD

namespace OpenBSD

/-- An entry of the process table together with what the kernel answers for it in the
loop: the size query of `KERN_PROC_ARGS` (`none` when it fails), whether `malloc` returns
memory, and the argument query (`none` when it fails, otherwise the `length` it reports
and `argv[0]`, where `none` is the `NULL` pointer and `some s` the bytes found there). -/
structure kinfo_proc where
  p_pid : Int
  args_size : Option Nat
  malloc_ok : Bool
  args : Option (Nat × Option (List Nat))
  deriving DecidableEq, Repr

/-- What the kernel answers during one `system_processes` call on OpenBSD. -/
structure ProcTable where
  size_probe_ok : Bool
  malloc_ok : Bool
  lproc : Option (List kinfo_proc)
  deriving DecidableEq, Repr

/-- The variables `ret`, `next` and `process_count` of `system_processes`, and the log
`allocated` of the records made by `new SystemProcess()`, oldest first. -/
structure LoopState where
  ret : Status
  next : List SystemProcess
  process_count : Int
  allocated : List SystemProcess
  deriving DecidableEq, Repr

/-- The `for` loop of `system_processes` on OpenBSD, from entry `i` on; a `break` ends it. -/
def system_processes_loop : List kinfo_proc → LoopState → LoopState
  | [], st => st
  | p :: rest, st =>
    match p.args_size with
    | none => { st with ret := Status.OS_ERR }
    | some _ =>
      if p.malloc_ok = false then { st with ret := Status.OS_ERR }
      else
        match p.args with
        | none => { st with ret := Status.OS_ERR }
        | some (length, argv0) =>
          match argv0 with
          | none => system_processes_loop rest st
          | some s =>
            let slen := strnlen s length
            if slen > 0 then
              let current : SystemProcess := { pid := p.p_pid, path := s.take slen }
              system_processes_loop rest
                { st with next := current :: st.next, process_count := st.process_count + 1
                          allocated := st.allocated ++ [current] }
            else
              system_processes_loop rest st

/-- The loop `while (current) { next = current->next(); delete current; current = next; }`:
the records it deletes, in the order it deletes them. -/
def delete_chain : List SystemProcess → List SystemProcess
  | [] => []
  | current :: next => current :: delete_chain next

/-- The result of `system_processes` on OpenBSD: the outputs, the records that the call
has allocated with `new SystemProcess()`, and the records that it has deleted. -/
structure Listing where
  out : ProcessListing
  allocated : List SystemProcess
  deleted : List SystemProcess
  deriving DecidableEq, Repr

/-- The function `system_processes` under `__OpenBSD__`. -/
def system_processes (k : ProcTable) : Listing :=
  if k.size_probe_ok = false then
    { out := { status := Status.OS_ERR, system_processes := none, no_of_sys_processes := none }
      allocated := [], deleted := [] }
  else if k.malloc_ok = false then
    { out := { status := Status.OS_ERR, system_processes := none, no_of_sys_processes := none }
      allocated := [], deleted := [] }
  else
    match k.lproc with
    | none =>
      { out := { status := Status.OS_ERR, system_processes := none, no_of_sys_processes := none }
        allocated := [], deleted := [] }
    | some lproc =>
      let st := system_processes_loop lproc
        { ret := Status.OS_OK, next := [], process_count := 0, allocated := [] }
      if st.ret ≠ Status.OS_OK then
        { out := { status := st.ret, system_processes := none, no_of_sys_processes := none }
          allocated := st.allocated, deleted := delete_chain st.next }
      else
        { out := { status := Status.OS_OK, system_processes := some st.next
                   no_of_sys_processes := some st.process_count }
          allocated := st.allocated, deleted := [] }

/-- Whether the loop breaks with `ret = OS_ERR` at an entry: a failed size query, a failed
`malloc`, or a failed argument query. -/
def fatal (p : kinfo_proc) : Bool :=
  match p.args_size with
  | none => true
  | some _ =>
    if p.malloc_ok = false then true
    else
      match p.args with
      | none => true
      | some _ => false

/-- The record that the loop builds for an entry that is not fatal: none when `argv[0]` is
`NULL` or an empty string. -/
def resolved (p : kinfo_proc) : Option SystemProcess :=
  match p.args with
  | some (length, some s) =>
    if cstring (s.take length) = [] then none
    else some { pid := p.p_pid, path := cstring (s.take length) }
  | _ => none

end OpenBSD

namespace Apple

/-- What `proc_listpids` answers in one round of the listing loop: the return value of
the size probe, the return value of the read, and the content of `pids` after the read. -/
structure ListRound where
  probe : Int
  read : Int
  pids : List Int
  deriving DecidableEq, Repr

/-- The outcome of the listing loop: `OS_ERR` when the loop returns from the function,
otherwise `OS_OK` with the array `pids` cut to `pid_count` entries; `rounds` counts the
rounds (probe and, unless the probe ends the call, read) that the loop has performed. -/
structure PidList where
  status : Status
  pids : List Int
  rounds : Nat
  deriving DecidableEq, Repr

/-- The size of `pid_t`. -/
def sizeof_pid_t : Nat := 4

/-- The loop `while (pids == NULL)` of `system_processes` under `__APPLE__`, entered with
`try_count`; `rounds i` is what `proc_listpids` answers in the round entered with
`try_count = i`. The return values are converted to `size_t`. -/
def list_pids (rounds : Nat → ListRound) (try_count : Nat) : PidList :=
  let pids_bytes := u64 (rounds try_count).probe
  if pids_bytes ≤ 0 then
    { status := Status.OS_ERR, pids := [], rounds := try_count + 1 }
  else
    let pids_bytes := u64 (rounds try_count).read
    if pids_bytes ≤ 0 then
      if try_count + 1 > 3 then
        { status := Status.OS_ERR, pids := [], rounds := try_count + 1 }
      else
        list_pids rounds (try_count + 1)
    else
      { status := Status.OS_OK
        pids := (rounds try_count).pids.take (pids_bytes / sizeof_pid_t)
        rounds := try_count + 1 }
termination_by 4 - try_count
decreasing_by omega

/-- The `for` loop of `system_processes` under `__APPLE__` over the pids read; `pidpath`
is what `proc_pidpath` leaves in the zeroed `buffer` (`none` when it returns `-1`). -/
def system_processes_loop (pidpath : Int → Option (List Nat)) :
    List Int → List SystemProcess → Int → List SystemProcess × Int
  | [], next, process_count => (next, process_count)
  | pid :: rest, next, process_count =>
    if pid ≠ 0 then
      match pidpath pid with
      | none => system_processes_loop pidpath rest next process_count
      | some buffer =>
        let length := strlen buffer
        if length > 0 then
          let current : SystemProcess := { pid := pid, path := cstring buffer }
          system_processes_loop pidpath rest (current :: next) (process_count + 1)
        else
          system_processes_loop pidpath rest next process_count
    else
      system_processes_loop pidpath rest next process_count

/-- The function `system_processes` under `__APPLE__`. -/
def system_processes (rounds : Nat → ListRound) (pidpath : Int → Option (List Nat)) :
    ProcessListing :=
  let l := list_pids rounds 0
  if l.status ≠ Status.OS_OK then
    { status := Status.OS_ERR, system_processes := none, no_of_sys_processes := none }
  else
    let r := system_processes_loop pidpath l.pids [] 0
    { status := Status.OS_OK, system_processes := some r.1, no_of_sys_processes := some r.2 }

end Apple

/-! ## Network interfaces -/

/-- A routing message as `network_utilization` reads it: the fields of `if_msghdr` that it
uses, and the name length and name bytes of the `sockaddr_dl` behind the header. -/
structure if_msghdr where
  ifm_msglen : Nat
  ifm_type : Nat
  ifi_ibytes : Nat
  ifi_obytes : Nat
  sdl_nlen : Nat
  sdl_data : List Nat
  deriving DecidableEq, Repr

/-- A `NetworkInterface` record: the name (the bytes of the C string) and the two
counters. A `List NetworkInterface` is a chain of records, from its head along `next`. -/
structure NetworkInterface where
  name : List Nat
  bytes_in : Nat
  bytes_out : Nat
  deriving DecidableEq, Repr

/-- Modelled from the spec: the constructor `NetworkInterface(name, bytes_in, bytes_out,
next)` of `os_perf.hpp` is not under `src/`; by the data model a record keeps the
interface name, given as a C string, and the two byte counters, and is linked in front of
`next`. -/
def new_NetworkInterface (name : List Nat) (bytes_in bytes_out : Nat)
    (next : List NetworkInterface) : List NetworkInterface :=
  { name := cstring name, bytes_in := bytes_in, bytes_out := bytes_out } :: next

/-- The `n` bytes that `strncpy(dst, src, n)` writes: the C string at `src` cut at `n`
bytes, filled up with NUL bytes. -/
def strncpy (src : List Nat) (n : Nat) : List Nat :=
  cstring (src.take n) ++ List.replicate (n - (cstring (src.take n)).length) 0

/-- The bytes of `name_buf` up to and with `name_buf[name_len]`, after the `strncpy` and
the store of the final NUL. -/
def name_buf (msghdr : if_msghdr) : List Nat :=
  let name_len := min (128 - 1) msghdr.sdl_nlen
  strncpy msghdr.sdl_data name_len ++ [0]

/-- What the kernel answers during one `network_utilization` call: whether the size probe
succeeds, the length `len` that the read reports (`none` when the read fails), and, for
every offset, the message that `buf + index` is read as. `RTM_IFINFO2` is the constant of
the system headers. -/
structure RouteDump where
  RTM_IFINFO2 : Nat
  probe_ok : Bool
  len : Option Nat
  buf : Nat → if_msghdr

/-- The loop `while (index < len)` of `network_utilization`, run for at most `fuel`
iterations: `none` when it is still running after them. -/
def network_utilization_loop (RTM_IFINFO2 : Nat) (buf : Nat → if_msghdr) (len : Nat) :
    Nat → Nat → List NetworkInterface → Option (List NetworkInterface)
  | 0, _, _ => none
  | fuel + 1, index, ret =>
    if index < len then
      let msghdr := buf index
      let index := index + msghdr.ifm_msglen
      if msghdr.ifm_type ≠ RTM_IFINFO2 then
        network_utilization_loop RTM_IFINFO2 buf len fuel index ret
      else
        let bytes_in := msghdr.ifi_ibytes
        let bytes_out := msghdr.ifi_obytes
        let cur := new_NetworkInterface (name_buf msghdr) bytes_in bytes_out ret
        network_utilization_loop RTM_IFINFO2 buf len fuel index cur
    else some ret

/-- The outputs of `network_utilization`: the status, and `*network_interfaces` when it is
written. -/
structure InterfaceListing where
  status : Status
  network_interfaces : Option (List NetworkInterface)
  deriving DecidableEq, Repr

/-- The function `network_utilization`, its loop run for at most `fuel` iterations. -/
def network_utilization (fuel : Nat) (k : RouteDump) : Option InterfaceListing :=
  if k.probe_ok = false then
    some { status := Status.OS_ERR, network_interfaces := none }
  else
    match k.len with
    | none => some { status := Status.OS_ERR, network_interfaces := none }
    | some len =>
      match network_utilization_loop k.RTM_IFINFO2 k.buf len fuel 0 [] with
      | none => none
      | some ret => some { status := Status.OS_OK, network_interfaces := some ret }

/-- The messages `msgs`, each of positive length, lie one behind the other in the buffer
from offset `index` on. -/
def tiles (buf : Nat → if_msghdr) : Nat → List if_msghdr → Prop
  | _, [] => True
  | index, m :: rest => buf index = m ∧ 0 < m.ifm_msglen ∧ tiles buf (index + m.ifm_msglen) rest

/-- The sum of the lengths of the messages. -/
def total_msglen (msgs : List if_msghdr) : Nat :=
  (msgs.map (fun m => m.ifm_msglen)).sum

/-- The record that the claim expects for a message: one for a message of the
interface-info type, with the first `min(127, sdl_nlen)` bytes of the name, cut at an
earlier NUL, and the two cumulative counters; none for another type. -/
def interface_record (RTM_IFINFO2 : Nat) (m : if_msghdr) : Option NetworkInterface :=
  if m.ifm_type = RTM_IFINFO2 then
    some { name := cstring (m.sdl_data.take (min 127 m.sdl_nlen))
           bytes_in := m.ifi_ibytes, bytes_out := m.ifi_obytes }
  else none

/-- A sample dump of 300 bytes: an interface-info message of 100 bytes for `em0`, a
message of another type of 50 bytes, and an interface-info message of 150 bytes for `lo0`. -/
def sample_dump : RouteDump :=
  { RTM_IFINFO2 := 14
    probe_ok := true
    len := some 300
    buf := fun index =>
      if index = 0 then
        { ifm_msglen := 100, ifm_type := 14, ifi_ibytes := 1000, ifi_obytes := 2000,
          sdl_nlen := 3, sdl_data := [101, 109, 48, 1, 2, 3] }
      else if index = 100 then
        { ifm_msglen := 50, ifm_type := 12, ifi_ibytes := 0, ifi_obytes := 0,
          sdl_nlen := 0, sdl_data := [] }
      else
        { ifm_msglen := 150, ifm_type := 14, ifi_ibytes := 5, ifi_obytes := 6,
          sdl_nlen := 8, sdl_data := [108, 111, 48, 0, 7, 7, 7, 7] } }

/-! ## The Apple `cpu_loads_process` -/

namespace Apple

/-- The function `normalize`. -/
def normalize (value : ℚ) : ℚ :=
  min (max value 0) 1

/-- What the system answers during one `cpu_loads_process` call under `__APPLE__`:
`host_statistics` (`none` when it fails), the fields `total_user` and `total_system` of
`task_info(TASK_ABSOLUTETIME_INFO)` as `long` values (`none` when it fails),
`os::active_processor_count()`, and the value that `now_in_nanos` stores (`none` when
`gettimeofday` fails). -/
structure LoadsInput where
  host : Option host_cpu_load_info
  task : Option (Int × Int)
  active_processor_count : Int
  now : Option Int
  deriving DecidableEq, Repr

/-- The result of the Apple `cpu_loads_process`: the status, each output when it is
assigned, and the collector afterwards. -/
structure LoadsResult where
  status : Status
  jvmUserLoad : Option ℚ
  jvmKernelLoad : Option ℚ
  systemTotalLoad : Option ℚ
  state : CPUPerformance

/-- The function `cpu_loads_process` under `__APPLE__`. -/
def cpu_loads_process (k : LoadsInput) (s : CPUPerformance) : Except Fault LoadsResult :=
  match cpu_load_total_process k.host s with
  | Except.error f => Except.error f
  | Except.ok total =>
    let result := total.status
    let s := total.state
    match k.task with
    | none =>
      Except.ok { status := Status.OS_ERR, jvmUserLoad := none, jvmKernelLoad := none,
                  systemTotalLoad := total.cpu_load, state := s }
    | some (total_user, total_system) =>
      let active_processor_count := k.active_processor_count
      let jvm_user_nanos := total_user
      let jvm_system_nanos := total_system
      match k.now with
      | none =>
        Except.ok { status := Status.OS_ERR, jvmUserLoad := none, jvmKernelLoad := none,
                    systemTotalLoad := total.cpu_load, state := s }
      | some total_cpu_nanos =>
        let result :=
          if s._total_cpu_nanos = 0 ∨ active_processor_count ≠ s._active_processor_count then
            Status.OS_ERR
          else result
        let delta_nanos := active_processor_count * (total_cpu_nanos - s._total_cpu_nanos)
        if delta_nanos = 0 then
          Except.ok { status := Status.OS_ERR, jvmUserLoad := none, jvmKernelLoad := none,
                      systemTotalLoad := total.cpu_load, state := s }
        else
          match ddiv (jvm_user_nanos - s._jvm_user_nanos) delta_nanos,
                ddiv (jvm_system_nanos - s._jvm_system_nanos) delta_nanos with
          | Except.ok u, Except.ok kl =>
            Except.ok { status := result
                        jvmUserLoad := some (normalize u)
                        jvmKernelLoad := some (normalize kl)
                        systemTotalLoad := total.cpu_load
                        state := { s with _active_processor_count := active_processor_count
                                          _total_cpu_nanos := total_cpu_nanos
                                          _jvm_user_nanos := jvm_user_nanos
                                          _jvm_system_nanos := jvm_system_nanos } }
          | Except.error f, _ => Except.error f
          | _, Except.error f => Except.error f

/-- A collector that has sampled before: host ticks `{100, 200}`, one processor, the
clock at 1000 ns, and no process time yet. -/
def sample_state : CPUPerformance :=
  { _total_cpu_nanos := 1000
    _total_csr_nanos := 0
    _jvm_user_nanos := 0
    _jvm_system_nanos := 0
    _jvm_context_switches := 0
    _used_ticks := 100
    _total_ticks := 200
    _active_processor_count := 1 }

end Apple

/-! ## AArch64 processor features (`vm_version_bsd_aarch64.cpp`) -/

namespace VM_Version

/-- The macro `HWCAP_ASIMD`. -/
def HWCAP_ASIMD : Nat := 1 <<< 1

/-- The macro `HWCAP_AES`. -/
def HWCAP_AES : Nat := 1 <<< 3

/-- The macro `HWCAP_PMULL`. -/
def HWCAP_PMULL : Nat := 1 <<< 4

/-- The macro `HWCAP_SHA1`. -/
def HWCAP_SHA1 : Nat := 1 <<< 5

/-- The macro `HWCAP_SHA2`. -/
def HWCAP_SHA2 : Nat := 1 <<< 6

/-- The macro `HWCAP_CRC32`. -/
def HWCAP_CRC32 : Nat := 1 <<< 7

/-- The macro `HWCAP_ATOMICS`. -/
def HWCAP_ATOMICS : Nat := 1 <<< 8

/-- The macro `ID_AA64PFR0_AdvSIMD_SHIFT`. -/
def ID_AA64PFR0_AdvSIMD_SHIFT : Nat := 20

/-- The macro `ID_AA64PFR0_AdvSIMD(x)`. -/
def ID_AA64PFR0_AdvSIMD (x : Nat) : Nat := x &&& (0xf <<< ID_AA64PFR0_AdvSIMD_SHIFT)

/-- The macro `ID_AA64PFR0_AdvSIMD_IMPL`. -/
def ID_AA64PFR0_AdvSIMD_IMPL : Nat := 0x0 <<< ID_AA64PFR0_AdvSIMD_SHIFT

/-- The macro `ID_AA64PFR0_AdvSIMD_HP`. -/
def ID_AA64PFR0_AdvSIMD_HP : Nat := 0x1 <<< ID_AA64PFR0_AdvSIMD_SHIFT

/-- The macro `CPU_IMPL(midr)`. -/
def CPU_IMPL (midr : Nat) : Nat := (midr >>> 24) &&& 0xff

/-- The macro `CPU_PART(midr)`. -/
def CPU_PART (midr : Nat) : Nat := (midr >>> 4) &&& 0xfff

/-- The macro `CPU_VAR(midr)`. -/
def CPU_VAR (midr : Nat) : Nat := (midr >>> 20) &&& 0xf

/-- The macro `CPU_REV(midr)`. -/
def CPU_REV (midr : Nat) : Nat := (midr >>> 0) &&& 0xf

/-- The `struct cpu_parts`. -/
structure cpu_parts where
  part_id : Nat
  part_name : String
  deriving DecidableEq, Repr

/-- The `struct cpu_implementers`; `cpu_parts` is the table that the pointer designates. -/
structure cpu_implementers where
  impl_id : Nat
  impl_name : String
  cpu_parts : List VM_Version.cpu_parts
  deriving DecidableEq, Repr

/-- The macro `CPU_PART_NONE`. -/
def CPU_PART_NONE : cpu_parts := { part_id := 0, part_name := "Unknown Processor" }

/-- The table `cpu_parts_arm`. -/
def cpu_parts_arm : List cpu_parts :=
  [ { part_id := 0xD00, part_name := "Foundation-Model" }
  , { part_id := 0xD04, part_name := "Cortex-A35" }
  , { part_id := 0xD03, part_name := "Cortex-A53" }
  , { part_id := 0xD05, part_name := "Cortex-A55" }
  , { part_id := 0xD07, part_name := "Cortex-A57" }
  , { part_id := 0xD08, part_name := "Cortex-A72" }
  , { part_id := 0xD09, part_name := "Cortex-A73" }
  , { part_id := 0xD0A, part_name := "Cortex-A75" }
  , CPU_PART_NONE ]

/-- The table `cpu_parts_cavium`. -/
def cpu_parts_cavium : List cpu_parts :=
  [ { part_id := 0x0A1, part_name := "ThunderX" }
  , { part_id := 0x0AF, part_name := "ThunderX2" }
  , CPU_PART_NONE ]

/-- The table `cpu_parts_none`. -/
def cpu_parts_none : List cpu_parts := [ CPU_PART_NONE ]

/-- The table `cpu_implementers`. -/
def cpu_implementers_table : List cpu_implementers :=
  [ { impl_id := 0x41, impl_name := "ARM", cpu_parts := cpu_parts_arm }
  , { impl_id := 0x42, impl_name := "Broadcom", cpu_parts := cpu_parts_none }
  , { impl_id := 0x43, impl_name := "Cavium", cpu_parts := cpu_parts_cavium }
  , { impl_id := 0x44, impl_name := "DEC", cpu_parts := cpu_parts_none }
  , { impl_id := 0x49, impl_name := "IFX", cpu_parts := cpu_parts_none }
  , { impl_id := 0x4D, impl_name := "Freescale", cpu_parts := cpu_parts_none }
  , { impl_id := 0x4E, impl_name := "NVIDIA", cpu_parts := cpu_parts_none }
  , { impl_id := 0x50, impl_name := "APM", cpu_parts := cpu_parts_none }
  , { impl_id := 0x51, impl_name := "Qualcomm", cpu_parts := cpu_parts_none }
  , { impl_id := 0x56, impl_name := "Marvell", cpu_parts := cpu_parts_none }
  , { impl_id := 0x69, impl_name := "Intel", cpu_parts := cpu_parts_none }
  , { impl_id := 0, impl_name := "Unknown Implementer", cpu_parts := cpu_parts_none } ]

/-- The first loop of `os_get_processor_features`: the entry at which it breaks, `none`
when it runs to `nitems(cpu_implementers)` and leaves `cpu_partsp` at `NULL`. -/
def find_implementer (impl_id : Nat) : List cpu_implementers → Option cpu_implementers
  | [] => none
  | e :: rest =>
    if impl_id = e.impl_id ∨ e.impl_id = 0 then some e else find_implementer impl_id rest

/-- The second loop of `os_get_processor_features`: the entry at which it breaks, `none`
when it runs off the table (the loop condition `&cpu_partsp[i] != NULL` never ends it). -/
def find_part (part_id : Nat) : List cpu_parts → Option cpu_parts
  | [] => none
  | e :: rest =>
    if part_id = e.part_id ∨ e.part_id = 0 then some e else find_part part_id rest

/-- The macros `ID_AA64ISAR0_*` that `os_get_processor_features` uses. They are defined in
`<machine/armreg.h>`, which is not under `src/`, and are taken as parameters. -/
structure armreg where
  ID_AA64ISAR0_AES : Nat → Nat
  ID_AA64ISAR0_AES_BASE : Nat
  ID_AA64ISAR0_AES_PMULL : Nat
  ID_AA64ISAR0_SHA1 : Nat → Nat
  ID_AA64ISAR0_SHA1_BASE : Nat
  ID_AA64ISAR0_SHA2 : Nat → Nat
  ID_AA64ISAR0_SHA2_BASE : Nat
  ID_AA64ISAR0_CRC32 : Nat → Nat
  ID_AA64ISAR0_CRC32_BASE : Nat

/-- The static fields that `os_get_processor_features` sets, and the word it returns. -/
structure Features where
  _cpu : Nat
  _variant : Nat
  _model : Nat
  _revision : Nat
  auxv : Nat
  deriving DecidableEq, Repr

/-- The second part of `os_get_processor_features` (from the read of `ID_AA64ISAR0_EL1`
on): the word `auxv` that it builds and returns. -/
def feature_word (regs : armreg) (id_aa64isar0 id_aa64pfr0 : Nat) : Nat :=
  let auxv : Nat := 0
  let auxv :=
    if regs.ID_AA64ISAR0_AES id_aa64isar0 = regs.ID_AA64ISAR0_AES_BASE then
      auxv ||| HWCAP_AES else auxv
  let auxv :=
    if regs.ID_AA64ISAR0_AES id_aa64isar0 = regs.ID_AA64ISAR0_AES_PMULL then
      auxv ||| HWCAP_PMULL else auxv
  let auxv :=
    if regs.ID_AA64ISAR0_SHA1 id_aa64isar0 = regs.ID_AA64ISAR0_SHA1_BASE then
      auxv ||| HWCAP_SHA1 else auxv
  let auxv :=
    if regs.ID_AA64ISAR0_SHA2 id_aa64isar0 = regs.ID_AA64ISAR0_SHA2_BASE then
      auxv ||| HWCAP_SHA2 else auxv
  let auxv :=
    if regs.ID_AA64ISAR0_CRC32 id_aa64isar0 = regs.ID_AA64ISAR0_CRC32_BASE then
      auxv ||| HWCAP_CRC32 else auxv
  let auxv :=
    if ID_AA64PFR0_AdvSIMD id_aa64pfr0 = ID_AA64PFR0_AdvSIMD_IMPL ∨
        ID_AA64PFR0_AdvSIMD id_aa64pfr0 = ID_AA64PFR0_AdvSIMD_HP then
      auxv ||| HWCAP_ASIMD else auxv
  auxv

/-- The function `VM_Version::os_get_processor_features`, given the values that
`READ_SPECIALREG` reads from `midr_el1`, `ID_AA64ISAR0_EL1` and `ID_AA64PFR0_EL1`. A loop
that runs off its table is the fault `out_of_bounds`. -/
def os_get_processor_features (regs : armreg) (midr id_aa64isar0 id_aa64pfr0 : Nat) :
    Except Fault Features :=
  let impl_id := CPU_IMPL midr
  match find_implementer impl_id cpu_implementers_table with
  | none => Except.error Fault.out_of_bounds
  | some impl =>
    let part_id := CPU_PART midr
    match find_part part_id impl.cpu_parts with
    | none => Except.error Fault.out_of_bounds
    | some _ =>
      Except.ok { _cpu := impl_id, _variant := CPU_VAR midr, _model := part_id
                  _revision := CPU_REV midr
                  auxv := feature_word regs id_aa64isar0 id_aa64pfr0 }

/-- The word `auxv` that the six tests of `os_get_processor_features` build when their
outcomes are `aes`, `pmull`, `sha1`, `sha2`, `crc32` and `asimd`. -/
def hwcap_word (aes pmull sha1 sha2 crc32 asimd : Bool) : Nat :=
  let auxv : Nat := 0
  let auxv := if aes = true then auxv ||| HWCAP_AES else auxv
  let auxv := if pmull = true then auxv ||| HWCAP_PMULL else auxv
  let auxv := if sha1 = true then auxv ||| HWCAP_SHA1 else auxv
  let auxv := if sha2 = true then auxv ||| HWCAP_SHA2 else auxv
  let auxv := if crc32 = true then auxv ||| HWCAP_CRC32 else auxv
  let auxv := if asimd = true then auxv ||| HWCAP_ASIMD else auxv
  auxv

/-- The values that `<machine/armreg.h>` of FreeBSD gives the macros: each field is four
bits wide, the AES field starts at bit 4 (`BASE` is 1, `PMULL` is 2), the SHA1 field at
bit 8, the SHA2 field at bit 12 and the CRC32 field at bit 16 (`BASE` is 1). -/
def freebsd_armreg : armreg :=
  { ID_AA64ISAR0_AES := fun x => x &&& (0xf <<< 4)
    ID_AA64ISAR0_AES_BASE := 0x1 <<< 4
    ID_AA64ISAR0_AES_PMULL := 0x2 <<< 4
    ID_AA64ISAR0_SHA1 := fun x => x &&& (0xf <<< 8)
    ID_AA64ISAR0_SHA1_BASE := 0x1 <<< 8
    ID_AA64ISAR0_SHA2 := fun x => x &&& (0xf <<< 12)
    ID_AA64ISAR0_SHA2_BASE := 0x1 <<< 12
    ID_AA64ISAR0_CRC32 := fun x => x &&& (0xf <<< 16)
    ID_AA64ISAR0_CRC32_BASE := 0x1 <<< 16 }

end VM_Version

/-! ## Socket options (`BsdSocketOptions.c`) -/

namespace BsdSocketOptions

/-- A Java exception that a native leaves pending: its class, its message, and, when it is
raised by `JNU_ThrowByNameWithLastError`, the `errno` that the message reports. -/
structure Throwable where
  class_name : String
  message : String
  last_error : Option Int
  deriving DecidableEq, Repr

/-- Modelled from the spec: `JNU_ThrowByName` of `jni_util.c` is not under `src/`; it
raises the exception of the named class with the message (the error mapping of the
natives). `none` is an environment without a pending exception. -/
def JNU_ThrowByName (name msg : String) : Option Throwable :=
  some { class_name := name, message := msg, last_error := none }

/-- Modelled from the spec: `JNU_ThrowByNameWithLastError` of `jni_util.c` is not under
`src/`; it raises the exception of the named class with a message made of the last error
(`errno`) and the default detail. -/
def JNU_ThrowByNameWithLastError (errno : Int) (name defaultDetail : String) :
    Option Throwable :=
  some { class_name := name, message := defaultDetail, last_error := some errno }

/-- The function `handleError`; `errno` is the value of `errno` at the call, `ENOPROTOOPT`
the constant of the system headers. The result is the exception pending afterwards. -/
def handleError (ENOPROTOOPT errno : Int) (rv : Int) (errmsg : String) : Option Throwable :=
  if rv < 0 then
    if errno = ENOPROTOOPT then
      JNU_ThrowByName "java/lang/UnsupportedOperationException" "unsupported socket option"
    else
      JNU_ThrowByNameWithLastError errno "java/net/SocketException" errmsg
  else none

/-- The three keep-alive options of `<netinet/tcp.h>` that the natives pass. -/
inductive TcpOption where
  | TCP_KEEPCNT
  | TCP_KEEPIDLE
  | TCP_KEEPINTVL
  deriving DecidableEq, Repr

/-- What one `setsockopt` or `getsockopt` call answers: its return value, `errno`
afterwards, and, for `getsockopt`, the content of `optval` afterwards. -/
structure Answer where
  rv : Int
  errno : Int
  optval : Int
  deriving DecidableEq, Repr

/-- The system as the natives see it (not OpenBSD): the constant `ENOPROTOOPT`, and the
answers of `setsockopt(fd, IPPROTO_TCP, option, &optval, ...)` and of
`getsockopt(fd, IPPROTO_TCP, option, &optval, &sz)`. -/
structure Sockets where
  ENOPROTOOPT : Int
  setsockopt : Int → TcpOption → Int → Answer
  getsockopt : Int → TcpOption → Answer

/-- The native `Java_jdk_net_BsdSocketOptions_setTcpkeepAliveProbes0` (not OpenBSD): the
exception pending afterwards. -/
def setTcpkeepAliveProbes0 (k : Sockets) (fd optval : Int) : Option Throwable :=
  let a := k.setsockopt fd TcpOption.TCP_KEEPCNT optval
  handleError k.ENOPROTOOPT a.errno a.rv "set option TCP_KEEPCNT failed"

/-- The native `Java_jdk_net_BsdSocketOptions_setTcpKeepAliveTime0` (not OpenBSD). -/
def setTcpKeepAliveTime0 (k : Sockets) (fd optval : Int) : Option Throwable :=
  let a := k.setsockopt fd TcpOption.TCP_KEEPIDLE optval
  handleError k.ENOPROTOOPT a.errno a.rv "set option TCP_KEEPIDLE failed"

/-- The native `Java_jdk_net_BsdSocketOptions_setTcpKeepAliveIntvl0` (not OpenBSD). -/
def setTcpKeepAliveIntvl0 (k : Sockets) (fd optval : Int) : Option Throwable :=
  let a := k.setsockopt fd TcpOption.TCP_KEEPINTVL optval
  handleError k.ENOPROTOOPT a.errno a.rv "set option TCP_KEEPINTVL failed"

/-- The native `Java_jdk_net_BsdSocketOptions_getTcpkeepAliveProbes0` (not OpenBSD): the
exception pending afterwards and the value returned. -/
def getTcpkeepAliveProbes0 (k : Sockets) (fd : Int) : Option Throwable × Int :=
  let a := k.getsockopt fd TcpOption.TCP_KEEPCNT
  (handleError k.ENOPROTOOPT a.errno a.rv "get option TCP_KEEPCNT failed", a.optval)

/-- The native `Java_jdk_net_BsdSocketOptions_getTcpKeepAliveTime0` (not OpenBSD). -/
def getTcpKeepAliveTime0 (k : Sockets) (fd : Int) : Option Throwable × Int :=
  let a := k.getsockopt fd TcpOption.TCP_KEEPIDLE
  (handleError k.ENOPROTOOPT a.errno a.rv "get option TCP_KEEPIDLE failed", a.optval)

/-- The native `Java_jdk_net_BsdSocketOptions_getTcpKeepAliveIntvl0` (not OpenBSD). -/
def getTcpKeepAliveIntvl0 (k : Sockets) (fd : Int) : Option Throwable × Int :=
  let a := k.getsockopt fd TcpOption.TCP_KEEPINTVL
  (handleError k.ENOPROTOOPT a.errno a.rv "get option TCP_KEEPINTVL failed", a.optval)

end BsdSocketOptions

/-! ## Lemmas about `cpu_load` -/

theorem saturating_delta_eq (cur prev : Nat) :
    saturating_delta cur prev = ((cur - prev : Nat) : ℚ) := by
  unfold saturating_delta
  by_cases h : prev ≤ cur
  · rw [Nat.cast_sub h]
    exact max_eq_right (by simpa using h)
  · have h1 : cur - prev = 0 := by omega
    have h2 : (cur : ℚ) ≤ (prev : ℚ) := by exact_mod_cast (by omega : cur ≤ prev)
    rw [h1]
    simpa using h2


theorem cpu_load_main (k : Kernel) (s : CPUPerformance) (which_logical_cpu : Int)
    (cpus : List CPUTicks) (cur prev : CPUTicks)
    (hc : s._cpus = some cpus)
    (hsel : -1 ≤ which_logical_cpu ∧ which_logical_cpu < s._num_procs)
    (hread : get_cpu_ticks k s._num_procs which_logical_cpu = some cur)
    (hprev : cpus[cpu_idx s which_logical_cpu]? = some prev) :
    cpu_load k s which_logical_cpu = Except.ok
      (if cur.totalTicks ≤ prev.totalTicks then
        { status := Status.OS_ERR, cpu_load := 0,
          state := cpu_load_stored s cpus (cpu_idx s which_logical_cpu) cur }
      else
        { status := Status.OS_OK,
          cpu_load := ((cur.usedTicks - prev.usedTicks : Nat) : ℚ) /
            ((max (cur.usedTicks - prev.usedTicks) (cur.totalTicks - prev.totalTicks) : Nat) : ℚ),
          state := cpu_load_stored s cpus (cpu_idx s which_logical_cpu) cur }) := by
  have hsel2 : ¬ (which_logical_cpu < -1 ∨ which_logical_cpu ≥ s._num_procs) := by omega
  unfold cpu_idx at hprev
  unfold cpu_load
  simp only [hc, hsel2, if_false, hread, hprev]
  by_cases ht : cur.totalTicks ≤ prev.totalTicks
  · have h1 : ¬ cur.totalTicks > prev.totalTicks := by omega
    simp [ht, h1, cpu_load_stored, cpu_idx]
  · have h1 : cur.totalTicks > prev.totalTicks := by omega
    have h2 : cur.totalTicks - prev.totalTicks ≠ 0 := by omega
    simp only [h1, if_true, h2, if_false, ht]
    by_cases hu : cur.usedTicks > prev.usedTicks
    · by_cases hg : cur.usedTicks - prev.usedTicks > cur.totalTicks - prev.totalTicks
      · have hm : max (cur.usedTicks - prev.usedTicks) (cur.totalTicks - prev.totalTicks)
            = cur.usedTicks - prev.usedTicks := max_eq_left (by omega)
        have h3 : cur.usedTicks - prev.usedTicks ≠ 0 := by omega
        simp [hu, hg, hm, ddiv, h3, cpu_load_stored, cpu_idx]
      · have hm : max (cur.usedTicks - prev.usedTicks) (cur.totalTicks - prev.totalTicks)
            = cur.totalTicks - prev.totalTicks := max_eq_right (by omega)
        simp [hu, hg, hm, ddiv, h2, cpu_load_stored, cpu_idx]
    · have h0 : cur.usedTicks - prev.usedTicks = 0 := by omega
      have hg : ¬ (0 > cur.totalTicks - prev.totalTicks) := by omega
      simp [hu, hg, h0, ddiv, h2, cpu_load_stored, cpu_idx]

/-- C1: whenever `cpu_load` returns `OS_OK`, the reported load (the exact quotient of the
two `uint64_t` deltas) lies in `[0, 1]`; this holds for every stored state, every
selector and every tick pair read. -/
theorem cpu_load_range (k : Kernel) (s : CPUPerformance) (which_logical_cpu : Int)
    (r : LoadResult)
    (h : cpu_load k s which_logical_cpu = Except.ok r)
    (hok : r.status = Status.OS_OK) :
    0 ≤ r.cpu_load ∧ r.cpu_load ≤ 1 := by
  cases hc : s._cpus with
  | none =>
    simp [cpu_load, hc] at h
    subst h
    simp at hok
  | some cpus =>
    by_cases hsel : which_logical_cpu < -1 ∨ which_logical_cpu ≥ s._num_procs
    · simp [cpu_load, hc, hsel] at h
      subst h
      simp at hok
    · cases hread : get_cpu_ticks k s._num_procs which_logical_cpu with
      | none =>
        simp [cpu_load, hc, hsel, hread] at h
        subst h
        simp at hok
      | some cur =>
        cases hprev : cpus[cpu_idx s which_logical_cpu]? with
        | none =>
          unfold cpu_idx at hprev
          simp [cpu_load, hc, hsel, hread, hprev] at h
        | some prev =>
          have hsel2 : -1 ≤ which_logical_cpu ∧ which_logical_cpu < s._num_procs := by omega
          rw [cpu_load_main k s which_logical_cpu cpus cur prev hc hsel2 hread hprev] at h
          by_cases ht : cur.totalTicks ≤ prev.totalTicks
          · simp [ht] at h
            subst h
            simp at hok
          · simp only [ht, if_false, Except.ok.injEq] at h
            subst h
            have hpos : 0 < max (cur.usedTicks - prev.usedTicks)
                (cur.totalTicks - prev.totalTicks) := by
              have : 0 < cur.totalTicks - prev.totalTicks := by omega
              exact lt_of_lt_of_le this (le_max_right _ _)
            have hposq : (0 : ℚ) < ((max (cur.usedTicks - prev.usedTicks)
                (cur.totalTicks - prev.totalTicks) : Nat) : ℚ) := by exact_mod_cast hpos
            constructor
            · exact div_nonneg (Nat.cast_nonneg _) (Nat.cast_nonneg _)
            · rw [div_le_one hposq]
              exact_mod_cast le_max_left _ _

/-- The sample call: stored `{100, 200}`, aggregate read `{150, 260}`. -/
theorem cpu_load_sample_eval :
    cpu_load (sample_kernel [150, 0, 0, 0, 110] (sample_rusage 0 0))
      (sample_state ⟨100, 200⟩ ⟨0, 0, ⟨0, 0⟩⟩) (-1)
    = Except.ok { status := Status.OS_OK, cpu_load := 5 / 6,
                  state := { sample_state ⟨100, 200⟩ ⟨0, 0, ⟨0, 0⟩⟩ with
                    _cpus := some [⟨100, 200⟩, ⟨100, 200⟩, ⟨150, 260⟩] } } := by
  rw [cpu_load_main _ _ _ [⟨100, 200⟩, ⟨100, 200⟩, ⟨100, 200⟩] ⟨150, 260⟩ ⟨100, 200⟩ rfl
    (by decide) (by decide) (by decide)]
  simp [cpu_load_stored, cpu_idx, sample_state]
  norm_num

/-- Witness of `cpu_load_range`: stored `{100, 200}`, read `{150, 260}`, load `5/6`. -/
theorem cpu_load_range_witness :
    cpu_load (sample_kernel [150, 0, 0, 0, 110] (sample_rusage 0 0))
        (sample_state ⟨100, 200⟩ ⟨0, 0, ⟨0, 0⟩⟩) (-1)
      = Except.ok { status := Status.OS_OK, cpu_load := 5 / 6,
                    state := { sample_state ⟨100, 200⟩ ⟨0, 0, ⟨0, 0⟩⟩ with
                      _cpus := some [⟨100, 200⟩, ⟨100, 200⟩, ⟨150, 260⟩] } }
    ∧ (0 : ℚ) ≤ 5 / 6 ∧ (5 / 6 : ℚ) ≤ 1 :=
  ⟨cpu_load_sample_eval,
   cpu_load_range _ _ _
     { status := Status.OS_OK, cpu_load := 5 / 6,
       state := { sample_state ⟨100, 200⟩ ⟨0, 0, ⟨0, 0⟩⟩ with
         _cpus := some [⟨100, 200⟩, ⟨100, 200⟩, ⟨150, 260⟩] } }
     cpu_load_sample_eval rfl⟩

/-- C2: when the total tick count read exceeds the stored one, `cpu_load` returns `OS_OK`
with load `usedDelta / max(usedDelta, totalDelta)`, where `usedDelta = max(0, cur.used -
prev.used)` and `totalDelta = max(0, cur.total - prev.total)`. -/
theorem cpu_load_value (k : Kernel) (s : CPUPerformance) (which_logical_cpu : Int)
    (cpus : List CPUTicks) (cur prev : CPUTicks)
    (hc : s._cpus = some cpus)
    (hsel : -1 ≤ which_logical_cpu ∧ which_logical_cpu < s._num_procs)
    (hread : get_cpu_ticks k s._num_procs which_logical_cpu = some cur)
    (hprev : cpus[cpu_idx s which_logical_cpu]? = some prev)
    (hgt : cur.totalTicks > prev.totalTicks) :
    ∃ r, cpu_load k s which_logical_cpu = Except.ok r ∧ r.status = Status.OS_OK ∧
      r.cpu_load = saturating_delta cur.usedTicks prev.usedTicks /
        max (saturating_delta cur.usedTicks prev.usedTicks)
            (saturating_delta cur.totalTicks prev.totalTicks) := by
  have hnot : ¬ cur.totalTicks ≤ prev.totalTicks := by omega
  refine ⟨_, cpu_load_main k s which_logical_cpu cpus cur prev hc hsel hread hprev, ?_, ?_⟩
  · simp [hnot]
  · simp only [hnot, if_false, saturating_delta_eq]
    push_cast
    rfl

/-- Witness of `cpu_load_value`: `{100, 200}` then `{150, 260}` gives `50/60`, and a used
jump of 80 against a total jump of 60 gives exactly `1`. -/
theorem cpu_load_value_witness :
    (∃ r, cpu_load (sample_kernel [150, 0, 0, 0, 110] (sample_rusage 0 0))
        (sample_state ⟨100, 200⟩ ⟨0, 0, ⟨0, 0⟩⟩) (-1) = Except.ok r ∧
      r.status = Status.OS_OK ∧ r.cpu_load = 50 / 60) ∧
    (∃ r, cpu_load (sample_kernel [180, 0, 0, 0, 80] (sample_rusage 0 0))
        (sample_state ⟨100, 200⟩ ⟨0, 0, ⟨0, 0⟩⟩) (-1) = Except.ok r ∧
      r.status = Status.OS_OK ∧ r.cpu_load = 1) := by
  constructor
  · obtain ⟨r, h1, h2, h3⟩ := cpu_load_value
      (sample_kernel [150, 0, 0, 0, 110] (sample_rusage 0 0))
      (sample_state ⟨100, 200⟩ ⟨0, 0, ⟨0, 0⟩⟩) (-1)
      [⟨100, 200⟩, ⟨100, 200⟩, ⟨100, 200⟩] ⟨150, 260⟩ ⟨100, 200⟩ rfl
      (by decide) (by decide) (by decide) (by decide)
    refine ⟨r, h1, h2, ?_⟩
    rw [h3]
    simp only [saturating_delta]
    norm_num
  · obtain ⟨r, h1, h2, h3⟩ := cpu_load_value
      (sample_kernel [180, 0, 0, 0, 80] (sample_rusage 0 0))
      (sample_state ⟨100, 200⟩ ⟨0, 0, ⟨0, 0⟩⟩) (-1)
      [⟨100, 200⟩, ⟨100, 200⟩, ⟨100, 200⟩] ⟨180, 260⟩ ⟨100, 200⟩ rfl
      (by decide) (by decide) (by decide) (by decide)
    refine ⟨r, h1, h2, ?_⟩
    rw [h3]
    simp only [saturating_delta]
    norm_num

/-- No call of `cpu_load` performs a division by zero. -/
theorem cpu_load_no_div_by_zero (k : Kernel) (s : CPUPerformance) (which_logical_cpu : Int) :
    cpu_load k s which_logical_cpu ≠ Except.error Fault.div_by_zero := by
  intro h
  cases hc : s._cpus with
  | none => simp [cpu_load, hc] at h
  | some cpus =>
    by_cases hsel : which_logical_cpu < -1 ∨ which_logical_cpu ≥ s._num_procs
    · simp [cpu_load, hc, hsel] at h
    · cases hread : get_cpu_ticks k s._num_procs which_logical_cpu with
      | none => simp [cpu_load, hc, hsel, hread] at h
      | some cur =>
        cases hprev : cpus[cpu_idx s which_logical_cpu]? with
        | none =>
          unfold cpu_idx at hprev
          simp [cpu_load, hc, hsel, hread, hprev] at h
        | some prev =>
          have hsel2 : -1 ≤ which_logical_cpu ∧ which_logical_cpu < s._num_procs := by omega
          rw [cpu_load_main k s which_logical_cpu cpus cur prev hc hsel2 hread hprev] at h
          simp at h

/-- C3: for a valid selector and a successful tick read, `cpu_load` returns `OS_ERR`
exactly when the total tick count read does not exceed the stored one (whatever the used
ticks are), the output is then `0.0`, it returns `OS_OK` otherwise, and no call divides by
zero. -/
theorem cpu_load_error_iff (k : Kernel) (s : CPUPerformance) (which_logical_cpu : Int)
    (cpus : List CPUTicks) (cur prev : CPUTicks)
    (hc : s._cpus = some cpus)
    (hsel : -1 ≤ which_logical_cpu ∧ which_logical_cpu < s._num_procs)
    (hread : get_cpu_ticks k s._num_procs which_logical_cpu = some cur)
    (hprev : cpus[cpu_idx s which_logical_cpu]? = some prev) :
    (∀ k1 s1 w1, cpu_load k1 s1 w1 ≠ Except.error Fault.div_by_zero) ∧
    ∃ r, cpu_load k s which_logical_cpu = Except.ok r ∧
      (r.status = Status.OS_ERR ↔ cur.totalTicks ≤ prev.totalTicks) ∧
      (r.status = Status.OS_ERR ↔ saturating_delta cur.totalTicks prev.totalTicks = 0) ∧
      (r.status = Status.OS_OK ↔ prev.totalTicks < cur.totalTicks) ∧
      (r.status = Status.OS_ERR → r.cpu_load = 0) := by
  refine ⟨cpu_load_no_div_by_zero, _,
    cpu_load_main k s which_logical_cpu cpus cur prev hc hsel hread hprev, ?_⟩
  have hsat : saturating_delta cur.totalTicks prev.totalTicks = 0 ↔
      cur.totalTicks ≤ prev.totalTicks := by
    rw [saturating_delta_eq]
    constructor
    · intro h
      have : cur.totalTicks - prev.totalTicks = 0 := by exact_mod_cast h
      omega
    · intro h
      have : cur.totalTicks - prev.totalTicks = 0 := by omega
      rw [this]
      simp
  rw [hsat]
  by_cases ht : cur.totalTicks ≤ prev.totalTicks
  · have : ¬ prev.totalTicks < cur.totalTicks := by omega
    simp [ht, this]
  · have : prev.totalTicks < cur.totalTicks := by omega
    simp [ht, this]

/-- Witness of `cpu_load_error_iff`: stored `{100, 200}`, read `{150, 200}`: the used ticks
advanced, the total did not, and the call returns `OS_ERR` with output `0`. -/
theorem cpu_load_error_iff_witness :
    get_cpu_ticks (sample_kernel [150, 0, 0, 0, 50] (sample_rusage 0 0)) 2 (-1)
      = some ⟨150, 200⟩ ∧
    ∃ r, cpu_load (sample_kernel [150, 0, 0, 0, 50] (sample_rusage 0 0))
        (sample_state ⟨100, 200⟩ ⟨0, 0, ⟨0, 0⟩⟩) (-1) = Except.ok r ∧
      r.status = Status.OS_ERR ∧ r.cpu_load = 0 := by
  refine ⟨by decide, ?_⟩
  obtain ⟨_, r, h1, h2, _, _, h5⟩ := cpu_load_error_iff
    (sample_kernel [150, 0, 0, 0, 50] (sample_rusage 0 0))
    (sample_state ⟨100, 200⟩ ⟨0, 0, ⟨0, 0⟩⟩) (-1)
    [⟨100, 200⟩, ⟨100, 200⟩, ⟨100, 200⟩] ⟨150, 200⟩ ⟨100, 200⟩ rfl
    (by decide) (by decide) (by decide)
  have hs : r.status = Status.OS_ERR := h2.mpr (by decide)
  exact ⟨r, h1, hs, h5 hs⟩

/-- C4: after a `cpu_load` call with a valid selector and a successful tick read, with
either status, the slot of the selector (slot `_num_procs` for `-1`, slot `k` for `k`)
holds the tick pair just read, and every other slot, the JVM tick sample, the
context-switch baseline and the remaining fields are unchanged. -/
theorem cpu_load_frame (k : Kernel) (s : CPUPerformance) (which_logical_cpu : Int)
    (cpus : List CPUTicks) (cur : CPUTicks)
    (hwf : s.wf)
    (hc : s._cpus = some cpus)
    (hsel : -1 ≤ which_logical_cpu ∧ which_logical_cpu < s._num_procs)
    (hread : get_cpu_ticks k s._num_procs which_logical_cpu = some cur) :
    ∃ r cpus1, cpu_load k s which_logical_cpu = Except.ok r ∧
      (r.status = Status.OS_OK ∨ r.status = Status.OS_ERR) ∧
      r.state._cpus = some cpus1 ∧
      cpus1.length = cpus.length ∧
      (which_logical_cpu = -1 → cpus1[s._num_procs.toNat]? = some cur) ∧
      (which_logical_cpu ≠ -1 → cpus1[which_logical_cpu.toNat]? = some cur) ∧
      (∀ j, j ≠ cpu_idx s which_logical_cpu → cpus1[j]? = cpus[j]?) ∧
      r.state._jvm_ticks = s._jvm_ticks ∧
      r.state._total_csr_nanos = s._total_csr_nanos ∧
      r.state._jvm_context_switches = s._jvm_context_switches ∧
      r.state._num_procs = s._num_procs ∧
      r.state._stathz = s._stathz := by
  have hlen : (cpus.length : Int) = s._num_procs + 1 := by
    unfold CPUPerformance.wf at hwf
    rw [hc] at hwf
    exact hwf
  have hidx : cpu_idx s which_logical_cpu < cpus.length := by
    unfold cpu_idx
    split <;> omega
  obtain ⟨prev, hprev⟩ : ∃ prev, cpus[cpu_idx s which_logical_cpu]? = some prev :=
    ⟨cpus[cpu_idx s which_logical_cpu], List.getElem?_eq_getElem hidx⟩
  have hmain := cpu_load_main k s which_logical_cpu cpus cur prev hc hsel hread hprev
  have hset : (cpus.set (cpu_idx s which_logical_cpu) cur)[cpu_idx s which_logical_cpu]?
      = some cur := by
    simp [List.getElem?_set, hidx]
  have hother : ∀ j, j ≠ cpu_idx s which_logical_cpu →
      (cpus.set (cpu_idx s which_logical_cpu) cur)[j]? = cpus[j]? := by
    intro j hj
    simp [List.getElem?_set, Ne.symm hj]
  have h1 : which_logical_cpu = -1 → cpu_idx s which_logical_cpu = s._num_procs.toNat := by
    intro h
    simp [cpu_idx, h]
  have h2 : which_logical_cpu ≠ -1 → cpu_idx s which_logical_cpu = which_logical_cpu.toNat := by
    intro h
    simp [cpu_idx, h]
  by_cases ht : cur.totalTicks ≤ prev.totalTicks
  · simp only [ht, if_true] at hmain
    refine ⟨_, cpus.set (cpu_idx s which_logical_cpu) cur, hmain, Or.inr rfl, rfl,
      by simp, ?_, ?_, hother, rfl, rfl, rfl, rfl, rfl⟩
    · intro h
      rw [← h1 h]
      exact hset
    · intro h
      rw [← h2 h]
      exact hset
  · simp only [ht, if_false] at hmain
    refine ⟨_, cpus.set (cpu_idx s which_logical_cpu) cur, hmain, Or.inl rfl, rfl,
      by simp, ?_, ?_, hother, rfl, rfl, rfl, rfl, rfl⟩
    · intro h
      rw [← h1 h]
      exact hset
    · intro h
      rw [← h2 h]
      exact hset

/-- Witness of `cpu_load_frame`: selector `1` on a collector with two processors. -/
theorem cpu_load_frame_witness :
    ∃ r cpus1, cpu_load (sample_kernel [150, 0, 0, 0, 110] (sample_rusage 0 0))
        (sample_state ⟨100, 200⟩ ⟨7, 8, ⟨20, 30⟩⟩) 1 = Except.ok r ∧
      r.state._cpus = some cpus1 ∧ cpus1[1]? = some ⟨150, 260⟩ ∧
      cpus1[0]? = some ⟨100, 200⟩ ∧ cpus1[2]? = some ⟨100, 200⟩ ∧
      r.state._jvm_ticks = ⟨7, 8, ⟨20, 30⟩⟩ := by
  obtain ⟨r, cpus1, h1, _, h3, _, _, h6, h7, h8, _⟩ := cpu_load_frame
    (sample_kernel [150, 0, 0, 0, 110] (sample_rusage 0 0))
    (sample_state ⟨100, 200⟩ ⟨7, 8, ⟨20, 30⟩⟩) 1
    [⟨100, 200⟩, ⟨100, 200⟩, ⟨100, 200⟩] ⟨150, 260⟩
    (by decide) rfl (by decide) (by decide)
  refine ⟨r, cpus1, h1, h3, h6 (by decide), ?_, ?_, h8⟩
  · rw [h7 0 (by decide)]
    rfl
  · rw [h7 2 (by decide)]
    rfl

/-- C5: for a selector below `-1` or at least `_num_procs`, and also when `_cpus` is
unallocated or the tick read fails, `cpu_load` returns `OS_ERR` with output `0.0` and the
collector is unchanged. -/
theorem cpu_load_rejects (k : Kernel) (s : CPUPerformance) (which_logical_cpu : Int)
    (h : which_logical_cpu < -1 ∨ which_logical_cpu ≥ s._num_procs ∨ s._cpus = none ∨
      get_cpu_ticks k s._num_procs which_logical_cpu = none) :
    cpu_load k s which_logical_cpu =
      Except.ok { status := Status.OS_ERR, cpu_load := 0, state := s } := by
  cases hc : s._cpus with
  | none => simp [cpu_load, hc]
  | some cpus =>
    by_cases hsel : which_logical_cpu < -1 ∨ which_logical_cpu ≥ s._num_procs
    · simp [cpu_load, hc, hsel]
    · have hread : get_cpu_ticks k s._num_procs which_logical_cpu = none := by
        rcases h with h | h | h | h
        · exact absurd (Or.inl h) hsel
        · exact absurd (Or.inr h) hsel
        · rw [hc] at h
          cases h
        · exact h
      simp [cpu_load, hc, hsel, hread]

/-- Witness of `cpu_load_rejects`: the selectors `_num_procs = 2` and `-2`. -/
theorem cpu_load_rejects_witness :
    cpu_load (sample_kernel [150, 0, 0, 0, 110] (sample_rusage 0 0))
        (sample_state ⟨100, 200⟩ ⟨0, 0, ⟨0, 0⟩⟩) 2
      = Except.ok { status := Status.OS_ERR, cpu_load := 0,
                    state := sample_state ⟨100, 200⟩ ⟨0, 0, ⟨0, 0⟩⟩ } ∧
    cpu_load (sample_kernel [150, 0, 0, 0, 110] (sample_rusage 0 0))
        (sample_state ⟨100, 200⟩ ⟨0, 0, ⟨0, 0⟩⟩) (-2)
      = Except.ok { status := Status.OS_ERR, cpu_load := 0,
                    state := sample_state ⟨100, 200⟩ ⟨0, 0, ⟨0, 0⟩⟩ } :=
  ⟨cpu_load_rejects _ _ 2 (Or.inr (Or.inl (by decide))),
   cpu_load_rejects _ _ (-2) (Or.inl (by decide))⟩

/-! ## `initialize()` and the first `cpu_load` call -/

theorem initialize_each_cpu_fold (k : Kernel) (_num_procs : Int) (m : Nat)
    (cpus : List CPUTicks) :
    ((List.range m).foldl
      (fun (cpus : List CPUTicks) (i : Nat) =>
        match get_cpu_ticks k _num_procs (i : Int) with
        | none => cpus
        | some ticks => cpus.set i ticks) cpus).length = cpus.length ∧
    ∀ j, ((List.range m).foldl
      (fun (cpus : List CPUTicks) (i : Nat) =>
        match get_cpu_ticks k _num_procs (i : Int) with
        | none => cpus
        | some ticks => cpus.set i ticks) cpus)[j]? =
      if j < m ∧ j < cpus.length then
        some ((get_cpu_ticks k _num_procs (j : Int)).getD (cpus.getD j ⟨0, 0⟩))
      else cpus[j]? := by
  induction m with
  | zero => simp
  | succ m ih =>
    obtain ⟨ihl, ihg⟩ := ih
    rw [List.range_succ, List.foldl_append]
    simp only [List.foldl_cons, List.foldl_nil]
    constructor
    · cases hr : get_cpu_ticks k _num_procs (m : Int) with
      | none => simpa using ihl
      | some t => simpa using ihl
    · intro j
      cases hr : get_cpu_ticks k _num_procs (m : Int) with
      | none =>
        simp only []
        rw [ihg j]
        by_cases hjm : j = m
        · subst hjm
          by_cases hl : j < cpus.length
          · simp [hl, hr, List.getD_eq_getElem?_getD, List.getElem?_eq_getElem hl]
          · simp [hl]
        · by_cases hlt : j < m
          · have : j < m + 1 := by omega
            simp [hlt, this]
          · have : ¬ j < m + 1 := by omega
            simp [hlt, this]
      | some t =>
        simp only []
        rw [List.getElem?_set]
        by_cases hjm : m = j
        · subst hjm
          by_cases hl : m < cpus.length
          · simp [hl, hr, ihl]
          · simp [hl, ihl]
            omega
        · simp only [hjm, if_false]
          rw [ihg j]
          by_cases hlt : j < m
          · have : j < m + 1 := by omega
            simp [hlt, this]
          · have : ¬ j < m + 1 := by omega
            simp [hlt, this]

/-- What a successful `initialize()` has read and stored. -/
theorem initialize_perf_true (k kj : Kernel) (s : CPUPerformance)
    (h : (initialize_perf k kj s).1 = true) :
    1 ≤ k.active_processor_count ∧
    ∃ stathz agg jvm, k.clockrate = some stathz ∧
      get_cpu_ticks k k.active_processor_count (-1) = some agg ∧
      get_jvm_ticks kj stathz k.active_processor_count = some jvm ∧
      (initialize_perf k kj s).2 =
        { _num_procs := k.active_processor_count
          _stathz := stathz
          _jvm_ticks := jvm
          _cpus := some (initialize_each_cpu k k.active_processor_count
            ((List.replicate (k.active_processor_count + 1).toNat
              ({ usedTicks := 0, totalTicks := 0 } : CPUTicks)).set
              k.active_processor_count.toNat agg))
          _total_csr_nanos := s._total_csr_nanos
          _jvm_context_switches := s._jvm_context_switches } := by
  unfold initialize_perf init_stathz at h ⊢
  by_cases hn : k.active_processor_count < 1
  · simp [hn] at h
  · refine ⟨by omega, ?_⟩
    simp only [hn, if_false] at h ⊢
    cases hclk : k.clockrate with
    | none => simp [hclk] at h
    | some stathz =>
      simp only [hclk] at h ⊢
      cases ha : k.alloc_ok with
      | false => simp [ha] at h
      | true =>
        simp only [ha] at h ⊢
        cases hagg : get_cpu_ticks k k.active_processor_count (-1) with
        | none => simp [hagg] at h
        | some agg =>
          simp only [hagg] at h ⊢
          cases hj : get_jvm_ticks kj stathz k.active_processor_count with
          | none => simp [hj] at h
          | some jvm =>
            refine ⟨stathz, agg, jvm, rfl, rfl, hj, ?_⟩
            simp [hj]

/-- The tick pair that a successful `initialize()` leaves in the slot of a selector: the
pair it read for the selector, or `{0, 0}` (the `memset`) when that read failed. -/
theorem initialize_perf_slot (k kj : Kernel) (s : CPUPerformance)
    (h : (initialize_perf k kj s).1 = true) (which_logical_cpu : Int)
    (hsel : -1 ≤ which_logical_cpu ∧ which_logical_cpu < k.active_processor_count) :
    ∃ cpus, (initialize_perf k kj s).2._cpus = some cpus ∧
      (initialize_perf k kj s).2._num_procs = k.active_processor_count ∧
      cpus[cpu_idx (initialize_perf k kj s).2 which_logical_cpu]? =
        some ((get_cpu_ticks k k.active_processor_count which_logical_cpu).getD ⟨0, 0⟩) := by
  obtain ⟨hn, stathz, agg, jvm, _, hagg, _, hst⟩ := initialize_perf_true k kj s h
  rw [hst]
  refine ⟨_, rfl, rfl, ?_⟩
  have hfold := initialize_each_cpu_fold k k.active_processor_count
    k.active_processor_count.toNat
    ((List.replicate (k.active_processor_count + 1).toNat
      ({ usedTicks := 0, totalTicks := 0 } : CPUTicks)).set
      k.active_processor_count.toNat agg)
  unfold initialize_each_cpu
  rw [hfold.2]
  by_cases hw : which_logical_cpu = -1
  · subst hw
    have hlt : k.active_processor_count.toNat < (k.active_processor_count + 1).toNat := by
      omega
    simp [cpu_idx, hagg, List.getElem?_set, hlt]
  · have h1 : which_logical_cpu.toNat < k.active_processor_count.toNat := by omega
    have h2 : which_logical_cpu.toNat < (k.active_processor_count + 1).toNat := by omega
    have h3 : k.active_processor_count.toNat ≠ which_logical_cpu.toNat := by omega
    have h4 : ((which_logical_cpu.toNat : Nat) : Int) = which_logical_cpu := by omega
    simp [cpu_idx, hw, h1, h2, h3, h4, List.getD_eq_getElem?_getD, List.getElem?_set]

/-- C6, as the code has it: `initialize()` itself stores a first sample for every selector
(the pair it read, or `{0, 0}` for a per-CPU read that failed), so the first `cpu_load`
call after a successful `initialize()` is measured against that sample. It returns
`OS_OK` exactly when the total tick count read has advanced beyond the stored one, and
`OS_ERR` exactly when it has not; with either status it stores the pair just read. -/
theorem first_cpu_load_after_initialize (k kj k1 : Kernel) (s : CPUPerformance)
    (which_logical_cpu : Int) (cur : CPUTicks)
    (hinit : (initialize_perf k kj s).1 = true)
    (hsel : -1 ≤ which_logical_cpu ∧ which_logical_cpu < k.active_processor_count)
    (hread : get_cpu_ticks k1 k.active_processor_count which_logical_cpu = some cur) :
    ∃ r cpus1, cpu_load k1 (initialize_perf k kj s).2 which_logical_cpu = Except.ok r ∧
      (r.status = Status.OS_OK ↔
        ((get_cpu_ticks k k.active_processor_count which_logical_cpu).getD ⟨0, 0⟩).totalTicks
          < cur.totalTicks) ∧
      (r.status = Status.OS_ERR ↔
        cur.totalTicks ≤
          ((get_cpu_ticks k k.active_processor_count which_logical_cpu).getD ⟨0, 0⟩).totalTicks) ∧
      r.state._cpus = some cpus1 ∧
      cpus1[cpu_idx (initialize_perf k kj s).2 which_logical_cpu]? = some cur := by
  obtain ⟨cpus, hc, hn, hslot⟩ := initialize_perf_slot k kj s hinit which_logical_cpu hsel
  have hsel2 : -1 ≤ which_logical_cpu ∧
      which_logical_cpu < (initialize_perf k kj s).2._num_procs := by
    rw [hn]
    exact hsel
  have hread2 : get_cpu_ticks k1 (initialize_perf k kj s).2._num_procs which_logical_cpu
      = some cur := by
    rw [hn]
    exact hread
  have hidx : cpu_idx (initialize_perf k kj s).2 which_logical_cpu < cpus.length := by
    by_contra hge
    rw [List.getElem?_eq_none (by omega)] at hslot
    cases hslot
  have hmain := cpu_load_main k1 (initialize_perf k kj s).2 which_logical_cpu cpus cur _
    hc hsel2 hread2 hslot
  have hset : (cpus.set (cpu_idx (initialize_perf k kj s).2 which_logical_cpu) cur)[
      cpu_idx (initialize_perf k kj s).2 which_logical_cpu]? = some cur := by
    simp [List.getElem?_set, hidx]
  by_cases ht : cur.totalTicks ≤
      ((get_cpu_ticks k k.active_processor_count which_logical_cpu).getD ⟨0, 0⟩).totalTicks
  · have hlt : ¬ ((get_cpu_ticks k k.active_processor_count which_logical_cpu).getD
        ⟨0, 0⟩).totalTicks < cur.totalTicks := by omega
    simp only [ht, if_true] at hmain
    exact ⟨_, _, hmain, by simp [hlt], by simp [ht], rfl, hset⟩
  · have hlt : ((get_cpu_ticks k k.active_processor_count which_logical_cpu).getD
        ⟨0, 0⟩).totalTicks < cur.totalTicks := by omega
    simp only [ht, if_false] at hmain
    exact ⟨_, _, hmain, by simp [hlt], by simp [ht], rfl, hset⟩

/-- A successful `initialize()` at the aggregate reading `{100, 200}`. -/
theorem initialize_perf_sample_eval :
    initialize_perf (sample_kernel [100, 0, 0, 0, 100] (sample_rusage 0 0))
      (sample_kernel [100, 0, 0, 0, 100] (sample_rusage 0 0)) CPUPerformance.new
    = (true, sample_state ⟨100, 200⟩ ⟨0, 0, ⟨100, 200⟩⟩) := by
  decide

/-- C6 fails as stated: after a successful `initialize()` at `{100, 200}`, the first
`cpu_load` call, reading `{150, 260}`, returns `OS_OK` with load `5/6`. -/
theorem first_cpu_load_can_succeed :
    (initialize_perf (sample_kernel [100, 0, 0, 0, 100] (sample_rusage 0 0))
      (sample_kernel [100, 0, 0, 0, 100] (sample_rusage 0 0)) CPUPerformance.new).1 = true ∧
    ∃ r, cpu_load (sample_kernel [150, 0, 0, 0, 110] (sample_rusage 0 0))
        (initialize_perf (sample_kernel [100, 0, 0, 0, 100] (sample_rusage 0 0))
          (sample_kernel [100, 0, 0, 0, 100] (sample_rusage 0 0)) CPUPerformance.new).2 (-1)
        = Except.ok r ∧
      r.status = Status.OS_OK ∧ r.cpu_load = 5 / 6 := by
  rw [initialize_perf_sample_eval]
  refine ⟨rfl, { status := Status.OS_OK, cpu_load := 5 / 6,
                 state := { sample_state ⟨100, 200⟩ ⟨0, 0, ⟨100, 200⟩⟩ with
                   _cpus := some [⟨100, 200⟩, ⟨100, 200⟩, ⟨150, 260⟩] } }, ?_, rfl, rfl⟩
  show cpu_load _ (sample_state ⟨100, 200⟩ ⟨0, 0, ⟨100, 200⟩⟩) (-1) = _
  rw [cpu_load_main _ _ _ [⟨100, 200⟩, ⟨100, 200⟩, ⟨100, 200⟩] ⟨150, 260⟩ ⟨100, 200⟩ rfl
    (by decide) (by decide) (by decide)]
  simp [cpu_load_stored, cpu_idx, sample_state]
  norm_num

/-- Witness of `first_cpu_load_after_initialize`: `initialize()` at `{100, 200}`, then a
first call that reads `{100, 200}` again returns `OS_ERR`. -/
theorem first_cpu_load_after_initialize_witness :
    (initialize_perf (sample_kernel [100, 0, 0, 0, 100] (sample_rusage 0 0))
      (sample_kernel [100, 0, 0, 0, 100] (sample_rusage 0 0)) CPUPerformance.new).1 = true ∧
    ∃ r, cpu_load (sample_kernel [100, 0, 0, 0, 100] (sample_rusage 0 0))
        (initialize_perf (sample_kernel [100, 0, 0, 0, 100] (sample_rusage 0 0))
          (sample_kernel [100, 0, 0, 0, 100] (sample_rusage 0 0)) CPUPerformance.new).2 (-1)
        = Except.ok r ∧
      r.status = Status.OS_ERR := by
  have hinit : (initialize_perf (sample_kernel [100, 0, 0, 0, 100] (sample_rusage 0 0))
      (sample_kernel [100, 0, 0, 0, 100] (sample_rusage 0 0)) CPUPerformance.new).1 = true := by
    rw [initialize_perf_sample_eval]
  obtain ⟨r, _, h1, _, h3, _⟩ := first_cpu_load_after_initialize
    (sample_kernel [100, 0, 0, 0, 100] (sample_rusage 0 0))
    (sample_kernel [100, 0, 0, 0, 100] (sample_rusage 0 0))
    (sample_kernel [100, 0, 0, 0, 100] (sample_rusage 0 0)) CPUPerformance.new (-1)
    ⟨100, 200⟩ hinit (by decide) (by decide)
  exact ⟨hinit, r, h1, h3.mpr (by decide)⟩

/-! ## Lemmas about `cpu_loads_process` -/

theorem sat_sub (a b : Nat) : (if a > b then a - b else 0) = a - b := by
  split <;> omega

theorem max_of_gt (a b : Nat) : (if a > b then a else b) = max b a := by
  split
  · exact (max_eq_right (by omega)).symm
  · exact (max_eq_left (by omega)).symm

/-- The closed form of `cpu_loads_process` after a successful sample read. -/
theorem cpu_loads_process_main (k : Kernel) (s : CPUPerformance) (cur : JVMTicks)
    (hc : s._cpus ≠ none)
    (hread : get_jvm_ticks k s._stathz s._num_procs = some cur) :
    cpu_loads_process k s = Except.ok
      (if code_total_delta s._jvm_ticks cur = 0 then
        { status := Status.OS_ERR, jvmUserLoad := 0, jvmKernelLoad := 0, systemTotalLoad := 0,
          state := { s with _jvm_ticks := cur } }
      else
        { status := Status.OS_OK
          jvmUserLoad := ((cur.userTicks - s._jvm_ticks.userTicks : Nat) : ℚ)
            / ((code_total_delta s._jvm_ticks cur : Nat) : ℚ)
          jvmKernelLoad := ((cur.systemTicks - s._jvm_ticks.systemTicks : Nat) : ℚ)
            / ((code_total_delta s._jvm_ticks cur : Nat) : ℚ)
          systemTotalLoad := ((code_used_delta s._jvm_ticks cur : Nat) : ℚ)
            / ((code_total_delta s._jvm_ticks cur : Nat) : ℚ)
          state := { s with _jvm_ticks := cur } }) := by
  obtain ⟨cpus, hcs⟩ := Option.ne_none_iff_exists'.mp hc
  unfold cpu_loads_process
  simp only [hcs, hread, sat_sub, max_of_gt]
  have hU : max (cur.cpuTicks.usedTicks - s._jvm_ticks.cpuTicks.usedTicks)
      (add64 (cur.userTicks - s._jvm_ticks.userTicks)
        (cur.systemTicks - s._jvm_ticks.systemTicks)) = code_used_delta s._jvm_ticks cur := rfl
  rw [hU]
  have hT : max (cur.cpuTicks.totalTicks - s._jvm_ticks.cpuTicks.totalTicks)
      (code_used_delta s._jvm_ticks cur) = code_total_delta s._jvm_ticks cur := rfl
  rw [hT]
  by_cases h0 : code_total_delta s._jvm_ticks cur = 0
  · simp [h0]
  · simp [h0, ddiv]

/-- When `cpu_loads_process` returns `OS_OK` it has read a sample, and its outputs are the
quotients of the closed form. -/
theorem cpu_loads_process_ok (k : Kernel) (s : CPUPerformance) (r : LoadsResult)
    (h : cpu_loads_process k s = Except.ok r) (hok : r.status = Status.OS_OK) :
    ∃ cur, s._cpus ≠ none ∧ get_jvm_ticks k s._stathz s._num_procs = some cur ∧
      code_total_delta s._jvm_ticks cur ≠ 0 ∧
      r.jvmUserLoad = ((cur.userTicks - s._jvm_ticks.userTicks : Nat) : ℚ)
        / ((code_total_delta s._jvm_ticks cur : Nat) : ℚ) ∧
      r.jvmKernelLoad = ((cur.systemTicks - s._jvm_ticks.systemTicks : Nat) : ℚ)
        / ((code_total_delta s._jvm_ticks cur : Nat) : ℚ) ∧
      r.systemTotalLoad = ((code_used_delta s._jvm_ticks cur : Nat) : ℚ)
        / ((code_total_delta s._jvm_ticks cur : Nat) : ℚ) ∧
      r.state = { s with _jvm_ticks := cur } := by
  cases hc : s._cpus with
  | none =>
    simp [cpu_loads_process, hc] at h
    subst h
    simp at hok
  | some cpus =>
    have hne : s._cpus ≠ none := by simp [hc]
    cases hread : get_jvm_ticks k s._stathz s._num_procs with
    | none =>
      simp [cpu_loads_process, hc, hread] at h
      subst h
      simp at hok
    | some cur =>
      rw [cpu_loads_process_main k s cur hne hread] at h
      by_cases h0 : code_total_delta s._jvm_ticks cur = 0
      · simp [h0] at h
        subst h
        simp at hok
      · simp only [h0, if_false, Except.ok.injEq] at h
        subst h
        exact ⟨cur, by simp, rfl, h0, rfl, rfl, rfl, by simp [hc]⟩

/-- The sample that wraps: at 128 Hz, `2^56` seconds of user time and `2^56` seconds of
system time are `2^63` ticks each, and their `uint64_t` sum is `0`. -/
theorem get_jvm_ticks_wrap_eval :
    get_jvm_ticks (sample_kernel [1, 0, 0, 0, 0]
      (sample_rusage 72057594037927936 72057594037927936)) 128 2
    = some ⟨9223372036854775808, 9223372036854775808, ⟨1, 1⟩⟩ := by
  decide

/-- The call of `cpu_loads_process` on the sample that wraps. -/
theorem cpu_loads_process_wrap_eval :
    cpu_loads_process (sample_kernel [1, 0, 0, 0, 0]
        (sample_rusage 72057594037927936 72057594037927936))
      (sample_state ⟨0, 0⟩ ⟨0, 0, ⟨0, 0⟩⟩)
    = Except.ok { status := Status.OS_OK
                  jvmUserLoad := 9223372036854775808
                  jvmKernelLoad := 9223372036854775808
                  systemTotalLoad := 1
                  state := sample_state ⟨0, 0⟩
                    ⟨9223372036854775808, 9223372036854775808, ⟨1, 1⟩⟩ } := by
  rw [cpu_loads_process_main _ _ ⟨9223372036854775808, 9223372036854775808, ⟨1, 1⟩⟩
    (by decide) get_jvm_ticks_wrap_eval]
  have hT : code_total_delta (sample_state ⟨0, 0⟩ ⟨0, 0, ⟨0, 0⟩⟩)._jvm_ticks
      ⟨9223372036854775808, 9223372036854775808, ⟨1, 1⟩⟩ = 1 := by decide
  have hU : code_used_delta (sample_state ⟨0, 0⟩ ⟨0, 0, ⟨0, 0⟩⟩)._jvm_ticks
      ⟨9223372036854775808, 9223372036854775808, ⟨1, 1⟩⟩ = 1 := by decide
  rw [hT, hU]
  simp [sample_state]

/-- C7 fails as stated: on the sample that wraps, `cpu_loads_process` returns `OS_OK` with
`user = kernel = 2^63` and `systemTotal = 1`. -/
theorem cpu_loads_process_sum_exceeds :
    ∃ r, cpu_loads_process (sample_kernel [1, 0, 0, 0, 0]
        (sample_rusage 72057594037927936 72057594037927936))
      (sample_state ⟨0, 0⟩ ⟨0, 0, ⟨0, 0⟩⟩) = Except.ok r ∧
      r.status = Status.OS_OK ∧ ¬ (r.jvmUserLoad + r.jvmKernelLoad ≤ r.systemTotalLoad) := by
  refine ⟨_, cpu_loads_process_wrap_eval, rfl, ?_⟩
  norm_num

/-- C7, amended: when the `uint64_t` sum `jvmUserDelta + jvmSystemDelta` does not wrap,
the values returned with `OS_OK` satisfy `user + kernel ≤ systemTotal`. -/
theorem cpu_loads_process_sum_le (k : Kernel) (s : CPUPerformance) (cur : JVMTicks)
    (r : LoadsResult)
    (hread : get_jvm_ticks k s._stathz s._num_procs = some cur)
    (hno : (cur.userTicks - s._jvm_ticks.userTicks)
      + (cur.systemTicks - s._jvm_ticks.systemTicks) < U64_MOD)
    (h : cpu_loads_process k s = Except.ok r) (hok : r.status = Status.OS_OK) :
    r.jvmUserLoad + r.jvmKernelLoad ≤ r.systemTotalLoad := by
  obtain ⟨cur1, _, hread1, h0, hu, hk, ht, _⟩ := cpu_loads_process_ok k s r h hok
  rw [hread] at hread1
  cases hread1
  rw [hu, hk, ht, ← add_div]
  have hpos : (0 : ℚ) < ((code_total_delta s._jvm_ticks cur : Nat) : ℚ) := by
    exact_mod_cast Nat.pos_of_ne_zero h0
  apply div_le_div_of_nonneg_right _ (le_of_lt hpos)
  have hle : (cur.userTicks - s._jvm_ticks.userTicks)
      + (cur.systemTicks - s._jvm_ticks.systemTicks) ≤ code_used_delta s._jvm_ticks cur := by
    unfold code_used_delta add64
    rw [Nat.mod_eq_of_lt hno]
    exact le_max_right _ _
  exact_mod_cast hle

/-- The sample call of `cpu_loads_process`: stored zeros, then 128 user ticks, 128 system
ticks, 1000 used and 2000 total ticks. -/
theorem cpu_loads_process_sample_eval :
    cpu_loads_process (sample_kernel [1000, 0, 0, 0, 1000] (sample_rusage 1 1))
      (sample_state ⟨0, 0⟩ ⟨0, 0, ⟨0, 0⟩⟩)
    = Except.ok { status := Status.OS_OK
                  jvmUserLoad := 128 / 2000
                  jvmKernelLoad := 128 / 2000
                  systemTotalLoad := 1000 / 2000
                  state := sample_state ⟨0, 0⟩ ⟨128, 128, ⟨1000, 2000⟩⟩ } := by
  rw [cpu_loads_process_main _ _ ⟨128, 128, ⟨1000, 2000⟩⟩ (by decide) (by decide)]
  have hT : code_total_delta (sample_state ⟨0, 0⟩ ⟨0, 0, ⟨0, 0⟩⟩)._jvm_ticks
      ⟨128, 128, ⟨1000, 2000⟩⟩ = 2000 := by decide
  have hU : code_used_delta (sample_state ⟨0, 0⟩ ⟨0, 0, ⟨0, 0⟩⟩)._jvm_ticks
      ⟨128, 128, ⟨1000, 2000⟩⟩ = 1000 := by decide
  rw [hT, hU]
  simp [sample_state]

/-- Witness of `cpu_loads_process_sum_le`: 128 user and 128 system ticks against 1000 used
ticks out of 2000. -/
theorem cpu_loads_process_sum_le_witness :
    (128 / 2000 : ℚ) + 128 / 2000 ≤ 1000 / 2000 :=
  cpu_loads_process_sum_le (sample_kernel [1000, 0, 0, 0, 1000] (sample_rusage 1 1))
    (sample_state ⟨0, 0⟩ ⟨0, 0, ⟨0, 0⟩⟩) ⟨128, 128, ⟨1000, 2000⟩⟩
    { status := Status.OS_OK
      jvmUserLoad := 128 / 2000
      jvmKernelLoad := 128 / 2000
      systemTotalLoad := 1000 / 2000
      state := sample_state ⟨0, 0⟩ ⟨128, 128, ⟨1000, 2000⟩⟩ }
    (by decide) (by decide) cpu_loads_process_sample_eval rfl

/-- Without wrap, the corrected used delta of the code is the specification's `U`. -/
theorem spec_used_delta_eq (prev cur : JVMTicks)
    (hno : (cur.userTicks - prev.userTicks) + (cur.systemTicks - prev.systemTicks) < U64_MOD) :
    spec_used_delta prev cur = ((code_used_delta prev cur : Nat) : ℚ) := by
  unfold spec_used_delta code_used_delta add64
  rw [Nat.mod_eq_of_lt hno]
  simp only [saturating_delta_eq]
  push_cast
  rfl

/-- Without wrap, the corrected total delta of the code is the specification's `T`. -/
theorem spec_total_delta_eq (prev cur : JVMTicks)
    (hno : (cur.userTicks - prev.userTicks) + (cur.systemTicks - prev.systemTicks) < U64_MOD) :
    spec_total_delta prev cur = ((code_total_delta prev cur : Nat) : ℚ) := by
  unfold spec_total_delta code_total_delta
  rw [spec_used_delta_eq prev cur hno, saturating_delta_eq]
  push_cast
  rfl

/-- C8 fails as stated: on the sample that wraps, the code returns `user = 2^63`, which is
neither the reference value `2^63 / 2^64` nor in `[0, 1]`. -/
theorem cpu_loads_process_differs :
    ∃ cur r, get_jvm_ticks (sample_kernel [1, 0, 0, 0, 0]
        (sample_rusage 72057594037927936 72057594037927936)) 128 2 = some cur ∧
      cpu_loads_process (sample_kernel [1, 0, 0, 0, 0]
          (sample_rusage 72057594037927936 72057594037927936))
        (sample_state ⟨0, 0⟩ ⟨0, 0, ⟨0, 0⟩⟩) = Except.ok r ∧
      (cpu_loads_process_spec (sample_state ⟨0, 0⟩ ⟨0, 0, ⟨0, 0⟩⟩) cur).jvmUserLoad = 1 / 2 ∧
      r.jvmUserLoad = 9223372036854775808 ∧
      ¬ (r.jvmUserLoad ≤ 1) := by
  refine ⟨_, _, get_jvm_ticks_wrap_eval, cpu_loads_process_wrap_eval, ?_, rfl, ?_⟩
  · simp only [cpu_loads_process_spec, spec_total_delta, spec_used_delta, saturating_delta,
      sample_state]
    norm_num
  · norm_num

/-- C8, amended: on every successful sample read for which the `uint64_t` sum
`jvmUserDelta + jvmSystemDelta` does not wrap, `cpu_loads_process` returns what the
reference `cpu_loads_process_spec` returns; `T = 0` exactly when all four differences are
`0`; the status is `OS_ERR` with three zero outputs when `T = 0` and `OS_OK` otherwise;
each output is in `[0, 1]`; and the stored JVM tick sample becomes the current sample. -/
theorem cpu_loads_process_refines (k : Kernel) (s : CPUPerformance) (cur : JVMTicks)
    (hc : s._cpus ≠ none)
    (hread : get_jvm_ticks k s._stathz s._num_procs = some cur)
    (hno : (cur.userTicks - s._jvm_ticks.userTicks)
      + (cur.systemTicks - s._jvm_ticks.systemTicks) < U64_MOD) :
    cpu_loads_process k s = Except.ok (cpu_loads_process_spec s cur) ∧
    (spec_total_delta s._jvm_ticks cur = 0 ↔
      saturating_delta cur.userTicks s._jvm_ticks.userTicks = 0 ∧
      saturating_delta cur.systemTicks s._jvm_ticks.systemTicks = 0 ∧
      saturating_delta cur.cpuTicks.usedTicks s._jvm_ticks.cpuTicks.usedTicks = 0 ∧
      saturating_delta cur.cpuTicks.totalTicks s._jvm_ticks.cpuTicks.totalTicks = 0) ∧
    ((cpu_loads_process_spec s cur).status = Status.OS_ERR ↔
      spec_total_delta s._jvm_ticks cur = 0) ∧
    ((cpu_loads_process_spec s cur).status = Status.OS_OK ↔
      spec_total_delta s._jvm_ticks cur ≠ 0) ∧
    (0 ≤ (cpu_loads_process_spec s cur).jvmUserLoad ∧
      (cpu_loads_process_spec s cur).jvmUserLoad ≤ 1) ∧
    (0 ≤ (cpu_loads_process_spec s cur).jvmKernelLoad ∧
      (cpu_loads_process_spec s cur).jvmKernelLoad ≤ 1) ∧
    (0 ≤ (cpu_loads_process_spec s cur).systemTotalLoad ∧
      (cpu_loads_process_spec s cur).systemTotalLoad ≤ 1) ∧
    (cpu_loads_process_spec s cur).state._jvm_ticks = cur := by
  have hU := spec_used_delta_eq s._jvm_ticks cur hno
  have hT := spec_total_delta_eq s._jvm_ticks cur hno
  have hju : cur.userTicks - s._jvm_ticks.userTicks ≤ code_used_delta s._jvm_ticks cur := by
    unfold code_used_delta add64
    rw [Nat.mod_eq_of_lt hno]
    exact le_trans (Nat.le_add_right _ _) (le_max_right _ _)
  have hjs : cur.systemTicks - s._jvm_ticks.systemTicks ≤ code_used_delta s._jvm_ticks cur := by
    unfold code_used_delta add64
    rw [Nat.mod_eq_of_lt hno]
    exact le_trans (Nat.le_add_left _ _) (le_max_right _ _)
  have hcu : cur.cpuTicks.usedTicks - s._jvm_ticks.cpuTicks.usedTicks
      ≤ code_used_delta s._jvm_ticks cur := le_max_left _ _
  have hUT : code_used_delta s._jvm_ticks cur ≤ code_total_delta s._jvm_ticks cur :=
    le_max_right _ _
  have hct : cur.cpuTicks.totalTicks - s._jvm_ticks.cpuTicks.totalTicks
      ≤ code_total_delta s._jvm_ticks cur := le_max_left _ _
  have hzero : code_total_delta s._jvm_ticks cur = 0 ↔
      cur.userTicks - s._jvm_ticks.userTicks = 0 ∧
      cur.systemTicks - s._jvm_ticks.systemTicks = 0 ∧
      cur.cpuTicks.usedTicks - s._jvm_ticks.cpuTicks.usedTicks = 0 ∧
      cur.cpuTicks.totalTicks - s._jvm_ticks.cpuTicks.totalTicks = 0 := by
    constructor
    · intro h
      omega
    · rintro ⟨h1, h2, h3, h4⟩
      unfold code_total_delta code_used_delta add64
      rw [h1, h2, h3, h4]
      rfl
  have hbound : ∀ a : Nat, a ≤ code_total_delta s._jvm_ticks cur →
      (0 : ℚ) ≤ (a : ℚ) / ((code_total_delta s._jvm_ticks cur : Nat) : ℚ) ∧
      (a : ℚ) / ((code_total_delta s._jvm_ticks cur : Nat) : ℚ) ≤ 1 := by
    intro a ha
    refine ⟨div_nonneg (Nat.cast_nonneg _) (Nat.cast_nonneg _), ?_⟩
    apply div_le_one_of_le₀ _ (Nat.cast_nonneg _)
    exact_mod_cast ha
  refine ⟨?_, ?_, ?_, ?_, ?_, ?_, ?_, ?_⟩
  · rw [cpu_loads_process_main k s cur hc hread]
    unfold cpu_loads_process_spec
    rw [hT, hU]
    simp only [saturating_delta_eq, Nat.cast_eq_zero]
  · rw [hT]
    simp only [saturating_delta_eq, Nat.cast_eq_zero]
    exact hzero
  · unfold cpu_loads_process_spec
    split <;> simp_all
  · unfold cpu_loads_process_spec
    split <;> simp_all
  · unfold cpu_loads_process_spec
    split
    · simp
    · simp only [hT, saturating_delta_eq]
      exact hbound _ (le_trans hju hUT)
  · unfold cpu_loads_process_spec
    split
    · simp
    · simp only [hT, saturating_delta_eq]
      exact hbound _ (le_trans hjs hUT)
  · unfold cpu_loads_process_spec
    split
    · simp
    · simp only [hT, hU]
      exact hbound _ hUT
  · unfold cpu_loads_process_spec
    split <;> rfl

/-- Witness of `cpu_loads_process_refines`: stored zeros, then 128 user ticks, 128 system
ticks, 1000 used and 2000 total ticks. -/
theorem cpu_loads_process_refines_witness :
    cpu_loads_process (sample_kernel [1000, 0, 0, 0, 1000] (sample_rusage 1 1))
        (sample_state ⟨0, 0⟩ ⟨0, 0, ⟨0, 0⟩⟩)
      = Except.ok (cpu_loads_process_spec (sample_state ⟨0, 0⟩ ⟨0, 0, ⟨0, 0⟩⟩)
          ⟨128, 128, ⟨1000, 2000⟩⟩) ∧
    (cpu_loads_process_spec (sample_state ⟨0, 0⟩ ⟨0, 0, ⟨0, 0⟩⟩)
      ⟨128, 128, ⟨1000, 2000⟩⟩).state._jvm_ticks = ⟨128, 128, ⟨1000, 2000⟩⟩ := by
  obtain ⟨h1, _, _, _, _, _, _, h8⟩ := cpu_loads_process_refines
    (sample_kernel [1000, 0, 0, 0, 1000] (sample_rusage 1 1))
    (sample_state ⟨0, 0⟩ ⟨0, 0, ⟨0, 0⟩⟩) ⟨128, 128, ⟨1000, 2000⟩⟩
    (by decide) (by decide) (by decide)
  exact ⟨h1, h8⟩

/-! ## `cpu_load_total_process` -/

/-- C9 fails as stated: with 128 user ticks, 128 system ticks, 1000 used and 2000 total
ticks, the BSD `cpu_load_total_process` reports `256/2000`, not `systemTotal = 1000/2000`. -/
theorem cpu_load_total_process_is_not_system_total :
    ∃ r r1, cpu_load_total_process (sample_kernel [1000, 0, 0, 0, 1000] (sample_rusage 1 1))
        (sample_state ⟨0, 0⟩ ⟨0, 0, ⟨0, 0⟩⟩) = Except.ok r ∧
      r.status = Status.OS_OK ∧
      cpu_loads_process (sample_kernel [1000, 0, 0, 0, 1000] (sample_rusage 1 1))
        (sample_state ⟨0, 0⟩ ⟨0, 0, ⟨0, 0⟩⟩) = Except.ok r1 ∧
      r.cpu_load = 256 / 2000 ∧ r1.systemTotalLoad = 1000 / 2000 ∧
      r.cpu_load ≠ r1.systemTotalLoad := by
  refine ⟨{ status := Status.OS_OK, cpu_load := 128 / 2000 + 128 / 2000,
            state := sample_state ⟨0, 0⟩ ⟨128, 128, ⟨1000, 2000⟩⟩ }, _, ?_, rfl,
    cpu_loads_process_sample_eval, ?_, rfl, ?_⟩
  · unfold cpu_load_total_process
    rw [cpu_loads_process_sample_eval]
    simp
  · norm_num
  · norm_num

/-- C9, as the code has it: the BSD `cpu_load_total_process`, when it returns `OS_OK`,
reports the sum `user + kernel` of the process loads that `cpu_loads_process` computes from
the same sample (and leaves the state that call leaves); it is the Apple
`cpu_load_total_process` that reports the aggregate system load, the host-wide used-tick
delta over the host-wide total-tick delta. -/
theorem cpu_load_total_process_value :
    (∀ (k : Kernel) (s : CPUPerformance) (r : LoadResult),
      cpu_load_total_process k s = Except.ok r → r.status = Status.OS_OK →
      ∃ r1, cpu_loads_process k s = Except.ok r1 ∧ r1.status = Status.OS_OK ∧
        r.cpu_load = r1.jvmUserLoad + r1.jvmKernelLoad ∧ r.state = r1.state) ∧
    (∀ (host : Option Apple.host_cpu_load_info) (s : Apple.CPUPerformance)
      (r : Apple.LoadResult),
      Apple.cpu_load_total_process host s = Except.ok r → r.status = Status.OS_OK →
      ∃ info, host = some info ∧
        Apple.host_total_ticks info - s._total_ticks ≠ 0 ∧
        r.cpu_load = some (((Apple.host_used_ticks info - s._used_ticks : Int) : ℚ) /
          ((Apple.host_total_ticks info - s._total_ticks : Int) : ℚ)) ∧
        r.state._used_ticks = Apple.host_used_ticks info ∧
        r.state._total_ticks = Apple.host_total_ticks info) := by
  constructor
  · intro k s r h hok
    unfold cpu_load_total_process at h
    cases h1 : cpu_loads_process k s with
    | error f => simp [h1] at h
    | ok r1 =>
      simp only [h1] at h
      by_cases hs : r1.status = Status.OS_OK
      · simp only [hs, ne_eq, not_true_eq_false, if_false, Except.ok.injEq] at h
        subst h
        exact ⟨r1, rfl, hs, rfl, rfl⟩
      · simp only [ne_eq, hs, not_false_eq_true, if_true, Except.ok.injEq] at h
        subst h
        simp at hok
  · intro host s r h hok
    cases host with
    | none =>
      simp [Apple.cpu_load_total_process] at h
      subst h
      simp at hok
    | some info =>
      refine ⟨info, rfl, ?_⟩
      unfold Apple.cpu_load_total_process at h
      simp only [] at h
      by_cases hfirst : s._used_ticks = 0 ∨ s._total_ticks = 0
      · simp only [hfirst, if_true, Except.ok.injEq] at h
        subst h
        simp at hok
      · simp only [hfirst, if_false] at h
        by_cases hz : Apple.host_total_ticks info - s._total_ticks = 0
        · unfold Apple.host_total_ticks Apple.host_used_ticks at hz
          simp only [hz, if_true, Except.ok.injEq] at h
          subst h
          simp at hok
        · refine ⟨hz, ?_⟩
          have hz1 := hz
          unfold Apple.host_total_ticks Apple.host_used_ticks at hz1
          simp only [hz1, if_false, Apple.ddiv, Except.ok.injEq] at h
          subst h
          exact ⟨rfl, rfl, rfl⟩

/-- Witness of `cpu_load_total_process_value`: the BSD sample of 128 user and 128 system
ticks out of 2000, and an Apple host that goes from `{100, 200}` to `{150, 260}`. -/
theorem cpu_load_total_process_value_witness :
    (∃ r1, cpu_loads_process (sample_kernel [1000, 0, 0, 0, 1000] (sample_rusage 1 1))
        (sample_state ⟨0, 0⟩ ⟨0, 0, ⟨0, 0⟩⟩) = Except.ok r1 ∧ r1.status = Status.OS_OK ∧
      (128 / 2000 + 128 / 2000 : ℚ) = r1.jvmUserLoad + r1.jvmKernelLoad) ∧
    (∃ info, some (⟨150, 0, 0, 110⟩ : Apple.host_cpu_load_info) = some info ∧
      (some (50 / 60) : Option ℚ) = some (((Apple.host_used_ticks info - 100 : Int) : ℚ) /
          ((Apple.host_total_ticks info - 200 : Int) : ℚ))) := by
  constructor
  · obtain ⟨r1, h1, h2, h3, _⟩ := cpu_load_total_process_value.1
      (sample_kernel [1000, 0, 0, 0, 1000] (sample_rusage 1 1))
      (sample_state ⟨0, 0⟩ ⟨0, 0, ⟨0, 0⟩⟩)
      { status := Status.OS_OK, cpu_load := 128 / 2000 + 128 / 2000,
        state := sample_state ⟨0, 0⟩ ⟨128, 128, ⟨1000, 2000⟩⟩ }
      (by
        unfold cpu_load_total_process
        rw [cpu_loads_process_sample_eval]
        simp)
      rfl
    exact ⟨r1, h1, h2, h3⟩
  · obtain ⟨info, h1, _, h3, _⟩ := cpu_load_total_process_value.2
      (some ⟨150, 0, 0, 110⟩)
      { _total_cpu_nanos := 0, _total_csr_nanos := 0, _jvm_user_nanos := 0,
        _jvm_system_nanos := 0, _jvm_context_switches := 0, _used_ticks := 100,
        _total_ticks := 200, _active_processor_count := 0 }
      { status := Status.OS_OK, cpu_load := some (50 / 60),
        state := { _total_cpu_nanos := 0, _total_csr_nanos := 0, _jvm_user_nanos := 0,
                   _jvm_system_nanos := 0, _jvm_context_switches := 0, _used_ticks := 150,
                   _total_ticks := 260, _active_processor_count := 0 } }
      (by
        simp [Apple.cpu_load_total_process, Apple.ddiv, Apple.U32_MOD])
      rfl
    exact ⟨info, h1, h3⟩

/-! ## The consistency of JVM tick samples -/

/-- A sample that `get_jvm_ticks` returns is consistent. -/
theorem get_jvm_ticks_consistent (k : Kernel) (_stathz _num_procs : Int) (j : JVMTicks)
    (h : get_jvm_ticks k _stathz _num_procs = some j) : j.consistent := by
  unfold get_jvm_ticks at h
  cases hru : k.getrusage with
  | none => simp [hru] at h
  | some usage =>
    cases hcp : get_cpu_ticks k _num_procs (-1) with
    | none => simp [hru, hcp] at h
    | some cpuTicks =>
      simp only [hru, hcp, Option.some.injEq] at h
      subst h
      unfold JVMTicks.consistent
      simp only []
      split <;> split <;> simp_all

/-- The function `initialize()` keeps the stored JVM sample or stores one it has read. -/
theorem initialize_perf_jvm_ticks (k kj : Kernel) (s : CPUPerformance) :
    (initialize_perf k kj s).2._jvm_ticks = s._jvm_ticks ∨
    ∃ hz n, get_jvm_ticks kj hz n = some (initialize_perf k kj s).2._jvm_ticks := by
  unfold initialize_perf init_stathz
  by_cases hn : k.active_processor_count < 1
  · simp [hn]
  · simp only [hn, if_false]
    cases hclk : k.clockrate with
    | none => simp
    | some stathz =>
      try simp only []
      cases ha : k.alloc_ok with
      | false => simp
      | true =>
        try simp only []
        cases hagg : get_cpu_ticks k k.active_processor_count (-1) with
        | none => simp
        | some agg =>
          try simp only []
          cases hj : get_jvm_ticks kj stathz k.active_processor_count with
          | none => simp
          | some jvm =>
            right
            exact ⟨stathz, k.active_processor_count, by simp [hj]⟩

/-- The function `cpu_load` does not touch the stored JVM sample. -/
theorem cpu_load_jvm_ticks (k : Kernel) (s : CPUPerformance) (which_logical_cpu : Int)
    (r : LoadResult) (h : cpu_load k s which_logical_cpu = Except.ok r) :
    r.state._jvm_ticks = s._jvm_ticks := by
  cases hc : s._cpus with
  | none =>
    simp [cpu_load, hc] at h
    subst h
    rfl
  | some cpus =>
    by_cases hsel : which_logical_cpu < -1 ∨ which_logical_cpu ≥ s._num_procs
    · simp [cpu_load, hc, hsel] at h
      subst h
      rfl
    · cases hread : get_cpu_ticks k s._num_procs which_logical_cpu with
      | none =>
        simp [cpu_load, hc, hsel, hread] at h
        subst h
        rfl
      | some cur =>
        cases hprev : cpus[cpu_idx s which_logical_cpu]? with
        | none =>
          unfold cpu_idx at hprev
          simp [cpu_load, hc, hsel, hread, hprev] at h
        | some prev =>
          have hsel2 : -1 ≤ which_logical_cpu ∧ which_logical_cpu < s._num_procs := by omega
          rw [cpu_load_main k s which_logical_cpu cpus cur prev hc hsel2 hread hprev] at h
          simp only [Except.ok.injEq] at h
          subst h
          split <;> rfl

/-- The function `cpu_loads_process` keeps the stored JVM sample or stores the one read. -/
theorem cpu_loads_process_jvm_ticks (k : Kernel) (s : CPUPerformance) (r : LoadsResult)
    (h : cpu_loads_process k s = Except.ok r) :
    r.state._jvm_ticks = s._jvm_ticks ∨
    get_jvm_ticks k s._stathz s._num_procs = some r.state._jvm_ticks := by
  cases hc : s._cpus with
  | none =>
    simp [cpu_loads_process, hc] at h
    subst h
    exact Or.inl rfl
  | some cpus =>
    have hne : s._cpus ≠ none := by simp [hc]
    cases hread : get_jvm_ticks k s._stathz s._num_procs with
    | none =>
      simp [cpu_loads_process, hc, hread] at h
      subst h
      exact Or.inl rfl
    | some cur =>
      rw [cpu_loads_process_main k s cur hne hread] at h
      simp only [Except.ok.injEq] at h
      subst h
      right
      split <;> rfl

/-- The stored JVM sample is consistent in every reachable state. -/
theorem reachable_consistent (s : CPUPerformance) (h : Reachable s) :
    s._jvm_ticks.consistent := by
  induction h with
  | construct => decide
  | init k kj s _ ih =>
    rcases initialize_perf_jvm_ticks k kj s with h | ⟨hz, n, h⟩
    · rw [h]
      exact ih
    · exact get_jvm_ticks_consistent kj hz n _ h
  | cpu_load k s w r _ hr ih =>
    rw [cpu_load_jvm_ticks k s w r hr]
    exact ih
  | cpu_loads_process k s r _ hr ih =>
    rcases cpu_loads_process_jvm_ticks k s r hr with h | h
    · rw [h]
      exact ih
    · exact get_jvm_ticks_consistent k _ _ _ h
  | cpu_load_total_process k s r _ hr ih =>
    unfold cpu_load_total_process at hr
    cases h1 : cpu_loads_process k s with
    | error f => simp [h1] at hr
    | ok r1 =>
      have hst : r.state = r1.state := by
        simp only [h1] at hr
        split at hr <;> (simp only [Except.ok.injEq] at hr; subst hr; rfl)
      rw [hst]
      rcases cpu_loads_process_jvm_ticks k s r1 h1 with h | h
      · rw [h]
        exact ih
      · exact get_jvm_ticks_consistent k _ _ _ h

/-- Without wrap, the `uint64_t` sum is the sum. -/
theorem consistent_exact (j : JVMTicks) (h : j.consistent) :
    add64 j.userTicks j.systemTicks ≤ j.cpuTicks.usedTicks ∧
    j.cpuTicks.usedTicks ≤ j.cpuTicks.totalTicks ∧
    (j.userTicks + j.systemTicks < U64_MOD →
      j.userTicks + j.systemTicks ≤ j.cpuTicks.usedTicks ∧
      j.cpuTicks.usedTicks ≤ j.cpuTicks.totalTicks) := by
  refine ⟨h.1, h.2, fun hno => ⟨?_, h.2⟩⟩
  have h1 := h.1
  unfold add64 at h1
  rw [Nat.mod_eq_of_lt hno] at h1
  exact h1

/-- An `initialize()` whose JVM sample is the sample that wraps. -/
theorem initialize_perf_wrap_eval :
    initialize_perf (sample_kernel [1, 0, 0, 0, 0] (sample_rusage 0 0))
      (sample_kernel [1, 0, 0, 0, 0] (sample_rusage 72057594037927936 72057594037927936))
      CPUPerformance.new
    = (true, sample_state ⟨1, 1⟩ ⟨9223372036854775808, 9223372036854775808, ⟨1, 1⟩⟩) := by
  decide

/-- C10 fails as stated: at 128 Hz, `2^56` seconds of user time and of system time give a
successful `get_jvm_ticks` with `userTicks = systemTicks = 2^63` and `usedTicks = 1`, and
`initialize()` stores that sample. -/
theorem jvm_ticks_sum_exceeds_used :
    (∃ j, get_jvm_ticks (sample_kernel [1, 0, 0, 0, 0]
        (sample_rusage 72057594037927936 72057594037927936)) 128 2 = some j ∧
      ¬ (j.userTicks + j.systemTicks ≤ j.cpuTicks.usedTicks)) ∧
    (∃ s, Reachable s ∧
      ¬ (s._jvm_ticks.userTicks + s._jvm_ticks.systemTicks ≤ s._jvm_ticks.cpuTicks.usedTicks)) := by
  refine ⟨⟨_, get_jvm_ticks_wrap_eval, by decide⟩, ?_⟩
  refine ⟨(initialize_perf (sample_kernel [1, 0, 0, 0, 0] (sample_rusage 0 0))
      (sample_kernel [1, 0, 0, 0, 0] (sample_rusage 72057594037927936 72057594037927936))
      CPUPerformance.new).2, Reachable.init _ _ _ Reachable.construct, ?_⟩
  rw [initialize_perf_wrap_eval]
  decide

/-- C10, amended: every sample that a successful `get_jvm_ticks` produces satisfies
`(userTicks + systemTicks) mod 2^64 ≤ usedTicks ≤ totalTicks`, with the `uint64_t` sum the
code compares, hence `userTicks + systemTicks ≤ usedTicks ≤ totalTicks` whenever that sum
does not wrap; and the stored JVM tick sample satisfies the same in every state reachable
from construction through `initialize()`, `cpu_load`, `cpu_loads_process` and
`cpu_load_total_process`. -/
theorem jvm_ticks_invariant :
    (∀ (k : Kernel) (_stathz _num_procs : Int) (j : JVMTicks),
      get_jvm_ticks k _stathz _num_procs = some j →
      add64 j.userTicks j.systemTicks ≤ j.cpuTicks.usedTicks ∧
      j.cpuTicks.usedTicks ≤ j.cpuTicks.totalTicks ∧
      (j.userTicks + j.systemTicks < U64_MOD →
        j.userTicks + j.systemTicks ≤ j.cpuTicks.usedTicks ∧
        j.cpuTicks.usedTicks ≤ j.cpuTicks.totalTicks)) ∧
    (∀ s : CPUPerformance, Reachable s →
      add64 s._jvm_ticks.userTicks s._jvm_ticks.systemTicks ≤ s._jvm_ticks.cpuTicks.usedTicks ∧
      s._jvm_ticks.cpuTicks.usedTicks ≤ s._jvm_ticks.cpuTicks.totalTicks ∧
      (s._jvm_ticks.userTicks + s._jvm_ticks.systemTicks < U64_MOD →
        s._jvm_ticks.userTicks + s._jvm_ticks.systemTicks ≤ s._jvm_ticks.cpuTicks.usedTicks ∧
        s._jvm_ticks.cpuTicks.usedTicks ≤ s._jvm_ticks.cpuTicks.totalTicks)) :=
  ⟨fun k hz n j h => consistent_exact j (get_jvm_ticks_consistent k hz n j h),
   fun s h => consistent_exact s._jvm_ticks (reachable_consistent s h)⟩

/-- Witness of `jvm_ticks_invariant`: 300 user ticks and 300 system ticks against 500 used
ticks out of 550 are corrected to 600 used out of 600; and the collector after an
`initialize()` at `{100, 200}` stores a consistent sample. -/
theorem jvm_ticks_invariant_witness :
    get_jvm_ticks (sample_kernel [500, 0, 0, 0, 50]
        ⟨⟨2, 343750⟩, ⟨2, 343750⟩⟩) 128 2 = some ⟨300, 300, ⟨600, 600⟩⟩ ∧
    (300 + 300 ≤ 600 ∧ 600 ≤ 600) ∧
    Reachable (sample_state ⟨100, 200⟩ ⟨0, 0, ⟨100, 200⟩⟩) ∧
    (0 + 0 ≤ 100 ∧ 100 ≤ 200) := by
  have hj : get_jvm_ticks (sample_kernel [500, 0, 0, 0, 50]
      ⟨⟨2, 343750⟩, ⟨2, 343750⟩⟩) 128 2 = some ⟨300, 300, ⟨600, 600⟩⟩ := by decide
  have hr : Reachable (sample_state ⟨100, 200⟩ ⟨0, 0, ⟨100, 200⟩⟩) := by
    have h := Reachable.init (sample_kernel [100, 0, 0, 0, 100] (sample_rusage 0 0))
      (sample_kernel [100, 0, 0, 0, 100] (sample_rusage 0 0)) CPUPerformance.new
      Reachable.construct
    rw [initialize_perf_sample_eval] at h
    exact h
  exact ⟨hj, (jvm_ticks_invariant.1 _ _ _ _ hj).2.2 (by decide), hr,
    (jvm_ticks_invariant.2 _ hr).2.2 (by decide)⟩

/-! ## `context_switch_rate` -/

/-- The elapsed seconds are zero exactly when the two timestamps are equal. -/
theorem delta_in_sec_eq_zero (t t0 : Int) :
    ((t - t0 : Int) : ℚ) / NANOS_PER_SEC = 0 ↔ t = t0 := by
  unfold NANOS_PER_SEC
  rw [div_eq_zero_iff]
  constructor
  · rintro (h | h)
    · have : t - t0 = 0 := by exact_mod_cast h
      omega
    · norm_num at h
  · intro h
    left
    rw [h]
    simp

/-- The closed form of the common part of `context_switch_rate` when the clock is read
and has moved. -/
theorem context_switch_rate_tail_moved (c t : Int) (b : SwitchBaseline)
    (ht : t ≠ b._total_csr_nanos) :
    context_switch_rate_tail c (some t) b = Except.ok
      { status := if b._total_csr_nanos = 0 ∨ b._jvm_context_switches = 0 then Status.OS_ERR
                  else Status.OS_OK
        rate := some (((c - b._jvm_context_switches : Int) : ℚ) /
          (((t - b._total_csr_nanos : Int) : ℚ) / NANOS_PER_SEC))
        baseline := { _total_csr_nanos := t, _jvm_context_switches := c } } := by
  have hne : ¬ (((t - b._total_csr_nanos : Int) : ℚ) / NANOS_PER_SEC = 0) := by
    rw [delta_in_sec_eq_zero]
    exact ht
  unfold context_switch_rate_tail fdiv
  simp only [hne, if_false]

/-- The closed form of the common part of `context_switch_rate` when the clock is read
and has not moved. -/
theorem context_switch_rate_tail_still (c : Int) (b : SwitchBaseline) :
    context_switch_rate_tail c (some b._total_csr_nanos) b = Except.ok
      { status := Status.OS_ERR, rate := none, baseline := b } := by
  have h0 : ((b._total_csr_nanos - b._total_csr_nanos : Int) : ℚ) / NANOS_PER_SEC = 0 := by
    rw [delta_in_sec_eq_zero]
  unfold context_switch_rate_tail
  simp only [h0, if_true]

/-- C11: for a collector whose stored timestamp and stored switch count are `0`, as after
construction, the first `context_switch_rate` call, for every counter reading and every
non-zero now timestamp `t`, returns `OS_ERR`, and afterwards the stored switch count is
the counter read (as the `unsigned int` that the BSD variants hold, as the `long` that the
Apple variant holds) and the stored timestamp is `t`. -/
theorem first_context_switch_rate (c t : Int) (ht : t ≠ 0) :
    (∀ s : CPUPerformance, s._total_csr_nanos = 0 → s._jvm_context_switches = 0 →
      ∃ r, context_switch_rate { swtch := some c, now := some t } s = Except.ok r ∧
        r.status = Status.OS_ERR ∧
        r.state = { s with _total_csr_nanos := t, _jvm_context_switches := (u32 c : Int) }) ∧
    (∀ s : Apple.CPUPerformance, s._total_csr_nanos = 0 → s._jvm_context_switches = 0 →
      ∃ r, Apple.context_switch_rate { swtch := some c, now := some t } s = Except.ok r ∧
        r.status = Status.OS_ERR ∧
        r.state = { s with _total_csr_nanos := t, _jvm_context_switches := c }) ∧
    (0 ≤ c → c < 4294967296 → (u32 c : Int) = c) := by
  refine ⟨?_, ?_, ?_⟩
  rotate_left 2
  · intro h0 h1
    unfold u32
    omega
  · intro s h1 h2
    have hm := context_switch_rate_tail_moved (u32 c : Int) t
      { _total_csr_nanos := s._total_csr_nanos
        _jvm_context_switches := s._jvm_context_switches } (by simpa [h1] using ht)
    unfold context_switch_rate
    simp only [hm]
    exact ⟨_, rfl, by simp [h1], rfl⟩
  · intro s h1 h2
    have hm := context_switch_rate_tail_moved c t
      { _total_csr_nanos := s._total_csr_nanos
        _jvm_context_switches := s._jvm_context_switches } (by simpa [h1] using ht)
    unfold Apple.context_switch_rate
    simp only [hm]
    exact ⟨_, rfl, by simp [h1], rfl⟩

/-- Witness of `first_context_switch_rate`: counter 42 read at 1 s after construction. -/
theorem first_context_switch_rate_witness :
    ∃ r, context_switch_rate { swtch := some 42, now := some 1000000000 } CPUPerformance.new
        = Except.ok r ∧
      r.status = Status.OS_ERR ∧
      r.state = { CPUPerformance.new with
        _total_csr_nanos := 1000000000, _jvm_context_switches := 42 } :=
  (first_context_switch_rate 42 1000000000 (by decide)).1 CPUPerformance.new rfl rfl

/-- C12: for every collector state and counter reading, a `context_switch_rate` call whose
now timestamp equals the stored timestamp returns `OS_ERR`, does not reach the division
by the elapsed time (`*rate` is not assigned, and the call is free of faults), and leaves
the collector, its stored switch count and timestamp included, unchanged. -/
theorem context_switch_rate_zero_elapsed (c : Int) :
    (∀ s : CPUPerformance,
      context_switch_rate { swtch := some c, now := some s._total_csr_nanos } s
        = Except.ok { status := Status.OS_ERR, rate := none, state := s }) ∧
    (∀ s : Apple.CPUPerformance,
      Apple.context_switch_rate { swtch := some c, now := some s._total_csr_nanos } s
        = Except.ok { status := Status.OS_ERR, rate := none, state := s }) := by
  constructor
  · intro s
    have hs := context_switch_rate_tail_still (u32 c : Int)
      { _total_csr_nanos := s._total_csr_nanos
        _jvm_context_switches := s._jvm_context_switches }
    unfold context_switch_rate
    simp only [hs]
  · intro s
    have hs := context_switch_rate_tail_still c
      { _total_csr_nanos := s._total_csr_nanos
        _jvm_context_switches := s._jvm_context_switches }
    unfold Apple.context_switch_rate
    simp only [hs]

/-- The closed form of the BSD `context_switch_rate` when both reads succeed and the clock
has moved. -/
theorem context_switch_rate_moved (c t : Int) (s : CPUPerformance)
    (ht : t ≠ s._total_csr_nanos) :
    context_switch_rate { swtch := some c, now := some t } s = Except.ok
      { status := if s._total_csr_nanos = 0 ∨ s._jvm_context_switches = 0 then Status.OS_ERR
                  else Status.OS_OK
        rate := some ((((u32 c : Int) - s._jvm_context_switches : Int) : ℚ) /
          (((t - s._total_csr_nanos : Int) : ℚ) / NANOS_PER_SEC))
        state := { s with _total_csr_nanos := t, _jvm_context_switches := (u32 c : Int) } } := by
  have hm := context_switch_rate_tail_moved (u32 c : Int) t
    { _total_csr_nanos := s._total_csr_nanos
      _jvm_context_switches := s._jvm_context_switches } ht
  unfold context_switch_rate
  simp only [hm]

/-- The closed form of the Apple `context_switch_rate` when both reads succeed and the
clock has moved. -/
theorem apple_context_switch_rate_moved (c t : Int) (s : Apple.CPUPerformance)
    (ht : t ≠ s._total_csr_nanos) :
    Apple.context_switch_rate { swtch := some c, now := some t } s = Except.ok
      { status := if s._total_csr_nanos = 0 ∨ s._jvm_context_switches = 0 then Status.OS_ERR
                  else Status.OS_OK
        rate := some (((c - s._jvm_context_switches : Int) : ℚ) /
          (((t - s._total_csr_nanos : Int) : ℚ) / NANOS_PER_SEC))
        state := { s with _total_csr_nanos := t, _jvm_context_switches := c } } := by
  have hm := context_switch_rate_tail_moved c t
    { _total_csr_nanos := s._total_csr_nanos
      _jvm_context_switches := s._jvm_context_switches } ht
  unfold Apple.context_switch_rate
  simp only [hm]

/-- C13 fails as stated: when the first call has recorded the baseline `(0, 1 s)`, the
following call, reading counter 5 at 2 s, assigns the rate `5` and stores `(5, 2 s)`, but
returns `OS_ERR`. -/
theorem second_context_switch_rate_can_fail :
    ∃ r0 r1,
      context_switch_rate { swtch := some 0, now := some 1000000000 } CPUPerformance.new
        = Except.ok r0 ∧
      r0.state._jvm_context_switches = 0 ∧ r0.state._total_csr_nanos = 1000000000 ∧
      context_switch_rate { swtch := some 5, now := some 2000000000 } r0.state
        = Except.ok r1 ∧
      r1.status = Status.OS_ERR ∧ r1.rate = some 5 := by
  refine ⟨_, _, context_switch_rate_moved 0 1000000000 CPUPerformance.new (by decide),
    by decide, rfl, context_switch_rate_moved 5 2000000000 _ (by decide), by decide, ?_⟩
  simp only [CPUPerformance.new, NANOS_PER_SEC, u32]
  norm_num

/-- C13, amended: after a first `context_switch_rate` call that recorded the baseline
`(c0, t0)`, the immediately following call reading counter `c1` at time `t1` with any
elapsed time `t1 - t0 > 0` assigns `rate = (c1 - c0) / ((t1 - t0) / 10^9)` and stores
`(c1, t1)` as the new baseline, for every `c0`, `c1`; it returns `OS_OK` exactly when
`c0 ≠ 0`, and `OS_ERR` when `c0 = 0`, which the code takes for a missing baseline. On
the BSD variants `c0`, `c1` are the `unsigned int` values of the counter. -/
theorem second_context_switch_rate (c0 t0 c1 t1 : Int) (ht0 : t0 ≠ 0) (hel : t1 - t0 > 0) :
    (∀ s : CPUPerformance, s._total_csr_nanos = 0 → s._jvm_context_switches = 0 →
      ∃ r0 r1, context_switch_rate { swtch := some c0, now := some t0 } s = Except.ok r0 ∧
        r0.state._jvm_context_switches = (u32 c0 : Int) ∧ r0.state._total_csr_nanos = t0 ∧
        context_switch_rate { swtch := some c1, now := some t1 } r0.state = Except.ok r1 ∧
        (r1.status = Status.OS_OK ↔ u32 c0 ≠ 0) ∧
        (r1.status = Status.OS_ERR ↔ u32 c0 = 0) ∧
        r1.rate = some ((((u32 c1 : Int) - (u32 c0 : Int) : Int) : ℚ) /
          (((t1 - t0 : Int) : ℚ) / 1000000000)) ∧
        r1.state = { s with _total_csr_nanos := t1, _jvm_context_switches := (u32 c1 : Int) }) ∧
    (∀ s : Apple.CPUPerformance, s._total_csr_nanos = 0 → s._jvm_context_switches = 0 →
      ∃ r0 r1,
        Apple.context_switch_rate { swtch := some c0, now := some t0 } s = Except.ok r0 ∧
        r0.state._jvm_context_switches = c0 ∧ r0.state._total_csr_nanos = t0 ∧
        Apple.context_switch_rate { swtch := some c1, now := some t1 } r0.state
          = Except.ok r1 ∧
        (r1.status = Status.OS_OK ↔ c0 ≠ 0) ∧
        (r1.status = Status.OS_ERR ↔ c0 = 0) ∧
        r1.rate = some (((c1 - c0 : Int) : ℚ) / (((t1 - t0 : Int) : ℚ) / 1000000000)) ∧
        r1.state = { s with _total_csr_nanos := t1, _jvm_context_switches := c1 }) := by
  constructor
  · intro s h1 h2
    have e0 := context_switch_rate_moved c0 t0 s (by rw [h1]; exact ht0)
    have e1 := context_switch_rate_moved c1 t1
      { s with _total_csr_nanos := t0, _jvm_context_switches := (u32 c0 : Int) }
      (by simp only []; omega)
    refine ⟨_, _, e0, rfl, rfl, e1, ?_, ?_, ?_, rfl⟩
    · by_cases hc : u32 c0 = 0
      · simp [hc]
      · simp [hc, ht0]
    · by_cases hc : u32 c0 = 0
      · simp [hc]
      · simp [hc, ht0]
    · simp only [NANOS_PER_SEC]
  · intro s h1 h2
    have e0 := apple_context_switch_rate_moved c0 t0 s (by rw [h1]; exact ht0)
    have e1 := apple_context_switch_rate_moved c1 t1
      { s with _total_csr_nanos := t0, _jvm_context_switches := c0 }
      (by simp only []; omega)
    refine ⟨_, _, e0, rfl, rfl, e1, ?_, ?_, ?_, rfl⟩
    · by_cases hc : c0 = 0
      · simp [hc]
      · simp [hc, ht0]
    · by_cases hc : c0 = 0
      · simp [hc]
      · simp [hc, ht0]
    · simp only [NANOS_PER_SEC]

/-- Witness of `second_context_switch_rate`: baseline `(100, 1 s)`, then counter 350 at
3 s: `OS_OK` with 125 switches per second. -/
theorem second_context_switch_rate_witness :
    ∃ r0 r1,
      context_switch_rate { swtch := some 100, now := some 1000000000 } CPUPerformance.new
        = Except.ok r0 ∧
      context_switch_rate { swtch := some 350, now := some 3000000000 } r0.state
        = Except.ok r1 ∧
      r1.status = Status.OS_OK ∧ r1.rate = some 125 := by
  obtain ⟨r0, r1, h0, _, _, h1, hok, _, hrate, _⟩ :=
    (second_context_switch_rate 100 1000000000 350 3000000000 (by decide) (by decide)).1
      CPUPerformance.new rfl rfl
  refine ⟨r0, r1, h0, h1, hok.mpr (by decide), ?_⟩
  rw [hrate]
  simp only [u32]
  norm_num

/-! ## `system_processes` -/

theorem take_length_takeWhile (p : Nat → Bool) (l : List Nat) :
    l.take (l.takeWhile p).length = l.takeWhile p := by
  induction l with
  | nil => simp
  | cons a l ih =>
    by_cases h : p a
    · simp [List.takeWhile_cons, h, ih]
    · simp [List.takeWhile_cons, h]

/-- The bytes that `strncpy(path, s, strnlen(s, maxlen))` copies are the C string at `s`,
cut at `maxlen` bytes. -/
theorem take_strnlen (s : List Nat) (maxlen : Nat) :
    s.take (strnlen s maxlen) = cstring (s.take maxlen) := by
  unfold strnlen cstring
  have h1 := take_length_takeWhile (fun b => b ≠ 0) (s.take maxlen)
  have h2 : ((s.take maxlen).takeWhile (fun b => decide (b ≠ 0))).length ≤ maxlen := by
    refine le_trans (List.takeWhile_prefix _).length_le ?_
    simp
  rw [List.take_take, min_eq_left h2] at h1
  exact h1

theorem strnlen_pos (s : List Nat) (maxlen : Nat) :
    strnlen s maxlen > 0 ↔ cstring (s.take maxlen) ≠ [] := by
  unfold strnlen
  rw [gt_iff_lt, List.length_pos]

/-- The loop on FreeBSD pushes the resolved records, in table order, onto `next`. -/
theorem freebsd_loop_eq (PATH_MAX : Nat) (lproc : List FreeBSD.kinfo_proc)
    (next : List SystemProcess) (process_count : Int) :
    FreeBSD.system_processes_loop PATH_MAX lproc next process_count =
      ((lproc.filterMap (FreeBSD.resolved PATH_MAX)).reverse ++ next,
       process_count + ((lproc.filterMap (FreeBSD.resolved PATH_MAX)).length : Int)) := by
  induction lproc generalizing next process_count with
  | nil => simp [FreeBSD.system_processes_loop]
  | cons p rest ih =>
    unfold FreeBSD.system_processes_loop
    cases hp : p.pathname with
    | none =>
      have hres : FreeBSD.resolved PATH_MAX p = none := by
        simp only [FreeBSD.resolved, hp]
      simp only []
      rw [ih, List.filterMap_cons_none hres]
    | some buffer =>
      simp only []
      by_cases hpos : strnlen buffer PATH_MAX > 0
      · have hne := (strnlen_pos buffer PATH_MAX).mp hpos
        have hres : FreeBSD.resolved PATH_MAX p
            = some { pid := p.ki_pid, path := cstring (buffer.take PATH_MAX) } := by
          simp only [FreeBSD.resolved, hp, hne, if_false]
        simp only [hpos, if_true]
        rw [ih, take_strnlen, List.filterMap_cons_some hres]
        simp only [List.reverse_cons, List.append_assoc, List.singleton_append,
          List.length_cons]
        push_cast
        rw [add_assoc, add_comm 1]
      · have hnil : cstring (buffer.take PATH_MAX) = [] := by
          by_contra hne
          exact hpos ((strnlen_pos buffer PATH_MAX).mpr hne)
        have hres : FreeBSD.resolved PATH_MAX p = none := by
          simp only [FreeBSD.resolved, hp, hnil, if_true]
        simp only [hpos, if_false]
        rw [ih, List.filterMap_cons_none hres]

/-- C14: on FreeBSD, once the table is read, `system_processes` returns `OS_OK`, and the
returned list holds exactly the processes whose path query succeeded with a non-empty
path (`FreeBSD.resolved`), each with its pid and that path, in reverse table order;
entries whose query failed or gave an empty path are skipped; the returned count is the
number of records in the list. -/
theorem freebsd_system_processes_lists (k : FreeBSD.ProcTable)
    (lproc : List FreeBSD.kinfo_proc)
    (h1 : k.size_probe_ok = true) (h2 : k.malloc_ok = true) (h3 : k.lproc = some lproc) :
    FreeBSD.system_processes k =
      { status := Status.OS_OK
        system_processes := some (lproc.filterMap (FreeBSD.resolved k.PATH_MAX)).reverse
        no_of_sys_processes :=
          some (((lproc.filterMap (FreeBSD.resolved k.PATH_MAX)).reverse.length : Nat) : Int) } ∧
    (∀ r : SystemProcess, r ∈ (lproc.filterMap (FreeBSD.resolved k.PATH_MAX)).reverse ↔
      ∃ p buffer, p ∈ lproc ∧ p.pathname = some buffer ∧
        cstring (buffer.take k.PATH_MAX) ≠ [] ∧
        r = { pid := p.ki_pid, path := cstring (buffer.take k.PATH_MAX) }) := by
  constructor
  · unfold FreeBSD.system_processes
    simp only [h1, h2, h3, freebsd_loop_eq]
    simp
  · intro r
    simp only [List.mem_reverse, List.mem_filterMap]
    constructor
    · rintro ⟨p, hp, hr⟩
      unfold FreeBSD.resolved at hr
      cases hb : p.pathname with
      | none =>
        rw [hb] at hr
        cases hr
      | some buffer =>
        simp only [hb] at hr
        by_cases hnil : cstring (buffer.take k.PATH_MAX) = []
        · rw [if_pos hnil] at hr
          cases hr
        · rw [if_neg hnil] at hr
          exact ⟨p, buffer, hp, hb, hnil, (Option.some.inj hr).symm⟩
    · rintro ⟨p, buffer, hp, hb, hne, hr⟩
      refine ⟨p, hp, ?_⟩
      unfold FreeBSD.resolved
      simp only [hb, hne, if_false, hr]

/-- Witness of `freebsd_system_processes_lists`: the path `/a`, a failed query, an empty
path, and the path `/bin`. -/
theorem freebsd_system_processes_lists_witness :
    FreeBSD.system_processes
      { PATH_MAX := 1024, size_probe_ok := true, malloc_ok := true
        lproc := some [⟨1, some [47, 97, 0, 9]⟩, ⟨2, none⟩, ⟨3, some [0, 47]⟩,
                       ⟨4, some [47, 98, 105, 110, 0]⟩] } =
      { status := Status.OS_OK
        system_processes := some [⟨4, [47, 98, 105, 110]⟩, ⟨1, [47, 97]⟩]
        no_of_sys_processes := some 2 } := by
  have h := (freebsd_system_processes_lists
    { PATH_MAX := 1024, size_probe_ok := true, malloc_ok := true
      lproc := some [⟨1, some [47, 97, 0, 9]⟩, ⟨2, none⟩, ⟨3, some [0, 47]⟩,
                     ⟨4, some [47, 98, 105, 110, 0]⟩] }
    _ rfl rfl rfl).1
  rw [h]
  decide

/-- The release loop deletes every record of the chain. -/
theorem delete_chain_eq (l : List SystemProcess) : OpenBSD.delete_chain l = l := by
  induction l with
  | nil => rfl
  | cons a l ih => simp [OpenBSD.delete_chain, ih]

/-- At a fatal entry the loop on OpenBSD breaks with `ret = OS_ERR`. -/
theorem openbsd_loop_fatal (p : OpenBSD.kinfo_proc) (rest : List OpenBSD.kinfo_proc)
    (st : OpenBSD.LoopState) (hf : OpenBSD.fatal p = true) :
    OpenBSD.system_processes_loop (p :: rest) st = { st with ret := Status.OS_ERR } := by
  unfold OpenBSD.fatal at hf
  unfold OpenBSD.system_processes_loop
  cases h1 : p.args_size with
  | none => rfl
  | some n =>
    simp only [h1] at hf ⊢
    cases h2 : p.malloc_ok with
    | false => simp
    | true =>
      simp only [h2] at hf ⊢
      cases h3 : p.args with
      | none => simp
      | some a => simp [h3] at hf

/-- At an entry that is not fatal the loop on OpenBSD goes on, with the record of the
entry, if it has one, pushed onto `next`. -/
theorem openbsd_loop_step (p : OpenBSD.kinfo_proc) (rest : List OpenBSD.kinfo_proc)
    (st : OpenBSD.LoopState) (hf : OpenBSD.fatal p = false) :
    OpenBSD.system_processes_loop (p :: rest) st =
      OpenBSD.system_processes_loop rest
        (match OpenBSD.resolved p with
         | none => st
         | some current =>
           { st with next := current :: st.next, process_count := st.process_count + 1
                     allocated := st.allocated ++ [current] }) := by
  unfold OpenBSD.fatal at hf
  rw [OpenBSD.system_processes_loop]
  cases h1 : p.args_size with
  | none => simp [h1] at hf
  | some n =>
    simp only [h1] at hf ⊢
    cases h2 : p.malloc_ok with
    | false => simp [h2] at hf
    | true =>
      simp only [h2] at hf ⊢
      cases h3 : p.args with
      | none => simp [h3] at hf
      | some a =>
        obtain ⟨length, argv0⟩ := a
        cases argv0 with
        | none => simp [OpenBSD.resolved, h3]
        | some s =>
          by_cases hpos : strnlen s length > 0
          · have hne := (strnlen_pos s length).mp hpos
            simp [OpenBSD.resolved, h3, hpos, hne, take_strnlen]
          · have hnil : cstring (s.take length) = [] := by
              by_contra hne
              exact hpos ((strnlen_pos s length).mpr hne)
            simp [OpenBSD.resolved, h3, hpos, hnil]

/-- Over entries that are not fatal the loop on OpenBSD pushes the resolved records, in
table order, onto `next`, counts them and logs them. -/
theorem openbsd_loop_append (pre rest : List OpenBSD.kinfo_proc) (st : OpenBSD.LoopState)
    (hpre : ∀ q ∈ pre, OpenBSD.fatal q = false) :
    OpenBSD.system_processes_loop (pre ++ rest) st =
      OpenBSD.system_processes_loop rest
        { ret := st.ret
          next := (pre.filterMap OpenBSD.resolved).reverse ++ st.next
          process_count := st.process_count + ((pre.filterMap OpenBSD.resolved).length : Int)
          allocated := st.allocated ++ pre.filterMap OpenBSD.resolved } := by
  induction pre generalizing st with
  | nil => simp
  | cons p pre ih =>
    have hp : OpenBSD.fatal p = false := hpre p (List.mem_cons_self _ _)
    have hrest : ∀ q ∈ pre, OpenBSD.fatal q = false :=
      fun q hq => hpre q (List.mem_cons_of_mem _ hq)
    rw [List.cons_append, openbsd_loop_step p (pre ++ rest) st hp, ih _ hrest]
    cases hr : OpenBSD.resolved p with
    | none => simp [List.filterMap_cons_none hr]
    | some current =>
      simp only [List.filterMap_cons_some hr, List.reverse_cons, List.append_assoc,
        List.singleton_append, List.length_cons]
      push_cast
      congr 2
      ring

/-- The call on OpenBSD when the table is read and a fatal entry follows entries that are
not fatal. -/
theorem openbsd_system_processes_fatal (k : OpenBSD.ProcTable)
    (pre post : List OpenBSD.kinfo_proc) (p : OpenBSD.kinfo_proc)
    (h1 : k.size_probe_ok = true) (h2 : k.malloc_ok = true)
    (h3 : k.lproc = some (pre ++ p :: post))
    (hpre : ∀ q ∈ pre, OpenBSD.fatal q = false) (hp : OpenBSD.fatal p = true) :
    OpenBSD.system_processes k =
      { out := { status := Status.OS_ERR, system_processes := none,
                 no_of_sys_processes := none }
        allocated := pre.filterMap OpenBSD.resolved
        deleted := (pre.filterMap OpenBSD.resolved).reverse } := by
  unfold OpenBSD.system_processes
  simp only [h1, h2, h3, openbsd_loop_append pre (p :: post) _ hpre,
    openbsd_loop_fatal p post _ hp, delete_chain_eq]
  simp

/-- The call on OpenBSD when the table is read and no entry is fatal. -/
theorem openbsd_system_processes_ok (k : OpenBSD.ProcTable)
    (lproc : List OpenBSD.kinfo_proc)
    (h1 : k.size_probe_ok = true) (h2 : k.malloc_ok = true) (h3 : k.lproc = some lproc)
    (hall : ∀ q ∈ lproc, OpenBSD.fatal q = false) :
    OpenBSD.system_processes k =
      { out := { status := Status.OS_OK
                 system_processes := some (lproc.filterMap OpenBSD.resolved).reverse
                 no_of_sys_processes :=
                   some (((lproc.filterMap OpenBSD.resolved).length : Nat) : Int) }
        allocated := lproc.filterMap OpenBSD.resolved
        deleted := [] } := by
  have happ := openbsd_loop_append lproc []
    { ret := Status.OS_OK, next := [], process_count := 0, allocated := [] } hall
  rw [List.append_nil] at happ
  unfold OpenBSD.system_processes
  simp only [h1, h2, h3, happ, OpenBSD.system_processes_loop]
  simp

/-- A table with a fatal entry splits at its first fatal entry. -/
theorem first_fatal (lproc : List OpenBSD.kinfo_proc)
    (h : ∃ q ∈ lproc, OpenBSD.fatal q = true) :
    ∃ pre p post, lproc = pre ++ p :: post ∧ (∀ q ∈ pre, OpenBSD.fatal q = false) ∧
      OpenBSD.fatal p = true := by
  induction lproc with
  | nil =>
    obtain ⟨q, hq, _⟩ := h
    cases hq
  | cons a l ih =>
    by_cases ha : OpenBSD.fatal a = true
    · exact ⟨[], a, l, rfl, by simp, ha⟩
    · obtain ⟨q, hq, hfq⟩ := h
      have hql : q ∈ l := by
        rcases List.mem_cons.mp hq with h | h
        · rw [h] at hfq
          exact absurd hfq ha
        · exact h
      obtain ⟨pre, p, post, hl, hpre, hp⟩ := ih ⟨q, hql, hfq⟩
      refine ⟨a :: pre, p, post, by rw [hl]; rfl, ?_, hp⟩
      intro x hx
      rcases List.mem_cons.mp hx with h | h
      · rw [h]
        simpa using ha
      · exact hpre x h

/-- C15 fails as stated: on OpenBSD, with the table `/a`, an entry whose argument size
query fails, `/b`, the call returns `OS_ERR` and writes no list; the record built for `/a`
is deleted. -/
theorem openbsd_query_failure_is_fatal :
    OpenBSD.system_processes
      { size_probe_ok := true, malloc_ok := true
        lproc := some [⟨1, some 8, true, some (8, some [47, 97, 0])⟩,
                       ⟨2, none, true, none⟩,
                       ⟨3, some 8, true, some (8, some [47, 98, 0])⟩] } =
      { out := { status := Status.OS_ERR, system_processes := none,
                 no_of_sys_processes := none }
        allocated := [⟨1, [47, 97]⟩]
        deleted := [⟨1, [47, 97]⟩] } := by
  decide

/-- C15, as the code has it: on OpenBSD, once the table is read, an entry whose `argv[0]`
is `NULL` or an empty string is silently skipped: when no per-process query or allocation
fails, the call returns `OS_OK` and lists the remaining processes, in reverse table order,
with their count. A per-process argument query that fails is not skipped: the call then
returns `OS_ERR` and writes neither the list nor the count. -/
theorem openbsd_system_processes_skips (k : OpenBSD.ProcTable)
    (lproc : List OpenBSD.kinfo_proc)
    (h1 : k.size_probe_ok = true) (h2 : k.malloc_ok = true) (h3 : k.lproc = some lproc) :
    (∀ q : OpenBSD.kinfo_proc, OpenBSD.fatal q = false →
      (∀ length, q.args = some (length, none) → OpenBSD.resolved q = none) ∧
      (∀ length s, q.args = some (length, some s) → cstring (s.take length) = [] →
        OpenBSD.resolved q = none) ∧
      (∀ length s, q.args = some (length, some s) → cstring (s.take length) ≠ [] →
        OpenBSD.resolved q = some { pid := q.p_pid, path := cstring (s.take length) })) ∧
    ((∀ q ∈ lproc, OpenBSD.fatal q = false) →
      (OpenBSD.system_processes k).out =
        { status := Status.OS_OK
          system_processes := some (lproc.filterMap OpenBSD.resolved).reverse
          no_of_sys_processes :=
            some (((lproc.filterMap OpenBSD.resolved).length : Nat) : Int) }) ∧
    ((∃ q ∈ lproc, q.args_size = none ∨ (q.args_size ≠ none ∧ q.malloc_ok = true ∧
        q.args = none)) →
      (OpenBSD.system_processes k).out =
        { status := Status.OS_ERR, system_processes := none, no_of_sys_processes := none }) := by
  refine ⟨?_, ?_, ?_⟩
  · intro q _
    refine ⟨?_, ?_, ?_⟩
    · intro length h
      simp [OpenBSD.resolved, h]
    · intro length s h hnil
      simp [OpenBSD.resolved, h, hnil]
    · intro length s h hne
      simp [OpenBSD.resolved, h, hne]
  · intro hall
    rw [openbsd_system_processes_ok k lproc h1 h2 h3 hall]
  · rintro ⟨q, hq, hfail⟩
    have hfq : OpenBSD.fatal q = true := by
      unfold OpenBSD.fatal
      rcases hfail with h | ⟨ha, hm, h⟩
      · simp [h]
      · cases hs : q.args_size with
        | none => exact absurd hs ha
        | some n => simp [hm, h]
    obtain ⟨pre, p, post, hl, hpre, hp⟩ := first_fatal lproc ⟨q, hq, hfq⟩
    rw [openbsd_system_processes_fatal k pre post p h1 h2 (by rw [h3, hl]) hpre hp]

/-- Witness of `openbsd_system_processes_skips`: the path `/a`, an entry whose `argv[0]` is
`NULL`, an entry whose `argv[0]` is empty, and the path `/b`. -/
theorem openbsd_system_processes_skips_witness :
    (OpenBSD.system_processes
      { size_probe_ok := true, malloc_ok := true
        lproc := some [⟨1, some 8, true, some (8, some [47, 97, 0])⟩,
                       ⟨2, some 8, true, some (8, none)⟩,
                       ⟨3, some 8, true, some (8, some [0])⟩,
                       ⟨4, some 8, true, some (8, some [47, 98, 0])⟩] }).out =
      { status := Status.OS_OK
        system_processes := some [⟨4, [47, 98]⟩, ⟨1, [47, 97]⟩]
        no_of_sys_processes := some 2 } := by
  have h := (openbsd_system_processes_skips
    { size_probe_ok := true, malloc_ok := true
      lproc := some [⟨1, some 8, true, some (8, some [47, 97, 0])⟩,
                     ⟨2, some 8, true, some (8, none)⟩,
                     ⟨3, some 8, true, some (8, some [0])⟩,
                     ⟨4, some 8, true, some (8, some [47, 98, 0])⟩] }
    _ rfl rfl rfl).2.1 (by decide)
  rw [h]
  decide

/-- C17: on OpenBSD, if a fatal query or allocation failure occurs at an entry, after the
entries before it have built `N ≥ 0` records, the call returns `OS_ERR`, every one of the
`N` records that it has allocated is deleted (the whole chain), and neither
`*system_processes` nor `*no_of_sys_processes` is written. -/
theorem openbsd_failure_releases_all (k : OpenBSD.ProcTable)
    (pre post : List OpenBSD.kinfo_proc) (p : OpenBSD.kinfo_proc)
    (h1 : k.size_probe_ok = true) (h2 : k.malloc_ok = true)
    (h3 : k.lproc = some (pre ++ p :: post))
    (hpre : ∀ q ∈ pre, OpenBSD.fatal q = false) (hp : OpenBSD.fatal p = true) :
    (OpenBSD.system_processes k).out.status = Status.OS_ERR ∧
    (OpenBSD.system_processes k).out.system_processes = none ∧
    (OpenBSD.system_processes k).out.no_of_sys_processes = none ∧
    (OpenBSD.system_processes k).allocated = pre.filterMap OpenBSD.resolved ∧
    (OpenBSD.system_processes k).deleted = (OpenBSD.system_processes k).allocated.reverse ∧
    (OpenBSD.system_processes k).deleted.length = (pre.filterMap OpenBSD.resolved).length ∧
    (∀ r, r ∈ (OpenBSD.system_processes k).allocated ↔
      r ∈ (OpenBSD.system_processes k).deleted) ∧
    (OpenBSD.system_processes k).deleted.Perm (OpenBSD.system_processes k).allocated := by
  rw [openbsd_system_processes_fatal k pre post p h1 h2 h3 hpre hp]
  refine ⟨rfl, rfl, rfl, rfl, rfl, by simp, ?_, ?_⟩
  · intro r
    simp
  · exact List.reverse_perm _

/-- Witness of `openbsd_failure_releases_all`: two records are built, for `/a` and `/b`,
then `malloc` fails at the third entry; both records are deleted. -/
theorem openbsd_failure_releases_all_witness :
    OpenBSD.system_processes
      { size_probe_ok := true, malloc_ok := true
        lproc := some [⟨1, some 8, true, some (8, some [47, 97, 0])⟩,
                       ⟨2, some 8, true, some (8, some [47, 98, 0])⟩,
                       ⟨3, some 8, false, none⟩,
                       ⟨4, some 8, true, some (8, some [47, 99, 0])⟩] } =
      { out := { status := Status.OS_ERR, system_processes := none,
                 no_of_sys_processes := none }
        allocated := [⟨1, [47, 97]⟩, ⟨2, [47, 98]⟩]
        deleted := [⟨2, [47, 98]⟩, ⟨1, [47, 97]⟩] } ∧
    (OpenBSD.system_processes
      { size_probe_ok := true, malloc_ok := true
        lproc := some [⟨1, some 8, true, some (8, some [47, 97, 0])⟩,
                       ⟨2, some 8, true, some (8, some [47, 98, 0])⟩,
                       ⟨3, some 8, false, none⟩,
                       ⟨4, some 8, true, some (8, some [47, 99, 0])⟩] }).deleted.length = 2 := by
  have h := openbsd_failure_releases_all
    { size_probe_ok := true, malloc_ok := true
      lproc := some [⟨1, some 8, true, some (8, some [47, 97, 0])⟩,
                     ⟨2, some 8, true, some (8, some [47, 98, 0])⟩,
                     ⟨3, some 8, false, none⟩,
                     ⟨4, some 8, true, some (8, some [47, 99, 0])⟩] }
    [⟨1, some 8, true, some (8, some [47, 97, 0])⟩,
     ⟨2, some 8, true, some (8, some [47, 98, 0])⟩]
    [⟨4, some 8, true, some (8, some [47, 99, 0])⟩]
    ⟨3, some 8, false, none⟩ rfl rfl rfl (by decide) (by decide)
  exact ⟨by decide, h.2.2.2.2.2.1⟩

/-! ## The listing loop of the Apple `system_processes` -/

/-- One round of the listing loop, by cases on what `proc_listpids` answers. -/
theorem list_pids_round (rounds : Nat → Apple.ListRound) (try_count : Nat) :
    Apple.list_pids rounds try_count =
      if u64 (rounds try_count).probe = 0 then
        { status := Status.OS_ERR, pids := [], rounds := try_count + 1 }
      else if u64 (rounds try_count).read = 0 then
        if 3 ≤ try_count then
          { status := Status.OS_ERR, pids := [], rounds := try_count + 1 }
        else Apple.list_pids rounds (try_count + 1)
      else
        { status := Status.OS_OK
          pids := (rounds try_count).pids.take
            (u64 (rounds try_count).read / Apple.sizeof_pid_t)
          rounds := try_count + 1 } := by
  rw [Apple.list_pids]
  simp only [Nat.le_zero_eq]
  by_cases h1 : u64 (rounds try_count).probe = 0
  · simp [h1]
  · by_cases h2 : u64 (rounds try_count).read = 0
    · by_cases h3 : 3 ≤ try_count
      · have : try_count + 1 > 3 := by omega
        simp [h1, h2, h3, this]
      · have : ¬ try_count + 1 > 3 := by omega
        simp [h1, h2, h3, this]
    · simp [h1, h2]

/-- The listing loop, entered with `try_count ≤ 3`, ends within round 4. -/
theorem list_pids_rounds_le (rounds : Nat → Apple.ListRound) (d try_count : Nat)
    (h : try_count + d = 3) :
    try_count < (Apple.list_pids rounds try_count).rounds ∧
    (Apple.list_pids rounds try_count).rounds ≤ 4 := by
  induction d generalizing try_count with
  | zero =>
    rw [list_pids_round]
    have h3 : 3 ≤ try_count := by omega
    split_ifs <;> (try simp only []) <;> omega
  | succ d ih =>
    rw [list_pids_round]
    have h3 : ¬ 3 ≤ try_count := by omega
    have := ih (try_count + 1) (by omega)
    split_ifs <;> (try simp only []) <;> omega

/-- The listing loop, entered with `try_count ≤ 3`, returns `OS_ERR` in round 4 when every
read from there on fails. -/
theorem list_pids_all_fail (rounds : Nat → Apple.ListRound) (d try_count : Nat)
    (h : try_count + d = 3)
    (hfail : ∀ i, try_count ≤ i → i < 4 →
      u64 (rounds i).probe ≠ 0 ∧ u64 (rounds i).read = 0) :
    Apple.list_pids rounds try_count = { status := Status.OS_ERR, pids := [], rounds := 4 } := by
  induction d generalizing try_count with
  | zero =>
    have ht : try_count = 3 := by omega
    subst ht
    rw [list_pids_round]
    simp [(hfail 3 (by omega) (by omega)).1, (hfail 3 (by omega) (by omega)).2]
  | succ d ih =>
    rw [list_pids_round]
    have h3 : ¬ 3 ≤ try_count := by omega
    have hi := hfail try_count (by omega) (by omega)
    simp only [hi.1, hi.2, h3, if_false, if_true]
    exact ih (try_count + 1) (by omega) (fun i h1 h2 => hfail i (by omega) h2)

/-- C16: in the Apple `system_processes`, for every sequence of answers of the size probe
and of the pid-list read, the listing loop ends (the function `Apple.list_pids` is total)
after at least one and at most 4 probe-and-read rounds, and when the read has failed in 4
rounds the loop, and with it the call, returns `OS_ERR` in round 4. -/
theorem apple_list_pids_bounded (rounds : Nat → Apple.ListRound) :
    1 ≤ (Apple.list_pids rounds 0).rounds ∧
    (Apple.list_pids rounds 0).rounds ≤ 4 ∧
    ((∀ i, i < 4 → u64 (rounds i).probe ≠ 0 ∧ u64 (rounds i).read = 0) →
      Apple.list_pids rounds 0 = { status := Status.OS_ERR, pids := [], rounds := 4 } ∧
      ∀ pidpath, Apple.system_processes rounds pidpath =
        { status := Status.OS_ERR, system_processes := none, no_of_sys_processes := none }) := by
  have hb := list_pids_rounds_le rounds 3 0 rfl
  refine ⟨by omega, hb.2, ?_⟩
  intro hfail
  have hl := list_pids_all_fail rounds 3 0 rfl (fun i _ h2 => hfail i h2)
  refine ⟨hl, ?_⟩
  intro pidpath
  unfold Apple.system_processes
  simp [hl]

/-- Witness of `apple_list_pids_bounded`: a process table that never fits: every probe
answers 8 bytes and every read answers 0. -/
theorem apple_list_pids_bounded_witness :
    Apple.list_pids (fun _ => { probe := 8, read := 0, pids := [] }) 0
      = { status := Status.OS_ERR, pids := [], rounds := 4 } :=
  ((apple_list_pids_bounded (fun _ => { probe := 8, read := 0, pids := [] })).2.2
    (fun _ _ => by decide)).1

/-! ## `network_utilization` -/

/-- A C string is cut at the first NUL. -/
theorem cstring_append_zero (l tail : List Nat) (hl : ∀ b ∈ l, b ≠ 0) :
    cstring (l ++ 0 :: tail) = l := by
  unfold cstring
  induction l with
  | nil => simp
  | cons a l ih =>
    have ha : a ≠ 0 := hl a (List.mem_cons_self _ _)
    have hrest : ∀ b ∈ l, b ≠ 0 := fun b hb => hl b (List.mem_cons_of_mem _ hb)
    have hdec : decide (a ≠ 0) = true := by simpa using ha
    rw [List.cons_append, List.takeWhile_cons]
    simp only [hdec]
    rw [ih hrest]
    simp

/-- A C string holds no NUL. -/
theorem cstring_ne_zero (s : List Nat) : ∀ b ∈ cstring s, b ≠ 0 := by
  intro b hb
  unfold cstring at hb
  have := List.mem_takeWhile_imp hb
  simpa using this

/-- The length of a C string cut at `n` bytes is at most `n`. -/
theorem cstring_take_length_le (s : List Nat) (n : Nat) : (cstring (s.take n)).length ≤ n := by
  unfold cstring
  refine le_trans (List.takeWhile_prefix _).length_le ?_
  simp

/-- The name that the constructor reads from `name_buf`. -/
theorem cstring_name_buf (m : if_msghdr) :
    cstring (name_buf m) = cstring (m.sdl_data.take (min 127 m.sdl_nlen)) := by
  unfold name_buf strncpy
  simp only [Nat.add_one_sub_one, List.append_assoc]
  have hz : List.replicate (min 127 m.sdl_nlen -
      (cstring (List.take (min 127 m.sdl_nlen) m.sdl_data)).length) 0 ++ [0]
      = 0 :: List.replicate (min 127 m.sdl_nlen -
      (cstring (List.take (min 127 m.sdl_nlen) m.sdl_data)).length) 0 := by
    rw [← List.replicate_succ', List.replicate_succ]
  rw [hz]
  exact cstring_append_zero _ _ (cstring_ne_zero _)

/-- The byte `name_buf[name_len]` is NUL. -/
theorem name_buf_terminated (m : if_msghdr) :
    (name_buf m)[min 127 m.sdl_nlen]? = some 0 := by
  unfold name_buf strncpy
  simp only [Nat.add_one_sub_one]
  have hlen : (cstring (List.take (min 127 m.sdl_nlen) m.sdl_data) ++
      List.replicate (min 127 m.sdl_nlen -
        (cstring (List.take (min 127 m.sdl_nlen) m.sdl_data)).length) 0).length
      = min 127 m.sdl_nlen := by
    have := cstring_take_length_le m.sdl_data (min 127 m.sdl_nlen)
    simp only [List.length_append, List.length_replicate]
    omega
  rw [List.getElem?_append_right (by omega), hlen]
  simp

/-- The loop over messages that tile the buffer pushes one record per interface-info
message, in message order, onto `ret`, and ends. -/
theorem network_loop_eq (RTM_IFINFO2 : Nat) (buf : Nat → if_msghdr)
    (msgs : List if_msghdr) (fuel index : Nat) (ret : List NetworkInterface)
    (ht : tiles buf index msgs) (hf : msgs.length < fuel) :
    network_utilization_loop RTM_IFINFO2 buf (index + total_msglen msgs) fuel index ret =
      some ((msgs.filterMap (interface_record RTM_IFINFO2)).reverse ++ ret) := by
  induction msgs generalizing fuel index ret with
  | nil =>
    obtain ⟨fuel, rfl⟩ : ∃ f, fuel = f + 1 := ⟨fuel - 1, by simp at hf; omega⟩
    simp [network_utilization_loop, total_msglen]
  | cons m rest ih =>
    obtain ⟨fuel, rfl⟩ : ∃ f, fuel = f + 1 := ⟨fuel - 1, by simp at hf; omega⟩
    obtain ⟨hm, hpos, hrest⟩ := ht
    have hf2 : rest.length < fuel := by
      simp only [List.length_cons] at hf
      omega
    have hlen : index + total_msglen (m :: rest)
        = (index + m.ifm_msglen) + total_msglen rest := by
      simp only [total_msglen, List.map_cons, List.sum_cons]
      omega
    have hlt : index < index + m.ifm_msglen + total_msglen rest := by omega
    rw [hlen]
    unfold network_utilization_loop
    simp only [hlt, if_true, hm]
    by_cases hty : m.ifm_type = RTM_IFINFO2
    · have hrec : interface_record RTM_IFINFO2 m
          = some { name := cstring (m.sdl_data.take (min 127 m.sdl_nlen))
                   bytes_in := m.ifi_ibytes, bytes_out := m.ifi_obytes } := by
        simp only [interface_record, hty, if_true]
      simp only [hty, ne_eq, not_true_eq_false, if_false, new_NetworkInterface]
      rw [ih fuel (index + m.ifm_msglen) _ hrest hf2, List.filterMap_cons_some hrec,
        cstring_name_buf]
      simp
    · have hrec : interface_record RTM_IFINFO2 m = none := by
        simp only [interface_record, hty, if_false]
      simp only [ne_eq, hty, not_false_eq_true, if_true]
      rw [ih fuel (index + m.ifm_msglen) _ hrest hf2, List.filterMap_cons_none hrec]

/-- C18: for every routing dump made of messages with positive lengths that tile the
buffer, `network_utilization` ends (with any fuel above the number of messages) and
returns `OS_OK` with exactly one record per message of the interface-info type and none
for other types, in reverse message order; the name of a record is the first
`min(127, sdl_nlen)` bytes of the link-level name, cut at an earlier NUL, hence at most
127 bytes, and `name_buf` is terminated by a NUL at `name_len`; `bytes_in` and `bytes_out`
are the cumulative input and output byte counters of the message. -/
theorem network_utilization_lists (k : RouteDump) (msgs : List if_msghdr) (fuel : Nat)
    (hp : k.probe_ok = true) (hl : k.len = some (total_msglen msgs))
    (ht : tiles k.buf 0 msgs) (hf : msgs.length < fuel) :
    network_utilization fuel k = some
      { status := Status.OS_OK
        network_interfaces := some (msgs.filterMap (interface_record k.RTM_IFINFO2)).reverse } ∧
    (∀ r, r ∈ (msgs.filterMap (interface_record k.RTM_IFINFO2)).reverse ↔
      ∃ m ∈ msgs, m.ifm_type = k.RTM_IFINFO2 ∧
        r = { name := cstring (m.sdl_data.take (min 127 m.sdl_nlen))
              bytes_in := m.ifi_ibytes, bytes_out := m.ifi_obytes }) ∧
    (∀ r ∈ (msgs.filterMap (interface_record k.RTM_IFINFO2)).reverse,
      r.name.length ≤ 127 ∧ ∀ b ∈ r.name, b ≠ 0) ∧
    (∀ m ∈ msgs, (name_buf m)[min 127 m.sdl_nlen]? = some 0 ∧
      cstring (name_buf m) = cstring (m.sdl_data.take (min 127 m.sdl_nlen))) := by
  have hmem : ∀ r, r ∈ (msgs.filterMap (interface_record k.RTM_IFINFO2)).reverse ↔
      ∃ m ∈ msgs, m.ifm_type = k.RTM_IFINFO2 ∧
        r = { name := cstring (m.sdl_data.take (min 127 m.sdl_nlen))
              bytes_in := m.ifi_ibytes, bytes_out := m.ifi_obytes } := by
    intro r
    simp only [List.mem_reverse, List.mem_filterMap, interface_record]
    constructor
    · rintro ⟨m, hm, hr⟩
      by_cases hty : m.ifm_type = k.RTM_IFINFO2
      · rw [if_pos hty] at hr
        exact ⟨m, hm, hty, (Option.some.inj hr).symm⟩
      · rw [if_neg hty] at hr
        cases hr
    · rintro ⟨m, hm, hty, hr⟩
      exact ⟨m, hm, by rw [if_pos hty, hr]⟩
  refine ⟨?_, hmem, ?_, ?_⟩
  · have hloop := network_loop_eq k.RTM_IFINFO2 k.buf msgs fuel 0 [] ht hf
    rw [Nat.zero_add, List.append_nil] at hloop
    unfold network_utilization
    simp only [hp, hl, hloop]
    simp
  · intro r hr
    obtain ⟨m, _, _, hrm⟩ := (hmem r).mp hr
    rw [hrm]
    refine ⟨?_, cstring_ne_zero _⟩
    exact le_trans (cstring_take_length_le _ _) (min_le_left _ _)
  · intro m _
    exact ⟨name_buf_terminated m, cstring_name_buf m⟩

/-- Witness of `network_utilization_lists`: the sample dump gives the records of `lo0` and
`em0`, in that order, and none for the message of another type. -/
theorem network_utilization_lists_witness :
    network_utilization 4 sample_dump = some
      { status := Status.OS_OK
        network_interfaces := some [⟨[108, 111, 48], 5, 6⟩, ⟨[101, 109, 48], 1000, 2000⟩] } := by
  have h := (network_utilization_lists sample_dump
    [{ ifm_msglen := 100, ifm_type := 14, ifi_ibytes := 1000, ifi_obytes := 2000,
       sdl_nlen := 3, sdl_data := [101, 109, 48, 1, 2, 3] },
     { ifm_msglen := 50, ifm_type := 12, ifi_ibytes := 0, ifi_obytes := 0,
       sdl_nlen := 0, sdl_data := [] },
     { ifm_msglen := 150, ifm_type := 14, ifi_ibytes := 5, ifi_obytes := 6,
       sdl_nlen := 8, sdl_data := [108, 111, 48, 0, 7, 7, 7, 7] }]
    4 rfl rfl ⟨rfl, by decide, rfl, by decide, rfl, by decide, trivial⟩ (by decide)).1
  rw [h]
  decide

/-! ## The Apple `cpu_loads_process` -/

/-- The value of `normalize` lies in `[0, 1]`. -/
theorem normalize_range (value : ℚ) :
    0 ≤ Apple.normalize value ∧ Apple.normalize value ≤ 1 := by
  unfold Apple.normalize
  exact ⟨le_min (le_max_right _ _) zero_le_one, min_le_right _ _⟩

/-- When the Apple `cpu_load_total_process` returns `OS_OK` it has assigned the host-wide
tick quotient. -/
theorem apple_cpu_load_total_process_ok (host : Option Apple.host_cpu_load_info)
    (s : Apple.CPUPerformance) (r : Apple.LoadResult)
    (h : Apple.cpu_load_total_process host s = Except.ok r) (hok : r.status = Status.OS_OK) :
    ∃ info, host = some info ∧
      r.cpu_load = some (((Apple.host_used_ticks info - s._used_ticks : Int) : ℚ) /
        ((Apple.host_total_ticks info - s._total_ticks : Int) : ℚ)) := by
  cases host with
  | none =>
    simp [Apple.cpu_load_total_process] at h
    subst h
    simp at hok
  | some info =>
    refine ⟨info, rfl, ?_⟩
    unfold Apple.cpu_load_total_process at h
    simp only [] at h
    by_cases hfirst : s._used_ticks = 0 ∨ s._total_ticks = 0
    · simp only [hfirst, if_true, Except.ok.injEq] at h
      subst h
      simp at hok
    · simp only [hfirst, if_false] at h
      by_cases hz : Apple.host_total_ticks info - s._total_ticks = 0
      · unfold Apple.host_total_ticks Apple.host_used_ticks at hz
        simp only [hz, if_true, Except.ok.injEq] at h
        subst h
        simp at hok
      · have hz1 := hz
        unfold Apple.host_total_ticks Apple.host_used_ticks at hz1
        simp only [hz1, if_false, Apple.ddiv, Except.ok.injEq] at h
        subst h
        rfl

/-- The sample call of the Apple `cpu_loads_process`: the host has been idle for 10 ticks
while the process has used 500 ns of user and 500 ns of system time in 1000 ns. -/
theorem apple_cpu_loads_process_sample_eval :
    Apple.cpu_loads_process
      { host := some ⟨100, 0, 0, 110⟩, task := some (500, 500), active_processor_count := 1,
        now := some 2000 } Apple.sample_state
    = Except.ok { status := Status.OS_OK
                  jvmUserLoad := some (1 / 2)
                  jvmKernelLoad := some (1 / 2)
                  systemTotalLoad := some 0
                  state := { _total_cpu_nanos := 2000
                             _total_csr_nanos := 0
                             _jvm_user_nanos := 500
                             _jvm_system_nanos := 500
                             _jvm_context_switches := 0
                             _used_ticks := 100
                             _total_ticks := 210
                             _active_processor_count := 1 } } := by
  simp [Apple.cpu_loads_process, Apple.cpu_load_total_process, Apple.ddiv, Apple.U32_MOD,
    Apple.sample_state, Apple.normalize]
  norm_num

/-- C19 fails as stated: under `__APPLE__`, when the host has been idle while the process
has used half of the elapsed time in user mode and half in system mode,
`cpu_loads_process` returns `OS_OK` with `user = kernel = 1/2` and `systemTotal = 0`. -/
theorem apple_cpu_loads_process_sum_exceeds :
    ∃ r u kl t, Apple.cpu_loads_process
        { host := some ⟨100, 0, 0, 110⟩, task := some (500, 500), active_processor_count := 1,
          now := some 2000 } Apple.sample_state = Except.ok r ∧
      r.status = Status.OS_OK ∧
      r.jvmUserLoad = some u ∧ r.jvmKernelLoad = some kl ∧ r.systemTotalLoad = some t ∧
      ¬ (u + kl ≤ t) := by
  refine ⟨_, 1 / 2, 1 / 2, 0, apple_cpu_loads_process_sample_eval, rfl, rfl, rfl, rfl, ?_⟩
  norm_num

/-- C19, as the code has it: under `__APPLE__`, whenever `cpu_loads_process` returns
`OS_OK`, all three outputs are assigned; `user` and `kernel` are the process-time deltas
over `active_processor_count` times the elapsed nanoseconds, each clamped to `[0, 1]` by
`normalize`, so `user + kernel ≤ 2`; `systemTotal` is the host-wide tick quotient that
`cpu_load_total_process` assigns. The two come from different counters and the code has
no step that relates `user + kernel` to `systemTotal`. -/
theorem apple_cpu_loads_process_ok (k : Apple.LoadsInput) (s : Apple.CPUPerformance)
    (r : Apple.LoadsResult)
    (h : Apple.cpu_loads_process k s = Except.ok r) (hok : r.status = Status.OS_OK) :
    ∃ info total_user total_system total_cpu_nanos u kl,
      k.host = some info ∧ k.task = some (total_user, total_system) ∧
      k.now = some total_cpu_nanos ∧
      k.active_processor_count * (total_cpu_nanos - s._total_cpu_nanos) ≠ 0 ∧
      r.jvmUserLoad = some u ∧ r.jvmKernelLoad = some kl ∧
      u = Apple.normalize (((total_user - s._jvm_user_nanos : Int) : ℚ) /
        ((k.active_processor_count * (total_cpu_nanos - s._total_cpu_nanos) : Int) : ℚ)) ∧
      kl = Apple.normalize (((total_system - s._jvm_system_nanos : Int) : ℚ) /
        ((k.active_processor_count * (total_cpu_nanos - s._total_cpu_nanos) : Int) : ℚ)) ∧
      (0 ≤ u ∧ u ≤ 1) ∧ (0 ≤ kl ∧ kl ≤ 1) ∧ u + kl ≤ 2 ∧
      r.systemTotalLoad = some (((Apple.host_used_ticks info - s._used_ticks : Int) : ℚ) /
        ((Apple.host_total_ticks info - s._total_ticks : Int) : ℚ)) := by
  unfold Apple.cpu_loads_process at h
  cases htot : Apple.cpu_load_total_process k.host s with
  | error f => simp [htot] at h
  | ok total =>
    simp only [htot] at h
    cases htask : k.task with
    | none =>
      simp only [htask, Except.ok.injEq] at h
      subst h
      simp at hok
    | some tu =>
      obtain ⟨total_user, total_system⟩ := tu
      simp only [htask] at h
      cases hnow : k.now with
      | none =>
        simp only [hnow, Except.ok.injEq] at h
        subst h
        simp at hok
      | some total_cpu_nanos =>
        simp only [hnow] at h
        have hstate : total.state._total_cpu_nanos = s._total_cpu_nanos ∧
            total.state._jvm_user_nanos = s._jvm_user_nanos ∧
            total.state._jvm_system_nanos = s._jvm_system_nanos := by
          unfold Apple.cpu_load_total_process at htot
          cases hh : k.host with
          | none =>
            simp only [hh, Except.ok.injEq] at htot
            subst htot
            exact ⟨rfl, rfl, rfl⟩
          | some info =>
            simp only [hh] at htot
            split at htot
            · simp only [Except.ok.injEq] at htot
              subst htot
              exact ⟨rfl, rfl, rfl⟩
            · split at htot
              · simp only [Except.ok.injEq] at htot
                subst htot
                exact ⟨rfl, rfl, rfl⟩
              · split at htot
                · cases htot
                · simp only [Except.ok.injEq] at htot
                  subst htot
                  exact ⟨rfl, rfl, rfl⟩
        rw [hstate.1, hstate.2.1, hstate.2.2] at h
        by_cases hd : k.active_processor_count * (total_cpu_nanos - s._total_cpu_nanos) = 0
        · simp only [hd, if_true, Except.ok.injEq] at h
          subst h
          simp at hok
        · simp only [hd, if_false, Apple.ddiv, Except.ok.injEq] at h
          subst h
          simp only [] at hok
          have htok : total.status = Status.OS_OK := by
            split at hok
            · cases hok
            · exact hok
          obtain ⟨info, hinfo, hq⟩ :=
            apple_cpu_load_total_process_ok k.host s total htot htok
          refine ⟨info, total_user, total_system, total_cpu_nanos, _, _, hinfo, rfl, rfl, hd,
            rfl, rfl, rfl, rfl, normalize_range _, normalize_range _, ?_, hq⟩
          have h1 := (normalize_range (((total_user - s._jvm_user_nanos : Int) : ℚ) /
            ((k.active_processor_count * (total_cpu_nanos - s._total_cpu_nanos) : Int) : ℚ))).2
          have h2 := (normalize_range (((total_system - s._jvm_system_nanos : Int) : ℚ) /
            ((k.active_processor_count * (total_cpu_nanos - s._total_cpu_nanos) : Int) : ℚ))).2
          linarith

/-- Witness of `apple_cpu_loads_process_ok`: the sample call, with `user = kernel = 1/2`. -/
theorem apple_cpu_loads_process_ok_witness :
    ∃ u kl, (0 ≤ u ∧ u ≤ 1) ∧ (0 ≤ kl ∧ kl ≤ 1) ∧ u + kl ≤ 2 ∧
      (some (1 / 2) : Option ℚ) = some u ∧ (some (1 / 2) : Option ℚ) = some kl := by
  obtain ⟨_, _, _, _, u, kl, _, _, _, _, hu, hkl, _, _, h1, h2, h3, _⟩ :=
    apple_cpu_loads_process_ok
      { host := some ⟨100, 0, 0, 110⟩, task := some (500, 500), active_processor_count := 1,
        now := some 2000 } Apple.sample_state _ apple_cpu_loads_process_sample_eval rfl
  exact ⟨u, kl, h1, h2, h3, hu, hkl⟩

/-! ## `os_get_processor_features` -/

/-- The first loop breaks at an entry when the table has an entry with `impl_id = 0`. -/
theorem find_implementer_some (impl_id : Nat) (l : List VM_Version.cpu_implementers)
    (h : ∃ e ∈ l, e.impl_id = 0) :
    ∃ e ∈ l, VM_Version.find_implementer impl_id l = some e := by
  induction l with
  | nil =>
    obtain ⟨e, he, _⟩ := h
    cases he
  | cons a l ih =>
    unfold VM_Version.find_implementer
    by_cases ha : impl_id = a.impl_id ∨ a.impl_id = 0
    · exact ⟨a, List.mem_cons_self _ _, by rw [if_pos ha]⟩
    · rw [if_neg ha]
      obtain ⟨e, he, h0⟩ := h
      have hel : e ∈ l := by
        rcases List.mem_cons.mp he with h1 | h1
        · rw [h1] at h0
          exact absurd (Or.inr h0) ha
        · exact h1
      obtain ⟨e1, he1, hf⟩ := ih ⟨e, hel, h0⟩
      exact ⟨e1, List.mem_cons_of_mem _ he1, hf⟩

/-- The second loop breaks at an entry when the table has an entry with `part_id = 0`. -/
theorem find_part_some (part_id : Nat) (l : List VM_Version.cpu_parts)
    (h : ∃ e ∈ l, e.part_id = 0) :
    ∃ e, VM_Version.find_part part_id l = some e := by
  induction l with
  | nil =>
    obtain ⟨e, he, _⟩ := h
    cases he
  | cons a l ih =>
    unfold VM_Version.find_part
    by_cases ha : part_id = a.part_id ∨ a.part_id = 0
    · exact ⟨a, by rw [if_pos ha]⟩
    · rw [if_neg ha]
      obtain ⟨e, he, h0⟩ := h
      have hel : e ∈ l := by
        rcases List.mem_cons.mp he with h1 | h1
        · rw [h1] at h0
          exact absurd (Or.inr h0) ha
        · exact h1
      exact ih ⟨e, hel, h0⟩

/-- The function `os_get_processor_features` returns, with the word `feature_word`. -/
theorem os_get_processor_features_returns (regs : VM_Version.armreg)
    (midr id_aa64isar0 id_aa64pfr0 : Nat) :
    ∃ r, VM_Version.os_get_processor_features regs midr id_aa64isar0 id_aa64pfr0
        = Except.ok r ∧
      r.auxv = VM_Version.feature_word regs id_aa64isar0 id_aa64pfr0 := by
  obtain ⟨impl, himpl, hfi⟩ := find_implementer_some (VM_Version.CPU_IMPL midr)
    VM_Version.cpu_implementers_table (by decide)
  have hsent : ∀ e ∈ VM_Version.cpu_implementers_table, ∃ q ∈ e.cpu_parts, q.part_id = 0 := by
    decide
  obtain ⟨part, hfp⟩ := find_part_some (VM_Version.CPU_PART midr) impl.cpu_parts
    (hsent impl himpl)
  unfold VM_Version.os_get_processor_features
  simp only [hfi, hfp]
  exact ⟨_, rfl, rfl⟩

/-- The bits 20..23 of a register, in place, are its field shifted back. -/
theorem advsimd_field (x : Nat) :
    VM_Version.ID_AA64PFR0_AdvSIMD x = ((x >>> 20) &&& 0xf) <<< 20 := by
  unfold VM_Version.ID_AA64PFR0_AdvSIMD VM_Version.ID_AA64PFR0_AdvSIMD_SHIFT
  apply Nat.eq_of_testBit_eq
  intro i
  simp only [Nat.testBit_and, Nat.testBit_shiftLeft, Nat.testBit_shiftRight]
  by_cases hi : 20 ≤ i
  · have : 20 + (i - 20) = i := by omega
    simp [hi, this]
  · simp [hi]

/-- The test of `os_get_processor_features` for ASIMD, on the AdvSIMD field. -/
theorem advsimd_test (x : Nat) :
    (VM_Version.ID_AA64PFR0_AdvSIMD x = VM_Version.ID_AA64PFR0_AdvSIMD_IMPL ∨
      VM_Version.ID_AA64PFR0_AdvSIMD x = VM_Version.ID_AA64PFR0_AdvSIMD_HP) ↔
    ((x >>> 20) &&& 0xf = 0 ∨ (x >>> 20) &&& 0xf = 1) := by
  rw [advsimd_field]
  unfold VM_Version.ID_AA64PFR0_AdvSIMD_IMPL VM_Version.ID_AA64PFR0_AdvSIMD_HP
    VM_Version.ID_AA64PFR0_AdvSIMD_SHIFT
  simp only [Nat.shiftLeft_eq]
  constructor
  · rintro (h | h)
    · left
      omega
    · right
      omega
  · rintro (h | h)
    · left
      rw [h]
    · right
      rw [h]

/-- The word `feature_word` is the word of the outcomes of its six tests. -/
theorem feature_word_eq (regs : VM_Version.armreg) (id_aa64isar0 id_aa64pfr0 : Nat) :
    VM_Version.feature_word regs id_aa64isar0 id_aa64pfr0 =
      VM_Version.hwcap_word
        (decide (regs.ID_AA64ISAR0_AES id_aa64isar0 = regs.ID_AA64ISAR0_AES_BASE))
        (decide (regs.ID_AA64ISAR0_AES id_aa64isar0 = regs.ID_AA64ISAR0_AES_PMULL))
        (decide (regs.ID_AA64ISAR0_SHA1 id_aa64isar0 = regs.ID_AA64ISAR0_SHA1_BASE))
        (decide (regs.ID_AA64ISAR0_SHA2 id_aa64isar0 = regs.ID_AA64ISAR0_SHA2_BASE))
        (decide (regs.ID_AA64ISAR0_CRC32 id_aa64isar0 = regs.ID_AA64ISAR0_CRC32_BASE))
        (decide (VM_Version.ID_AA64PFR0_AdvSIMD id_aa64pfr0
            = VM_Version.ID_AA64PFR0_AdvSIMD_IMPL ∨
          VM_Version.ID_AA64PFR0_AdvSIMD id_aa64pfr0 = VM_Version.ID_AA64PFR0_AdvSIMD_HP)) := by
  unfold VM_Version.feature_word VM_Version.hwcap_word
  simp only [decide_eq_true_eq]

/-- The bits of the word of six outcomes: only the six feature bits, never `HWCAP_ATOMICS`,
and each feature bit exactly when its test holds. -/
theorem hwcap_word_bits (aes pmull sha1 sha2 crc32 asimd : Bool) :
    VM_Version.hwcap_word aes pmull sha1 sha2 crc32 asimd &&&
        (VM_Version.HWCAP_ASIMD ||| VM_Version.HWCAP_AES ||| VM_Version.HWCAP_PMULL |||
          VM_Version.HWCAP_SHA1 ||| VM_Version.HWCAP_SHA2 ||| VM_Version.HWCAP_CRC32)
      = VM_Version.hwcap_word aes pmull sha1 sha2 crc32 asimd ∧
    VM_Version.hwcap_word aes pmull sha1 sha2 crc32 asimd &&& VM_Version.HWCAP_ATOMICS = 0 ∧
    (VM_Version.hwcap_word aes pmull sha1 sha2 crc32 asimd &&& VM_Version.HWCAP_AES
      = if aes = true then VM_Version.HWCAP_AES else 0) ∧
    (VM_Version.hwcap_word aes pmull sha1 sha2 crc32 asimd &&& VM_Version.HWCAP_PMULL
      = if pmull = true then VM_Version.HWCAP_PMULL else 0) ∧
    (VM_Version.hwcap_word aes pmull sha1 sha2 crc32 asimd &&& VM_Version.HWCAP_SHA1
      = if sha1 = true then VM_Version.HWCAP_SHA1 else 0) ∧
    (VM_Version.hwcap_word aes pmull sha1 sha2 crc32 asimd &&& VM_Version.HWCAP_SHA2
      = if sha2 = true then VM_Version.HWCAP_SHA2 else 0) ∧
    (VM_Version.hwcap_word aes pmull sha1 sha2 crc32 asimd &&& VM_Version.HWCAP_CRC32
      = if crc32 = true then VM_Version.HWCAP_CRC32 else 0) ∧
    (VM_Version.hwcap_word aes pmull sha1 sha2 crc32 asimd &&& VM_Version.HWCAP_ASIMD
      = if asimd = true then VM_Version.HWCAP_ASIMD else 0) := by
  cases aes <;> cases pmull <;> cases sha1 <;> cases sha2 <;> cases crc32 <;> cases asimd <;>
    decide

/-- A feature bit that is set by a test is set exactly when the test holds. -/
theorem hwcap_bit_iff (c : Prop) [Decidable c] (cap : Nat) (hcap : cap ≠ 0) :
    ((if decide c = true then cap else 0) = cap ↔ c) ∧
    ((if decide c = true then cap else 0) ≠ 0 ↔ c) ∧
    ((if decide c = true then cap else 0) = 0 ↔ ¬ c) := by
  by_cases h : c
  · simp [h, hcap]
  · simp [h, hcap, Ne.symm hcap]

/-- C20: for every value of `ID_AA64ISAR0_EL1` and `ID_AA64PFR0_EL1` (and of `midr_el1`),
`os_get_processor_features` returns, and the word returned has only bits among ASIMD,
AES, PMULL, SHA1, SHA2 and CRC32 set, never ATOMICS; it never has both AES and PMULL set
(the two encodings of the AES field being different): a register whose AES field holds
the PMULL encoding gives `HWCAP_PMULL` without `HWCAP_AES`; AES, SHA1, SHA2 and CRC32
are set exactly when their field holds the `BASE` encoding; and ASIMD is set exactly when
the AdvSIMD field, bits 20..23 of `ID_AA64PFR0_EL1`, is 0 or 1. -/
theorem os_get_processor_features_bits (regs : VM_Version.armreg)
    (hdist : regs.ID_AA64ISAR0_AES_BASE ≠ regs.ID_AA64ISAR0_AES_PMULL)
    (midr id_aa64isar0 id_aa64pfr0 : Nat) :
    ∃ r, VM_Version.os_get_processor_features regs midr id_aa64isar0 id_aa64pfr0
        = Except.ok r ∧
      r.auxv &&& (VM_Version.HWCAP_ASIMD ||| VM_Version.HWCAP_AES ||| VM_Version.HWCAP_PMULL |||
          VM_Version.HWCAP_SHA1 ||| VM_Version.HWCAP_SHA2 ||| VM_Version.HWCAP_CRC32)
        = r.auxv ∧
      r.auxv &&& VM_Version.HWCAP_ATOMICS = 0 ∧
      ¬ (r.auxv &&& VM_Version.HWCAP_AES ≠ 0 ∧ r.auxv &&& VM_Version.HWCAP_PMULL ≠ 0) ∧
      (regs.ID_AA64ISAR0_AES id_aa64isar0 = regs.ID_AA64ISAR0_AES_PMULL →
        r.auxv &&& VM_Version.HWCAP_PMULL = VM_Version.HWCAP_PMULL ∧
        r.auxv &&& VM_Version.HWCAP_AES = 0) ∧
      (r.auxv &&& VM_Version.HWCAP_AES = VM_Version.HWCAP_AES ↔
        regs.ID_AA64ISAR0_AES id_aa64isar0 = regs.ID_AA64ISAR0_AES_BASE) ∧
      (r.auxv &&& VM_Version.HWCAP_PMULL = VM_Version.HWCAP_PMULL ↔
        regs.ID_AA64ISAR0_AES id_aa64isar0 = regs.ID_AA64ISAR0_AES_PMULL) ∧
      (r.auxv &&& VM_Version.HWCAP_SHA1 = VM_Version.HWCAP_SHA1 ↔
        regs.ID_AA64ISAR0_SHA1 id_aa64isar0 = regs.ID_AA64ISAR0_SHA1_BASE) ∧
      (r.auxv &&& VM_Version.HWCAP_SHA2 = VM_Version.HWCAP_SHA2 ↔
        regs.ID_AA64ISAR0_SHA2 id_aa64isar0 = regs.ID_AA64ISAR0_SHA2_BASE) ∧
      (r.auxv &&& VM_Version.HWCAP_CRC32 = VM_Version.HWCAP_CRC32 ↔
        regs.ID_AA64ISAR0_CRC32 id_aa64isar0 = regs.ID_AA64ISAR0_CRC32_BASE) ∧
      (r.auxv &&& VM_Version.HWCAP_ASIMD = VM_Version.HWCAP_ASIMD ↔
        ((id_aa64pfr0 >>> 20) &&& 0xf = 0 ∨ (id_aa64pfr0 >>> 20) &&& 0xf = 1)) := by
  obtain ⟨r, hr, hauxv⟩ := os_get_processor_features_returns regs midr id_aa64isar0 id_aa64pfr0
  refine ⟨r, hr, ?_⟩
  rw [hauxv, feature_word_eq]
  obtain ⟨hmask, hatom, haes, hpmull, hsha1, hsha2, hcrc, hasimd⟩ := hwcap_word_bits
    (decide (regs.ID_AA64ISAR0_AES id_aa64isar0 = regs.ID_AA64ISAR0_AES_BASE))
    (decide (regs.ID_AA64ISAR0_AES id_aa64isar0 = regs.ID_AA64ISAR0_AES_PMULL))
    (decide (regs.ID_AA64ISAR0_SHA1 id_aa64isar0 = regs.ID_AA64ISAR0_SHA1_BASE))
    (decide (regs.ID_AA64ISAR0_SHA2 id_aa64isar0 = regs.ID_AA64ISAR0_SHA2_BASE))
    (decide (regs.ID_AA64ISAR0_CRC32 id_aa64isar0 = regs.ID_AA64ISAR0_CRC32_BASE))
    (decide (VM_Version.ID_AA64PFR0_AdvSIMD id_aa64pfr0
        = VM_Version.ID_AA64PFR0_AdvSIMD_IMPL ∨
      VM_Version.ID_AA64PFR0_AdvSIMD id_aa64pfr0 = VM_Version.ID_AA64PFR0_AdvSIMD_HP))
  have baes := hwcap_bit_iff
    (regs.ID_AA64ISAR0_AES id_aa64isar0 = regs.ID_AA64ISAR0_AES_BASE)
    VM_Version.HWCAP_AES (by decide)
  have bpmull := hwcap_bit_iff
    (regs.ID_AA64ISAR0_AES id_aa64isar0 = regs.ID_AA64ISAR0_AES_PMULL)
    VM_Version.HWCAP_PMULL (by decide)
  have bsha1 := hwcap_bit_iff
    (regs.ID_AA64ISAR0_SHA1 id_aa64isar0 = regs.ID_AA64ISAR0_SHA1_BASE)
    VM_Version.HWCAP_SHA1 (by decide)
  have bsha2 := hwcap_bit_iff
    (regs.ID_AA64ISAR0_SHA2 id_aa64isar0 = regs.ID_AA64ISAR0_SHA2_BASE)
    VM_Version.HWCAP_SHA2 (by decide)
  have bcrc := hwcap_bit_iff
    (regs.ID_AA64ISAR0_CRC32 id_aa64isar0 = regs.ID_AA64ISAR0_CRC32_BASE)
    VM_Version.HWCAP_CRC32 (by decide)
  have basimd := hwcap_bit_iff
    (VM_Version.ID_AA64PFR0_AdvSIMD id_aa64pfr0 = VM_Version.ID_AA64PFR0_AdvSIMD_IMPL ∨
      VM_Version.ID_AA64PFR0_AdvSIMD id_aa64pfr0 = VM_Version.ID_AA64PFR0_AdvSIMD_HP)
    VM_Version.HWCAP_ASIMD (by decide)
  rw [haes, hpmull, hsha1, hsha2, hcrc, hasimd]
  refine ⟨hmask, hatom, ?_, ?_, baes.1, bpmull.1, bsha1.1, bsha2.1, bcrc.1, ?_⟩
  · rintro ⟨h1, h2⟩
    exact hdist ((baes.2.1.mp h1).symm.trans (bpmull.2.1.mp h2))
  · intro hp
    refine ⟨bpmull.1.mpr hp, baes.2.2.mpr ?_⟩
    intro hb
    exact hdist (hb.symm.trans hp)
  · rw [basimd.1, advsimd_test]

/-- Witness of `os_get_processor_features_bits`: with the FreeBSD macros, a register whose
AES field holds 2 (the PMULL encoding) and whose SHA1, SHA2 and CRC32 fields hold 1, and an
AdvSIMD field of 0, give PMULL, SHA1, SHA2, CRC32 and ASIMD without AES. -/
theorem os_get_processor_features_bits_witness :
    ∃ r, VM_Version.os_get_processor_features VM_Version.freebsd_armreg 0x410FD034
        0x11120 0x11 = Except.ok r ∧
      r.auxv &&& VM_Version.HWCAP_ATOMICS = 0 ∧
      r.auxv &&& VM_Version.HWCAP_PMULL = VM_Version.HWCAP_PMULL ∧
      r.auxv &&& VM_Version.HWCAP_AES = 0 ∧
      r.auxv &&& VM_Version.HWCAP_ASIMD = VM_Version.HWCAP_ASIMD := by
  obtain ⟨r, hr, _, hatom, _, hpm, _, _, _, _, _, hasimd⟩ :=
    os_get_processor_features_bits VM_Version.freebsd_armreg (by decide) 0x410FD034
      0x11120 0x11
  exact ⟨r, hr, hatom, (hpm (by decide)).1, (hpm (by decide)).2, hasimd.mpr (by decide)⟩

/-! ## `handleError` and the keep-alive natives -/

/-- The exception that `handleError` leaves pending, by cases on `rv` and `errno`. -/
theorem handleError_cases (ENOPROTOOPT errno rv : Int) (errmsg : String) :
    (BsdSocketOptions.handleError ENOPROTOOPT errno rv errmsg =
        some { class_name := "java/lang/UnsupportedOperationException"
               message := "unsupported socket option", last_error := none } ↔
      rv < 0 ∧ errno = ENOPROTOOPT) ∧
    (BsdSocketOptions.handleError ENOPROTOOPT errno rv errmsg =
        some { class_name := "java/net/SocketException", message := errmsg
               last_error := some errno } ↔
      rv < 0 ∧ errno ≠ ENOPROTOOPT) ∧
    (BsdSocketOptions.handleError ENOPROTOOPT errno rv errmsg = none ↔ 0 ≤ rv) ∧
    ((BsdSocketOptions.handleError ENOPROTOOPT errno rv errmsg).isSome = true ↔ rv < 0) := by
  unfold BsdSocketOptions.handleError BsdSocketOptions.JNU_ThrowByName
    BsdSocketOptions.JNU_ThrowByNameWithLastError
  by_cases hrv : rv < 0
  · have hnn : ¬ 0 ≤ rv := by omega
    by_cases he : errno = ENOPROTOOPT
    · simp [hrv, he, hnn]
    · simp [hrv, he, hnn]
  · have hnn : 0 ≤ rv := by omega
    simp [hrv, hnn]

/-- C21: for every return value `rv` and every `errno`, `handleError` raises
`UnsupportedOperationException` exactly when `rv < 0` and `errno` is `ENOPROTOOPT`, raises
`SocketException` exactly when `rv < 0` and `errno` is anything else, and raises nothing
exactly when `rv ≥ 0`; so each of the six keep-alive natives (not OpenBSD) leaves an
exception pending if and only if its `setsockopt` or `getsockopt` call returned a negative
value. -/
theorem keep_alive_natives_raise_iff :
    (∀ (ENOPROTOOPT errno rv : Int) (errmsg : String),
      ((∃ t, BsdSocketOptions.handleError ENOPROTOOPT errno rv errmsg = some t ∧
          t.class_name = "java/lang/UnsupportedOperationException") ↔
        rv < 0 ∧ errno = ENOPROTOOPT) ∧
      ((∃ t, BsdSocketOptions.handleError ENOPROTOOPT errno rv errmsg = some t ∧
          t.class_name = "java/net/SocketException") ↔
        rv < 0 ∧ errno ≠ ENOPROTOOPT) ∧
      (BsdSocketOptions.handleError ENOPROTOOPT errno rv errmsg = none ↔ 0 ≤ rv)) ∧
    (∀ (k : BsdSocketOptions.Sockets) (fd optval : Int),
      ((BsdSocketOptions.setTcpkeepAliveProbes0 k fd optval).isSome = true ↔
        (k.setsockopt fd BsdSocketOptions.TcpOption.TCP_KEEPCNT optval).rv < 0) ∧
      ((BsdSocketOptions.setTcpKeepAliveTime0 k fd optval).isSome = true ↔
        (k.setsockopt fd BsdSocketOptions.TcpOption.TCP_KEEPIDLE optval).rv < 0) ∧
      ((BsdSocketOptions.setTcpKeepAliveIntvl0 k fd optval).isSome = true ↔
        (k.setsockopt fd BsdSocketOptions.TcpOption.TCP_KEEPINTVL optval).rv < 0)) ∧
    (∀ (k : BsdSocketOptions.Sockets) (fd : Int),
      ((BsdSocketOptions.getTcpkeepAliveProbes0 k fd).1.isSome = true ↔
        (k.getsockopt fd BsdSocketOptions.TcpOption.TCP_KEEPCNT).rv < 0) ∧
      ((BsdSocketOptions.getTcpKeepAliveTime0 k fd).1.isSome = true ↔
        (k.getsockopt fd BsdSocketOptions.TcpOption.TCP_KEEPIDLE).rv < 0) ∧
      ((BsdSocketOptions.getTcpKeepAliveIntvl0 k fd).1.isSome = true ↔
        (k.getsockopt fd BsdSocketOptions.TcpOption.TCP_KEEPINTVL).rv < 0)) := by
  refine ⟨?_, ?_, ?_⟩
  · intro E errno rv errmsg
    obtain ⟨h1, h2, h3, _⟩ := handleError_cases E errno rv errmsg
    refine ⟨?_, ?_, h3⟩
    · constructor
      · rintro ⟨t, ht, hc⟩
        by_cases hrv : rv < 0
        · by_cases he : errno = E
          · exact ⟨hrv, he⟩
          · rw [h2.mpr ⟨hrv, he⟩] at ht
            cases ht
            have hne : ("java/net/SocketException" : String)
                ≠ "java/lang/UnsupportedOperationException" := by decide
            exact absurd hc hne
        · rw [h3.mpr (by omega)] at ht
          cases ht
      · intro h
        exact ⟨_, h1.mpr h, rfl⟩
    · constructor
      · rintro ⟨t, ht, hc⟩
        by_cases hrv : rv < 0
        · by_cases he : errno = E
          · rw [h1.mpr ⟨hrv, he⟩] at ht
            cases ht
            have hne : ("java/lang/UnsupportedOperationException" : String)
                ≠ "java/net/SocketException" := by decide
            exact absurd hc hne
          · exact ⟨hrv, he⟩
        · rw [h3.mpr (by omega)] at ht
          cases ht
      · intro h
        exact ⟨_, h2.mpr h, rfl⟩
  · intro k fd optval
    exact ⟨(handleError_cases _ _ _ _).2.2.2, (handleError_cases _ _ _ _).2.2.2,
      (handleError_cases _ _ _ _).2.2.2⟩
  · intro k fd
    exact ⟨(handleError_cases _ _ _ _).2.2.2, (handleError_cases _ _ _ _).2.2.2,
      (handleError_cases _ _ _ _).2.2.2⟩

end OsPerfBsd
